import Mathlib

/-!
# goscaffold: the project generator

A shallow embedding of `internal/generator` (generator.go, files.go): the
configuration record, the file writer, the directory planner, the template and
feature file builders and the orchestrator `Generate`, together with the
lexical path functions of Go's `path/filepath` (Unix flavour) that the
generator calls.

Go strings are modelled as `String`; every separator, dot and literal the
generator handles is ASCII, so working on characters instead of bytes does not
change any path computation.  Progress messages printed with `fmt.Printf` are
not part of the model.
-/

namespace GoScaffold

/-! ## Lexical path functions (`path/filepath`, Unix) -/

/-- Split a path at every separator `/`; empty elements are kept. -/
def splitSep : List Char → List (List Char)
  | [] => [[]]
  | c :: cs =>
    if c = '/' then [] :: splitSep cs
    else
      match splitSep cs with
      | [] => [[c]]
      | e :: es => (c :: e) :: es

/-- Concatenate path elements, one `/` between neighbours: `strings.Join(elems, "/")` on
character lists. -/
def joinSep : List (List Char) → List Char
  | [] => []
  | [e] => e
  | e :: es => e ++ '/' :: joinSep es

/-- Element-wise pass of `filepath.Clean`: `out` is the stack of elements kept so far, last
one first.  Empty elements and `.` are dropped; `..` removes the last kept element when there
is one that is not itself `..`, is kept at the front of a relative path, and is dropped at the
root of a rooted path; every other element is kept. -/
def cleanElems (rooted : Bool) : List (List Char) → List (List Char) → List (List Char)
  | [], out => out.reverse
  | e :: es, out =>
    if e = [] then cleanElems rooted es out
    else if e = ['.'] then cleanElems rooted es out
    else if e = ['.', '.'] then
      match out with
      | top :: rest =>
        if top = ['.', '.'] then cleanElems rooted es (e :: out)
        else cleanElems rooted es rest
      | [] => if rooted then cleanElems rooted es [] else cleanElems rooted es [e]
    else cleanElems rooted es (e :: out)

/-- Character-level `filepath.Clean`: the empty path becomes `.`, a rooted path keeps its
leading `/`, and a relative path that cleans to nothing becomes `.`. -/
def cleanChars (path : List Char) : List Char :=
  match path with
  | [] => ['.']
  | c :: _ =>
    if c = '/' then '/' :: joinSep (cleanElems true (splitSep path) [])
    else
      match joinSep (cleanElems false (splitSep path) []) with
      | [] => ['.']
      | out => out

/-- Go's `filepath.Clean`: the shortest path name equivalent to `path` by purely lexical
processing. -/
def Clean (path : String) : String := String.mk (cleanChars path.data)

/-- Go's `strings.Join(elems, "/")`. -/
def stringsJoin (elems : List String) : String :=
  String.mk (joinSep (elems.map String.data))

/-- Go's `filepath.Join`: leading empty elements are ignored, the rest is joined with `/` and
cleaned; when every element is empty the result is the empty string. -/
def Join : List String → String
  | [] => ""
  | e :: es => if e = "" then Join es else Clean (stringsJoin (e :: es))

/-- Everything up to and including the last separator of a path. -/
def dirPrefix : List Char → List Char
  | [] => []
  | c :: cs =>
    if '/' ∈ cs then c :: dirPrefix cs
    else if c = '/' then [c] else []

/-- Go's `filepath.Dir`: the path without its last element, cleaned. -/
def Dir (path : String) : String := Clean (String.mk (dirPrefix path.data))

/-! ## Configuration and the outside world -/

/-- The generator's `Config`. -/
structure Config where
  Name : String
  ModulePath : String
  Template : String
  IncludeMakefile : Bool
  IncludeDocker : Bool
  IncludeCI : Bool
  IncludeLint : Bool
  IncludePreCommit : Bool
  IncludeTests : Bool
  InitGit : Bool
  deriving DecidableEq, Repr

/-- Go error values, carried as their message. -/
abbrev Error := String

/-- The operations the generator asks of its environment: `os.MkdirAll(path, 0755)`,
`os.WriteFile(path, content, 0644)` and running `git init` in a directory. -/
inductive Op where
  | osMkdirAll (path : String)
  | osWriteFile (path content : String)
  | gitInit (dir : String)
  deriving DecidableEq, Repr

/-- One operation that was attempted, with the error it returned (`none` for success). -/
structure Event where
  op : Op
  err : Option Error
  deriving DecidableEq, Repr

/-- The world is the history of operations attempted so far, oldest first. -/
abbrev World := List Event

/-- The environment's behaviour: given the history and the operation attempted now, the error
it returns, if any.  Nothing is assumed about it. -/
abbrev Oracle := World → Op → Option Error

/-- What a generator function returns: its Go `error` (`none` for `nil`) and the world it
leaves behind. -/
abbrev Result := Option Error × World

/-- Attempt one operation and record it. -/
def perform (o : Oracle) (op : Op) (w : World) : Result :=
  (o w op, w ++ [⟨op, o w op⟩])

/-- The Go idiom `if err := f(); err != nil { return err }` followed by the rest `k`. -/
def andThen (r : Result) (k : World → Result) : Result :=
  match r with
  | (none, w) => k w
  | (some e, w) => (some e, w)

/-- The helper `writeFile`: create the parent directory, then write the file. -/
def writeFile (o : Oracle) (path content : String) (w : World) : Result :=
  andThen (perform o (Op.osMkdirAll (Dir path)) w) fun w =>
  perform o (Op.osWriteFile path content) w

/-! ## File contents -/

/-- Content of go.mod (createGoMod, local content). -/
def createGoMod_content (modulePath : String) : String :=
  "module " ++ modulePath ++ "\n" ++
  "\n" ++
  "go 1.21\n"

/-- Content of .gitignore (createGitignore, local content). -/
def createGitignore_content : String :=
  "# Binaries\n" ++
  "bin/\n" ++
  "*.exe\n" ++
  "*.exe~\n" ++
  "*.dll\n" ++
  "*.so\n" ++
  "*.dylib\n" ++
  "\n" ++
  "# Test binary\n" ++
  "*.test\n" ++
  "\n" ++
  "# Output of go coverage\n" ++
  "*.out\n" ++
  "\n" ++
  "# Dependency directories\n" ++
  "vendor/\n" ++
  "\n" ++
  "# IDE\n" ++
  ".idea/\n" ++
  ".vscode/\n" ++
  "*.swp\n" ++
  "*.swo\n" ++
  "\n" ++
  "# OS\n" ++
  ".DS_Store\n" ++
  "Thumbs.db\n" ++
  "\n" ++
  "# Environment\n" ++
  ".env\n" ++
  ".env.local\n" ++
  "\n" ++
  "# Build\n" ++
  "dist/\n" ++
  "\n" ++
  "# Logs\n" ++
  "*.log\n"

/-- Local mainGo of createBasicTemplate. -/
def createBasicTemplate_mainGo (name : String) : String :=
  "package main\n" ++
  "\n" ++
  "import \"fmt\"\n" ++
  "\n" ++
  "func main() \x7b\n" ++
  "\tfmt.Println(\"Hello from " ++ name ++ "!\")\n" ++
  "\x7d\n"

/-- Local testGo of createBasicTemplate. -/
def createBasicTemplate_testGo : String :=
  "package main\n" ++
  "\n" ++
  "import \"testing\"\n" ++
  "\n" ++
  "func TestMain(t *testing.T) \x7b\n" ++
  "\t// Add your tests here\n" ++
  "\x7d\n"

/-- Local mainGo of createCLITemplate. -/
def createCLITemplate_mainGo (modulePath : String) : String :=
  "package main\n" ++
  "\n" ++
  "import (\n" ++
  "\t\"os\"\n" ++
  "\n" ++
  "\t\"" ++ modulePath ++ "/internal/cmd\"\n" ++
  ")\n" ++
  "\n" ++
  "func main() \x7b\n" ++
  "\tif err := cmd.Execute(); err != nil \x7b\n" ++
  "\t\tos.Exit(1)\n" ++
  "\t\x7d\n" ++
  "\x7d\n"

/-- Local rootCmd of createCLITemplate. -/
def createCLITemplate_rootCmd (name : String) : String :=
  "package cmd\n" ++
  "\n" ++
  "import (\n" ++
  "\t\"fmt\"\n" ++
  "\n" ++
  "\t\"github.com/spf13/cobra\"\n" ++
  ")\n" ++
  "\n" ++
  "var rootCmd = &cobra.Command\x7b\n" ++
  "\tUse:   \"" ++ name ++ "\",\n" ++
  "\tShort: \"A brief description of your application\",\n" ++
  "\tLong: `" ++ name ++ " is a CLI application.\n" ++
  "\n" ++
  "Add a longer description here.`,\n" ++
  "\tRun: func(cmd *cobra.Command, args []string) \x7b\n" ++
  "\t\tfmt.Println(\"Welcome to " ++ name ++ "!\")\n" ++
  "\t\tfmt.Println(\"Use --help to see available commands.\")\n" ++
  "\t\x7d,\n" ++
  "\x7d\n" ++
  "\n" ++
  "// Execute runs the root command\n" ++
  "func Execute() error \x7b\n" ++
  "\treturn rootCmd.Execute()\n" ++
  "\x7d\n" ++
  "\n" ++
  "func init() \x7b\n" ++
  "\t// Add global flags here\n" ++
  "\t// rootCmd.PersistentFlags().StringVar(&cfgFile, \"config\", \"\", \"config file\")\n" ++
  "\x7d\n"

/-- Local versionCmd of createCLITemplate. -/
def createCLITemplate_versionCmd : String :=
  "package cmd\n" ++
  "\n" ++
  "import (\n" ++
  "\t\"fmt\"\n" ++
  "\n" ++
  "\t\"github.com/spf13/cobra\"\n" ++
  ")\n" ++
  "\n" ++
  "var versionCmd = &cobra.Command\x7b\n" ++
  "\tUse:   \"version\",\n" ++
  "\tShort: \"Print version information\",\n" ++
  "\tRun: func(cmd *cobra.Command, args []string) \x7b\n" ++
  "\t\tfmt.Println(\"v0.1.0\")\n" ++
  "\t\x7d,\n" ++
  "\x7d\n" ++
  "\n" ++
  "func init() \x7b\n" ++
  "\trootCmd.AddCommand(versionCmd)\n" ++
  "\x7d\n"

/-- Local mainGo of createAPITemplate. -/
def createAPITemplate_mainGo (modulePath : String) : String :=
  "package main\n" ++
  "\n" ++
  "import (\n" ++
  "\t\"log\"\n" ++
  "\t\"net/http\"\n" ++
  "\n" ++
  "\t\"" ++ modulePath ++ "/internal/router\"\n" ++
  ")\n" ++
  "\n" ++
  "func main() \x7b\n" ++
  "\tr := router.New()\n" ++
  "\n" ++
  "\tlog.Println(\"Server starting on :8080\")\n" ++
  "\tif err := http.ListenAndServe(\":8080\", r); err != nil \x7b\n" ++
  "\t\tlog.Fatal(err)\n" ++
  "\t\x7d\n" ++
  "\x7d\n"

/-- Local routerGo of createAPITemplate. -/
def createAPITemplate_routerGo (modulePath : String) : String :=
  "package router\n" ++
  "\n" ++
  "import (\n" ++
  "\t\"github.com/go-chi/chi/v5\"\n" ++
  "\t\"github.com/go-chi/chi/v5/middleware\"\n" ++
  "\n" ++
  "\t\"" ++ modulePath ++ "/internal/handler\"\n" ++
  "\tmw \"" ++ modulePath ++ "/internal/middleware\"\n" ++
  ")\n" ++
  "\n" ++
  "// New creates a new router with all routes configured\n" ++
  "func New() *chi.Mux \x7b\n" ++
  "\tr := chi.NewRouter()\n" ++
  "\n" ++
  "\t// Middleware\n" ++
  "\tr.Use(middleware.Logger)\n" ++
  "\tr.Use(middleware.Recoverer)\n" ++
  "\tr.Use(middleware.RequestID)\n" ++
  "\tr.Use(mw.ContentType)\n" ++
  "\n" ++
  "\t// Routes\n" ++
  "\tr.Get(\"/\", handler.Home)\n" ++
  "\tr.Get(\"/health\", handler.Health)\n" ++
  "\n" ++
  "\t// API routes\n" ++
  "\tr.Route(\"/api/v1\", func(r chi.Router) \x7b\n" ++
  "\t\tr.Get(\"/hello\", handler.Hello)\n" ++
  "\t\x7d)\n" ++
  "\n" ++
  "\treturn r\n" ++
  "\x7d\n"

/-- Local handlerGo of createAPITemplate. -/
def createAPITemplate_handlerGo : String :=
  "package handler\n" ++
  "\n" ++
  "import (\n" ++
  "\t\"encoding/json\"\n" ++
  "\t\"net/http\"\n" ++
  ")\n" ++
  "\n" ++
  "// Response is a generic API response\n" ++
  "type Response struct \x7b\n" ++
  "\tMessage string `json:\"message\"`\n" ++
  "\tStatus  int    `json:\"status\"`\n" ++
  "\x7d\n" ++
  "\n" ++
  "// Home handles the root endpoint\n" ++
  "func Home(w http.ResponseWriter, r *http.Request) \x7b\n" ++
  "\trespond(w, http.StatusOK, Response\x7b\n" ++
  "\t\tMessage: \"Welcome to the API\",\n" ++
  "\t\tStatus:  http.StatusOK,\n" ++
  "\t\x7d)\n" ++
  "\x7d\n" ++
  "\n" ++
  "// Health handles health check endpoint\n" ++
  "func Health(w http.ResponseWriter, r *http.Request) \x7b\n" ++
  "\trespond(w, http.StatusOK, Response\x7b\n" ++
  "\t\tMessage: \"OK\",\n" ++
  "\t\tStatus:  http.StatusOK,\n" ++
  "\t\x7d)\n" ++
  "\x7d\n" ++
  "\n" ++
  "// Hello handles the hello endpoint\n" ++
  "func Hello(w http.ResponseWriter, r *http.Request) \x7b\n" ++
  "\trespond(w, http.StatusOK, Response\x7b\n" ++
  "\t\tMessage: \"Hello, World!\",\n" ++
  "\t\tStatus:  http.StatusOK,\n" ++
  "\t\x7d)\n" ++
  "\x7d\n" ++
  "\n" ++
  "func respond(w http.ResponseWriter, status int, data interface\x7b\x7d) \x7b\n" ++
  "\tw.WriteHeader(status)\n" ++
  "\tjson.NewEncoder(w).Encode(data)\n" ++
  "\x7d\n"

/-- Local middlewareGo of createAPITemplate. -/
def createAPITemplate_middlewareGo : String :=
  "package middleware\n" ++
  "\n" ++
  "import \"net/http\"\n" ++
  "\n" ++
  "// ContentType sets the Content-Type header to application/json\n" ++
  "func ContentType(next http.Handler) http.Handler \x7b\n" ++
  "\treturn http.HandlerFunc(func(w http.ResponseWriter, r *http.Request) \x7b\n" ++
  "\t\tw.Header().Set(\"Content-Type\", \"application/json\")\n" ++
  "\t\tnext.ServeHTTP(w, r)\n" ++
  "\t\x7d)\n" ++
  "\x7d\n"

/-- Local handlerTestGo of createAPITemplate. -/
def createAPITemplate_handlerTestGo : String :=
  "package handler\n" ++
  "\n" ++
  "import (\n" ++
  "\t\"net/http\"\n" ++
  "\t\"net/http/httptest\"\n" ++
  "\t\"testing\"\n" ++
  ")\n" ++
  "\n" ++
  "func TestHealth(t *testing.T) \x7b\n" ++
  "\treq := httptest.NewRequest(http.MethodGet, \"/health\", nil)\n" ++
  "\tw := httptest.NewRecorder()\n" ++
  "\n" ++
  "\tHealth(w, req)\n" ++
  "\n" ++
  "\tif w.Code != http.StatusOK \x7b\n" ++
  "\t\tt.Errorf(\"expected status %d, got %d\", http.StatusOK, w.Code)\n" ++
  "\t\x7d\n" ++
  "\x7d\n"

/-- Local mainGo of createGRPCTemplate. -/
def createGRPCTemplate_mainGo (modulePath : String) : String :=
  "package main\n" ++
  "\n" ++
  "import (\n" ++
  "\t\"log\"\n" ++
  "\t\"net\"\n" ++
  "\n" ++
  "\t\"" ++ modulePath ++ "/internal/server\"\n" ++
  "\t\"google.golang.org/grpc\"\n" ++
  ")\n" ++
  "\n" ++
  "func main() \x7b\n" ++
  "\tlis, err := net.Listen(\"tcp\", \":50051\")\n" ++
  "\tif err != nil \x7b\n" ++
  "\t\tlog.Fatalf(\"failed to listen: %v\", err)\n" ++
  "\t\x7d\n" ++
  "\n" ++
  "\ts := grpc.NewServer()\n" ++
  "\tserver.Register(s)\n" ++
  "\n" ++
  "\tlog.Println(\"gRPC server starting on :50051\")\n" ++
  "\tif err := s.Serve(lis); err != nil \x7b\n" ++
  "\t\tlog.Fatalf(\"failed to serve: %v\", err)\n" ++
  "\t\x7d\n" ++
  "\x7d\n"

/-- Local serverGo of createGRPCTemplate. -/
def createGRPCTemplate_serverGo : String :=
  "package server\n" ++
  "\n" ++
  "import (\n" ++
  "\t\"context\"\n" ++
  "\n" ++
  "\t\"google.golang.org/grpc\"\n" ++
  ")\n" ++
  "\n" ++
  "// GreeterServer implements the Greeter service\n" ++
  "type GreeterServer struct\x7b\x7d\n" ++
  "\n" ++
  "// Register registers the server with gRPC\n" ++
  "func Register(s *grpc.Server) \x7b\n" ++
  "\t// Register your gRPC services here\n" ++
  "\t// pb.RegisterGreeterServer(s, &GreeterServer\x7b\x7d)\n" ++
  "\x7d\n" ++
  "\n" ++
  "// SayHello implements the SayHello RPC\n" ++
  "func (s *GreeterServer) SayHello(ctx context.Context, name string) (string, error) \x7b\n" ++
  "\treturn \"Hello, \" + name + \"!\", nil\n" ++
  "\x7d\n"

/-- Local protoFile of createGRPCTemplate. -/
def createGRPCTemplate_protoFile (name : String) (modulePath : String) : String :=
  "syntax = \"proto3\";\n" ++
  "\n" ++
  "package " ++ name ++ ";\n" ++
  "\n" ++
  "option go_package = \"" ++ modulePath ++ "/pkg/pb\";\n" ++
  "\n" ++
  "service Greeter \x7b\n" ++
  "  rpc SayHello (HelloRequest) returns (HelloReply) \x7b\x7d\n" ++
  "\x7d\n" ++
  "\n" ++
  "message HelloRequest \x7b\n" ++
  "  string name = 1;\n" ++
  "\x7d\n" ++
  "\n" ++
  "message HelloReply \x7b\n" ++
  "  string message = 1;\n" ++
  "\x7d\n"

/-- Local libGo of createLibraryTemplate. -/
def createLibraryTemplate_libGo (name : String) : String :=
  "// Package " ++ name ++ " provides functionality for...\n" ++
  "package " ++ name ++ "\n" ++
  "\n" ++
  "// Version is the current version of the library\n" ++
  "const Version = \"0.1.0\"\n" ++
  "\n" ++
  "// Example is an example function\n" ++
  "func Example() string \x7b\n" ++
  "\treturn \"Hello from " ++ name ++ " library!\"\n" ++
  "\x7d\n"

/-- Local exampleGo of createLibraryTemplate. -/
def createLibraryTemplate_exampleGo (name : String) (modulePath : String) : String :=
  "//go:build ignore\n" ++
  "\n" ++
  "package main\n" ++
  "\n" ++
  "import (\n" ++
  "\t\"fmt\"\n" ++
  "\n" ++
  "\t\"" ++ modulePath ++ "/pkg/" ++ name ++ "\"\n" ++
  ")\n" ++
  "\n" ++
  "func main() \x7b\n" ++
  "\tfmt.Println(" ++ name ++ ".Example())\n" ++
  "\x7d\n"

/-- Local testGo of createLibraryTemplate. -/
def createLibraryTemplate_testGo (name : String) : String :=
  "package " ++ name ++ "\n" ++
  "\n" ++
  "import \"testing\"\n" ++
  "\n" ++
  "func TestExample(t *testing.T) \x7b\n" ++
  "\tresult := Example()\n" ++
  "\texpected := \"Hello from " ++ name ++ " library!\"\n" ++
  "\n" ++
  "\tif result != expected \x7b\n" ++
  "\t\tt.Errorf(\"expected %q, got %q\", expected, result)\n" ++
  "\t\x7d\n" ++
  "\x7d\n"

/-- Local content of createMakefile, given the chosen runTarget. -/
def createMakefile_content (name : String) (modulePath : String) (runTarget : String) : String :=
  "# Project variables\n" ++
  "BINARY_NAME=" ++ name ++ "\n" ++
  "PKG=" ++ modulePath ++ "\n" ++
  "\n" ++
  "# Go commands\n" ++
  "GOCMD=go\n" ++
  "GOBUILD=$(GOCMD) build\n" ++
  "GOTEST=$(GOCMD) test\n" ++
  "GOGET=$(GOCMD) get\n" ++
  "GOMOD=$(GOCMD) mod\n" ++
  "GOLINT=golangci-lint\n" ++
  "\n" ++
  "# Build flags\n" ++
  "LDFLAGS=-ldflags \"-s -w\"\n" ++
  "\n" ++
  ".PHONY: all build clean test lint run tidy help\n" ++
  "\n" ++
  "all: lint test build\n" ++
  "\n" ++
  "## build: Build the binary\n" ++
  "build:\n" ++
  "\t$(GOBUILD) $(LDFLAGS) -o bin/$(BINARY_NAME) ./cmd/$(BINARY_NAME)\n" ++
  "\n" ++
  "## clean: Clean build artifacts\n" ++
  "clean:\n" ++
  "\trm -rf bin/\n" ++
  "\trm -f coverage.out\n" ++
  "\n" ++
  "## test: Run tests\n" ++
  "test:\n" ++
  "\t$(GOTEST) -v -race -coverprofile=coverage.out ./...\n" ++
  "\n" ++
  "## lint: Run linter\n" ++
  "lint:\n" ++
  "\t$(GOLINT) run ./...\n" ++
  "\n" ++
  "## run: Run the application\n" ++
  "run:\n" ++
  "\t" ++ runTarget ++ "\n" ++
  "\n" ++
  "## tidy: Tidy dependencies\n" ++
  "tidy:\n" ++
  "\t$(GOMOD) tidy\n" ++
  "\n" ++
  "## help: Show this help\n" ++
  "help:\n" ++
  "\t@echo \"Available targets:\"\n" ++
  "\t@sed -n \x27s/^##//p\x27 $(MAKEFILE_LIST) | column -t -s \x27:\x27 | sed -e \x27s/^/ /\x27\n"

/-- Local dockerfile of createDockerFiles. -/
def createDockerFiles_dockerfile (name : String) : String :=
  "# Build stage\n" ++
  "FROM golang:1.21-alpine AS builder\n" ++
  "\n" ++
  "WORKDIR /app\n" ++
  "\n" ++
  "# Copy go mod files\n" ++
  "COPY go.mod go.sum* ./\n" ++
  "RUN go mod download\n" ++
  "\n" ++
  "# Copy source\n" ++
  "COPY . .\n" ++
  "\n" ++
  "# Build\n" ++
  "RUN CGO_ENABLED=0 GOOS=linux go build -ldflags=\"-s -w\" -o /" ++ name ++
  " ./cmd/" ++ name ++ "\n" ++
  "\n" ++
  "# Final stage\n" ++
  "FROM alpine:latest\n" ++
  "\n" ++
  "RUN apk --no-cache add ca-certificates\n" ++
  "\n" ++
  "WORKDIR /root/\n" ++
  "\n" ++
  "COPY --from=builder /" ++ name ++ " .\n" ++
  "\n" ++
  "EXPOSE 8080\n" ++
  "\n" ++
  "CMD [\"./" ++ name ++ "\"]\n"

/-- Local compose of createDockerFiles. -/
def createDockerFiles_compose (name : String) : String :=
  "version: \x273.8\x27\n" ++
  "\n" ++
  "services:\n" ++
  "  " ++ name ++ ":\n" ++
  "    build: .\n" ++
  "    ports:\n" ++
  "      - \"8080:8080\"\n" ++
  "    environment:\n" ++
  "      - ENV=development\n" ++
  "    restart: unless-stopped\n"

/-- Local workflow of createCIWorkflow. -/
def createCIWorkflow_workflow : String :=
  "name: CI\n" ++
  "\n" ++
  "on:\n" ++
  "  push:\n" ++
  "    branches: [ main, master ]\n" ++
  "  pull_request:\n" ++
  "    branches: [ main, master ]\n" ++
  "\n" ++
  "jobs:\n" ++
  "  build:\n" ++
  "    runs-on: ubuntu-latest\n" ++
  "\n" ++
  "    steps:\n" ++
  "    - uses: actions/checkout@v4\n" ++
  "\n" ++
  "    - name: Set up Go\n" ++
  "      uses: actions/setup-go@v5\n" ++
  "      with:\n" ++
  "        go-version: \x271.21\x27\n" ++
  "\n" ++
  "    - name: Install dependencies\n" ++
  "      run: go mod download\n" ++
  "\n" ++
  "    - name: Run golangci-lint\n" ++
  "      uses: golangci/golangci-lint-action@v4\n" ++
  "      with:\n" ++
  "        version: latest\n" ++
  "\n" ++
  "    - name: Run tests\n" ++
  "      run: go test -v -race -coverprofile=coverage.out ./...\n" ++
  "\n" ++
  "    - name: Build\n" ++
  "      run: go build -v ./...\n"

/-- Local content of createLintConfig. -/
def createLintConfig_content : String :=
  "run:\n" ++
  "  timeout: 5m\n" ++
  "\n" ++
  "linters:\n" ++
  "  enable:\n" ++
  "    - errcheck\n" ++
  "    - gosimple\n" ++
  "    - govet\n" ++
  "    - ineffassign\n" ++
  "    - staticcheck\n" ++
  "    - unused\n" ++
  "    - gofmt\n" ++
  "    - goimports\n" ++
  "    - misspell\n" ++
  "    - unconvert\n" ++
  "\n" ++
  "linters-settings:\n" ++
  "  gofmt:\n" ++
  "    simplify: true\n" ++
  "  goimports:\n" ++
  "    local-prefixes: github.com\n" ++
  "\n" ++
  "issues:\n" ++
  "  exclude-rules:\n" ++
  "    - path: _test\\.go\n" ++
  "      linters:\n" ++
  "        - errcheck\n"

/-- Local content of createPreCommitConfig. -/
def createPreCommitConfig_content : String :=
  "repos:\n" ++
  "  - repo: https://github.com/pre-commit/pre-commit-hooks\n" ++
  "    rev: v4.5.0\n" ++
  "    hooks:\n" ++
  "      - id: trailing-whitespace\n" ++
  "      - id: end-of-file-fixer\n" ++
  "      - id: check-yaml\n" ++
  "      - id: check-added-large-files\n" ++
  "\n" ++
  "  - repo: https://github.com/golangci/golangci-lint\n" ++
  "    rev: v1.55.2\n" ++
  "    hooks:\n" ++
  "      - id: golangci-lint\n" ++
  "\n" ++
  "  - repo: local\n" ++
  "    hooks:\n" ++
  "      - id: go-mod-tidy\n" ++
  "        name: go mod tidy\n" ++
  "        entry: go mod tidy\n" ++
  "        language: system\n" ++
  "        pass_filenames: false\n"

/-- Usage block chosen by createReadme for cli. -/
def createReadme_usageCLI (name : String) : String :=
  "```bash\n" ++
  "go run ./cmd/" ++ name ++ "\n" ++
  "```"

/-- Usage block chosen by createReadme for api. -/
def createReadme_usageAPI (name : String) : String :=
  "```bash\n" ++
  "go run ./cmd/" ++ name ++ "\n" ++
  "# Server starts on :8080\n" ++
  "curl http://localhost:8080/health\n" ++
  "```"

/-- Usage block chosen by createReadme for grpc. -/
def createReadme_usageGRPC (name : String) : String :=
  "```bash\n" ++
  "go run ./cmd/" ++ name ++ "\n" ++
  "# Server starts on :50051\n" ++
  "```"

/-- Usage block chosen by createReadme for library. -/
def createReadme_usageLibrary (name : String) (modulePath : String) : String :=
  "```go\n" ++
  "import \"" ++ modulePath ++ "/pkg/" ++ name ++ "\"\n" ++
  "\n" ++
  "func main() \x7b\n" ++
  "    result := " ++ name ++ ".Example()\n" ++
  "\x7d\n" ++
  "```"

/-- Usage block chosen by createReadme in the default case. -/
def createReadme_usageDefault : String :=
  "```bash\n" ++
  "go run .\n" ++
  "```"

/-- First part of the README content (the Sprintf of createReadme). -/
def createReadme_head (name : String) (modulePath : String) (description usage : String) : String :=
  "# " ++ name ++ "\n" ++
  "\n" ++
  description ++ "\n" ++
  "\n" ++
  "## Installation\n" ++
  "\n" ++
  "```bash\n" ++
  "go get " ++ modulePath ++ "\n" ++
  "```\n" ++
  "\n" ++
  "## Usage\n" ++
  "\n" ++
  usage ++ "\n" ++
  "\n" ++
  "## Development\n" ++
  "\n" ++
  "### Prerequisites\n" ++
  "\n" ++
  "- Go 1.21 or later\n"

/-- Block appended by createReadme when IncludeMakefile is set. -/
def createReadme_commands : String :=
  "\n" ++
  "### Available Commands\n" ++
  "\n" ++
  "```bash\n" ++
  "make help    # Show available commands\n" ++
  "make build   # Build the binary\n" ++
  "make test    # Run tests\n" ++
  "make lint    # Run linter\n" ++
  "make run     # Run the application\n" ++
  "```\n"

/-- Final block appended by createReadme. -/
def createReadme_license : String :=
  "\n" ++
  "## License\n" ++
  "\n" ++
  "MIT License\n"

/-! ## Template builders (files.go) -/

/-- The method `createBasicTemplate`. -/
def createBasicTemplate (o : Oracle) (g : Config) (w : World) : Result :=
  andThen (writeFile o (Join [g.Name, "main.go"]) (createBasicTemplate_mainGo g.Name) w) fun w =>
  andThen
    (if g.IncludeTests then
      writeFile o (Join [g.Name, "main_test.go"]) createBasicTemplate_testGo w
    else (none, w)) fun w =>
  (none, w)

/-- The method `createCLITemplate`. -/
def createCLITemplate (o : Oracle) (g : Config) (w : World) : Result :=
  andThen (writeFile o (Join [g.Name, "cmd", g.Name, "main.go"])
    (createCLITemplate_mainGo g.ModulePath) w) fun w =>
  andThen (writeFile o (Join [g.Name, "internal", "cmd", "root.go"])
    (createCLITemplate_rootCmd g.Name) w) fun w =>
  andThen (writeFile o (Join [g.Name, "internal", "cmd", "version.go"])
    createCLITemplate_versionCmd w) fun w =>
  (none, w)

/-- The method `createAPITemplate`. -/
def createAPITemplate (o : Oracle) (g : Config) (w : World) : Result :=
  andThen (writeFile o (Join [g.Name, "cmd", g.Name, "main.go"])
    (createAPITemplate_mainGo g.ModulePath) w) fun w =>
  andThen (writeFile o (Join [g.Name, "internal", "router", "router.go"])
    (createAPITemplate_routerGo g.ModulePath) w) fun w =>
  andThen (writeFile o (Join [g.Name, "internal", "handler", "handler.go"])
    createAPITemplate_handlerGo w) fun w =>
  andThen (writeFile o (Join [g.Name, "internal", "middleware", "middleware.go"])
    createAPITemplate_middlewareGo w) fun w =>
  andThen
    (if g.IncludeTests then
      writeFile o (Join [g.Name, "internal", "handler", "handler_test.go"])
        createAPITemplate_handlerTestGo w
    else (none, w)) fun w =>
  (none, w)

/-- The method `createGRPCTemplate`. -/
def createGRPCTemplate (o : Oracle) (g : Config) (w : World) : Result :=
  andThen (writeFile o (Join [g.Name, "cmd", g.Name, "main.go"])
    (createGRPCTemplate_mainGo g.ModulePath) w) fun w =>
  andThen (writeFile o (Join [g.Name, "internal", "server", "server.go"])
    createGRPCTemplate_serverGo w) fun w =>
  andThen (writeFile o (Join [g.Name, "proto", g.Name ++ ".proto"])
    (createGRPCTemplate_protoFile g.Name g.ModulePath) w) fun w =>
  (none, w)

/-- The method `createLibraryTemplate`. -/
def createLibraryTemplate (o : Oracle) (g : Config) (w : World) : Result :=
  andThen (writeFile o (Join [g.Name, "pkg", g.Name, g.Name ++ ".go"])
    (createLibraryTemplate_libGo g.Name) w) fun w =>
  andThen (writeFile o (Join [g.Name, "examples", "basic", "main.go"])
    (createLibraryTemplate_exampleGo g.Name g.ModulePath) w) fun w =>
  andThen
    (if g.IncludeTests then
      writeFile o (Join [g.Name, "pkg", g.Name, g.Name ++ "_test.go"])
        (createLibraryTemplate_testGo g.Name) w
    else (none, w)) fun w =>
  (none, w)

/-! ## Feature file builders (files.go) -/

/-- The local `runTarget` of `createMakefile`. -/
def createMakefile_runTarget (g : Config) : String :=
  if g.Template = "basic" then "go run ."
  else if g.Template = "library" then "go run ./examples/basic"
  else "go run ./cmd/" ++ g.Name

/-- The method `createMakefile`. -/
def createMakefile (o : Oracle) (g : Config) (w : World) : Result :=
  writeFile o (Join [g.Name, "Makefile"])
    (createMakefile_content g.Name g.ModulePath (createMakefile_runTarget g)) w

/-- The method `createDockerFiles`. -/
def createDockerFiles (o : Oracle) (g : Config) (w : World) : Result :=
  andThen (writeFile o (Join [g.Name, "Dockerfile"])
    (createDockerFiles_dockerfile g.Name) w) fun w =>
  writeFile o (Join [g.Name, "docker-compose.yml"]) (createDockerFiles_compose g.Name) w

/-- The method `createCIWorkflow`. -/
def createCIWorkflow (o : Oracle) (g : Config) (w : World) : Result :=
  writeFile o (Join [g.Name, ".github", "workflows", "ci.yml"]) createCIWorkflow_workflow w

/-- The method `createLintConfig`. -/
def createLintConfig (o : Oracle) (g : Config) (w : World) : Result :=
  writeFile o (Join [g.Name, ".golangci.yml"]) createLintConfig_content w

/-- The method `createPreCommitConfig`. -/
def createPreCommitConfig (o : Oracle) (g : Config) (w : World) : Result :=
  writeFile o (Join [g.Name, ".pre-commit-config.yaml"]) createPreCommitConfig_content w

/-- The local `description` of `createReadme`. -/
def createReadme_description (g : Config) : String :=
  if g.Template = "cli" then "A command-line application built with Go and Cobra."
  else if g.Template = "api" then "A REST API built with Go and Chi router."
  else if g.Template = "grpc" then "A gRPC service built with Go."
  else if g.Template = "library" then "A reusable Go library."
  else "A Go project."

/-- The local `usage` of `createReadme`. -/
def createReadme_usage (g : Config) : String :=
  if g.Template = "cli" then createReadme_usageCLI g.Name
  else if g.Template = "api" then createReadme_usageAPI g.Name
  else if g.Template = "grpc" then createReadme_usageGRPC g.Name
  else if g.Template = "library" then createReadme_usageLibrary g.Name g.ModulePath
  else createReadme_usageDefault

/-- The local `content` of `createReadme` as it is written. -/
def createReadme_content (g : Config) : String :=
  let content :=
    createReadme_head g.Name g.ModulePath (createReadme_description g) (createReadme_usage g)
  let content := if g.IncludeMakefile then content ++ createReadme_commands else content
  content ++ createReadme_license

/-- The method `createReadme`. -/
def createReadme (o : Oracle) (g : Config) (w : World) : Result :=
  writeFile o (Join [g.Name, "README.md"]) (createReadme_content g) w

/-! ## Orchestration (generator.go) -/

/-- The directories the `switch` of `createDirectories` appends for the template. -/
def createDirectories_templateDirs (g : Config) : List String :=
  if g.Template = "basic" then []
  else if g.Template = "cli" then
    [Join [g.Name, "cmd", g.Name], Join [g.Name, "internal"]]
  else if g.Template = "api" then
    [Join [g.Name, "cmd", g.Name], Join [g.Name, "internal", "handler"],
     Join [g.Name, "internal", "middleware"], Join [g.Name, "internal", "router"],
     Join [g.Name, "pkg"]]
  else if g.Template = "grpc" then
    [Join [g.Name, "cmd", g.Name], Join [g.Name, "internal", "server"],
     Join [g.Name, "proto"], Join [g.Name, "pkg"]]
  else if g.Template = "library" then
    [Join [g.Name, "pkg", g.Name], Join [g.Name, "examples"]]
  else
    [Join [g.Name, "cmd"], Join [g.Name, "internal"], Join [g.Name, "pkg"]]

/-- The local `dirs` of `createDirectories` when its loop starts: the project root, the
template's directories, and the workflow directory when CI is requested. -/
def createDirectories_dirs (g : Config) : List String :=
  let dirs := [g.Name]
  let dirs := dirs ++ createDirectories_templateDirs g
  if g.IncludeCI then dirs ++ [Join [g.Name, ".github", "workflows"]] else dirs

/-- The loop of `createDirectories`: create each directory in turn, wrapping the first
error with the directory it belongs to. -/
def createDirectories_loop (o : Oracle) : List String → World → Result
  | [], w => (none, w)
  | dir :: dirs, w =>
    match perform o (Op.osMkdirAll dir) w with
    | (some err, w1) => (some ("failed to create directory " ++ dir ++ ": " ++ err), w1)
    | (none, w1) => createDirectories_loop o dirs w1

/-- The method `createDirectories`. -/
def createDirectories (o : Oracle) (g : Config) (w : World) : Result :=
  createDirectories_loop o (createDirectories_dirs g) w

/-- The method `createGoMod`. -/
def createGoMod (o : Oracle) (g : Config) (w : World) : Result :=
  writeFile o (Join [g.Name, "go.mod"]) (createGoMod_content g.ModulePath) w

/-- The method `createTemplateFiles`: dispatch on the template string, `basic` by default. -/
def createTemplateFiles (o : Oracle) (g : Config) (w : World) : Result :=
  if g.Template = "basic" then createBasicTemplate o g w
  else if g.Template = "cli" then createCLITemplate o g w
  else if g.Template = "api" then createAPITemplate o g w
  else if g.Template = "grpc" then createGRPCTemplate o g w
  else if g.Template = "library" then createLibraryTemplate o g w
  else createBasicTemplate o g w

/-- The method `createGitignore`. -/
def createGitignore (o : Oracle) (g : Config) (w : World) : Result :=
  writeFile o (Join [g.Name, ".gitignore"]) createGitignore_content w

/-- The method `initGit`: run `git init` with the project directory as working directory. -/
def initGit (o : Oracle) (g : Config) (w : World) : Result :=
  perform o (Op.gitInit g.Name) w

/-- The method `Generate`. -/
def Generate (o : Oracle) (g : Config) (w : World) : Result :=
  andThen (createDirectories o g w) fun w =>
  andThen (createGoMod o g w) fun w =>
  andThen (createTemplateFiles o g w) fun w =>
  andThen (createGitignore o g w) fun w =>
  andThen (if g.IncludeMakefile then createMakefile o g w else (none, w)) fun w =>
  andThen (if g.IncludeDocker then createDockerFiles o g w else (none, w)) fun w =>
  andThen (if g.IncludeCI then createCIWorkflow o g w else (none, w)) fun w =>
  andThen (if g.IncludeLint then createLintConfig o g w else (none, w)) fun w =>
  andThen (if g.IncludePreCommit then createPreCommitConfig o g w else (none, w)) fun w =>
  andThen (createReadme o g w) fun w =>
  andThen (if g.InitGit then initGit o g w else (none, w)) fun w =>
  (none, w)

/-! ## Observations on the world -/

/-- The event of an operation that succeeded. -/
def Event.ok (op : Op) : Event := ⟨op, none⟩

/-- The file an event wrote: path and content of a successful `os.WriteFile`. -/
def Event.file : Event → Option (String × String)
  | ⟨Op.osWriteFile path content, none⟩ => some (path, content)
  | _ => none

/-- The files written so far, oldest first, as (path, content) pairs. -/
def written (w : World) : List (String × String) := w.filterMap Event.file

/-- The paths of the files written so far, oldest first. -/
def writtenPaths (w : World) : List String := (written w).map Prod.fst

/-- The file an operation writes when it succeeds. -/
def Op.file : Op → Option (String × String)
  | Op.osWriteFile path content => some (path, content)
  | _ => none

/-- The environment in which no operation ever fails. -/
def Oracle.ok : Oracle := fun _ _ => none

/-- A path element in the sense of `filepath.Clean`: not empty, without separator, and
neither `.` nor `..`. -/
def isElem (s : String) : Prop :=
  s.data ≠ [] ∧ '/' ∉ s.data ∧ s.data ≠ ['.'] ∧ s.data ≠ ['.', '.']

instance (s : String) : Decidable (isElem s) := by
  unfold isElem
  infer_instance

/-! ## The sequential reading of the generator

Every generator function is a fixed list of operations attempted in order until the first
one fails.  `runSteps` is that reading; the lists below are the operations of each function. -/

/-- A planned operation together with the way its error is reported to the caller. -/
structure Step where
  op : Op
  report : Error → Error

/-- Attempt the steps in order; stop at the first failure and return its reported error. -/
def runSteps (o : Oracle) : List Step → World → Result
  | [], w => (none, w)
  | s :: ss, w =>
    match o w s.op with
    | some e => (some (s.report e), w ++ [⟨s.op, some e⟩])
    | none => runSteps o ss (w ++ [⟨s.op, none⟩])

/-- The two operations of `writeFile path content`. -/
def fileOps (path content : String) : List Op :=
  [Op.osMkdirAll (Dir path), Op.osWriteFile path content]

/-- An operation whose error is returned unchanged. -/
def Step.plain (op : Op) : Step := ⟨op, id⟩

/-- The creation of a planned directory, whose error is wrapped with the directory. -/
def Step.mkdir (dir : String) : Step :=
  ⟨Op.osMkdirAll dir, fun err => "failed to create directory " ++ dir ++ ": " ++ err⟩

/-- The steps of `writeFile path content`. -/
def fileSteps (path content : String) : List Step := (fileOps path content).map Step.plain

/-- The operations of `createBasicTemplate`. -/
def createBasicTemplate_ops (g : Config) : List Op :=
  fileOps (Join [g.Name, "main.go"]) (createBasicTemplate_mainGo g.Name) ++
  (if g.IncludeTests then fileOps (Join [g.Name, "main_test.go"]) createBasicTemplate_testGo
   else [])

/-- The operations of `createCLITemplate`. -/
def createCLITemplate_ops (g : Config) : List Op :=
  fileOps (Join [g.Name, "cmd", g.Name, "main.go"]) (createCLITemplate_mainGo g.ModulePath) ++
  fileOps (Join [g.Name, "internal", "cmd", "root.go"]) (createCLITemplate_rootCmd g.Name) ++
  fileOps (Join [g.Name, "internal", "cmd", "version.go"]) createCLITemplate_versionCmd

/-- The operations of `createAPITemplate`. -/
def createAPITemplate_ops (g : Config) : List Op :=
  fileOps (Join [g.Name, "cmd", g.Name, "main.go"]) (createAPITemplate_mainGo g.ModulePath) ++
  fileOps (Join [g.Name, "internal", "router", "router.go"])
    (createAPITemplate_routerGo g.ModulePath) ++
  fileOps (Join [g.Name, "internal", "handler", "handler.go"]) createAPITemplate_handlerGo ++
  fileOps (Join [g.Name, "internal", "middleware", "middleware.go"])
    createAPITemplate_middlewareGo ++
  (if g.IncludeTests then
    fileOps (Join [g.Name, "internal", "handler", "handler_test.go"])
      createAPITemplate_handlerTestGo
   else [])

/-- The operations of `createGRPCTemplate`. -/
def createGRPCTemplate_ops (g : Config) : List Op :=
  fileOps (Join [g.Name, "cmd", g.Name, "main.go"]) (createGRPCTemplate_mainGo g.ModulePath) ++
  fileOps (Join [g.Name, "internal", "server", "server.go"]) createGRPCTemplate_serverGo ++
  fileOps (Join [g.Name, "proto", g.Name ++ ".proto"])
    (createGRPCTemplate_protoFile g.Name g.ModulePath)

/-- The operations of `createLibraryTemplate`. -/
def createLibraryTemplate_ops (g : Config) : List Op :=
  fileOps (Join [g.Name, "pkg", g.Name, g.Name ++ ".go"]) (createLibraryTemplate_libGo g.Name) ++
  fileOps (Join [g.Name, "examples", "basic", "main.go"])
    (createLibraryTemplate_exampleGo g.Name g.ModulePath) ++
  (if g.IncludeTests then
    fileOps (Join [g.Name, "pkg", g.Name, g.Name ++ "_test.go"])
      (createLibraryTemplate_testGo g.Name)
   else [])

/-- The operations of `createTemplateFiles`. -/
def createTemplateFiles_ops (g : Config) : List Op :=
  if g.Template = "basic" then createBasicTemplate_ops g
  else if g.Template = "cli" then createCLITemplate_ops g
  else if g.Template = "api" then createAPITemplate_ops g
  else if g.Template = "grpc" then createGRPCTemplate_ops g
  else if g.Template = "library" then createLibraryTemplate_ops g
  else createBasicTemplate_ops g

/-- The operations of everything `Generate` does after the directories and before the
README: module manifest, template files, ignore file and the optional feature files. -/
def Generate_fileOps (g : Config) : List Op :=
  fileOps (Join [g.Name, "go.mod"]) (createGoMod_content g.ModulePath) ++
  createTemplateFiles_ops g ++
  fileOps (Join [g.Name, ".gitignore"]) createGitignore_content ++
  (if g.IncludeMakefile then
    fileOps (Join [g.Name, "Makefile"])
      (createMakefile_content g.Name g.ModulePath (createMakefile_runTarget g))
   else []) ++
  (if g.IncludeDocker then
    fileOps (Join [g.Name, "Dockerfile"]) (createDockerFiles_dockerfile g.Name) ++
    fileOps (Join [g.Name, "docker-compose.yml"]) (createDockerFiles_compose g.Name)
   else []) ++
  (if g.IncludeCI then
    fileOps (Join [g.Name, ".github", "workflows", "ci.yml"]) createCIWorkflow_workflow
   else []) ++
  (if g.IncludeLint then fileOps (Join [g.Name, ".golangci.yml"]) createLintConfig_content
   else []) ++
  (if g.IncludePreCommit then
    fileOps (Join [g.Name, ".pre-commit-config.yaml"]) createPreCommitConfig_content
   else [])

/-- The steps of `Generate`, in order. -/
def Generate_steps (g : Config) : List Step :=
  (createDirectories_dirs g).map Step.mkdir ++
  (Generate_fileOps g ++
   fileOps (Join [g.Name, "README.md"]) (createReadme_content g) ++
   (if g.InitGit then [Op.gitInit g.Name] else [])).map Step.plain

/-- The operations of `Generate`, in order. -/
def Generate_ops (g : Config) : List Op := (Generate_steps g).map Step.op

/-! ## Observations and sample configurations -/

/-- Character-level form of `isElem`. -/
def isElemChars (l : List Char) : Prop :=
  l ≠ [] ∧ '/' ∉ l ∧ l ≠ ['.'] ∧ l ≠ ['.', '.']

/-- The events a generator function appended to the history `w` it started from. -/
def newEvents (w : World) (r : Result) : World := r.2.drop w.length

/-- The paths of the files written by the template step started in history `w`. -/
def templateStepPaths (o : Oracle) (g : Config) (w : World) : List String :=
  writtenPaths (newEvents w (createTemplateFiles o g w))

/-- The files (path, content) written by the template step started in history `w`. -/
def templateStepFiles (o : Oracle) (g : Config) (w : World) : List (String × String) :=
  written (newEvents w (createTemplateFiles o g w))

/-- The files (path, content) written by `Generate` started in history `w`. -/
def GenerateFiles (o : Oracle) (g : Config) (w : World) : List (String × String) :=
  written (newEvents w (Generate o g w))

/-- A configuration used to instantiate the theorems: an `api` project named `demo` with
every optional feature switched on. -/
def demoConfig : Config :=
  { Name := "demo", ModulePath := "github.com/u/demo", Template := "api",
    IncludeMakefile := true, IncludeDocker := true, IncludeCI := true, IncludeLint := true,
    IncludePreCommit := true, IncludeTests := true, InitGit := true }

/-- A `cli` project named `demo` without tests and without optional features. -/
def cliConfig : Config :=
  { Name := "demo", ModulePath := "github.com/u/demo", Template := "cli",
    IncludeMakefile := false, IncludeDocker := false, IncludeCI := false, IncludeLint := false,
    IncludePreCommit := false, IncludeTests := false, InitGit := false }

/-- A `library` project whose name is the parent directory `..`. -/
def dotdotConfig : Config :=
  { Name := "..", ModulePath := "example.com/m", Template := "library",
    IncludeMakefile := false, IncludeDocker := false, IncludeCI := false, IncludeLint := false,
    IncludePreCommit := false, IncludeTests := false, InitGit := false }

/-- The planned directories with every entry normalised the way `filepath.Join` does. -/
def normalisedDirs (g : Config) : List String :=
  (createDirectories_dirs g).map fun d => Join [d]

/-- The directories `createDirectories` plans for template string `k`, everything else as
in `g`. -/
def templateDirsOf (g : Config) (k : String) : List String :=
  createDirectories_templateDirs { g with Template := k }

/-- The path elements of the directories the `switch` of `createDirectories` appends: one
list of elements for each `filepath.Join` call, in order. -/
def createDirectories_templateElems (g : Config) : List (List String) :=
  if g.Template = "basic" then []
  else if g.Template = "cli" then
    [[g.Name, "cmd", g.Name], [g.Name, "internal"]]
  else if g.Template = "api" then
    [[g.Name, "cmd", g.Name], [g.Name, "internal", "handler"],
     [g.Name, "internal", "middleware"], [g.Name, "internal", "router"],
     [g.Name, "pkg"]]
  else if g.Template = "grpc" then
    [[g.Name, "cmd", g.Name], [g.Name, "internal", "server"],
     [g.Name, "proto"], [g.Name, "pkg"]]
  else if g.Template = "library" then
    [[g.Name, "pkg", g.Name], [g.Name, "examples"]]
  else
    [[g.Name, "cmd"], [g.Name, "internal"], [g.Name, "pkg"]]

/-- The path elements of every planned directory: the root, the template's directories and
the workflow directory when CI is requested. -/
def createDirectories_elems (g : Config) : List (List String) :=
  [g.Name] :: createDirectories_templateElems g ++
    (if g.IncludeCI then [[g.Name, ".github", "workflows"]] else [])

/-- An environment in which directories can be created but every file write fails. -/
def Oracle.readOnly : Oracle := fun _ op =>
  match op with
  | Op.osWriteFile _ _ => some "read-only file system"
  | _ => none

/-! ## The command line layer (internal/cli/new.go) -/

/-- The character class `[a-zA-Z]`. -/
def isAsciiLetter (c : Char) : Bool :=
  (97 ≤ c.toNat && c.toNat ≤ 122) || (65 ≤ c.toNat && c.toNat ≤ 90)

/-- The character class `[a-zA-Z0-9_-]`. -/
def isNameChar (c : Char) : Bool :=
  isAsciiLetter c || (48 ≤ c.toNat && c.toNat ≤ 57) || c = '_' || c = '-'

/-- The local `validName` of `validateProjectName` applied with `MatchString`: the regular
expression `^[a-zA-Z][a-zA-Z0-9_-]*$` of Go's `regexp`, where `^` and `$` match only at the
beginning and the end of the text, accepts exactly the texts made of one character of the
first class followed by characters of the second class. -/
def validName_MatchString (name : String) : Bool :=
  match name.data with
  | [] => false
  | c :: cs => isAsciiLetter c && cs.all isNameChar

/-- Go's `strings.ToLower` on ASCII text: the letters `A` to `Z` are mapped to `a` to `z`,
every other ASCII character is left alone.  The generator's command line only applies it to
names that passed `validName` and compares the outcome of a confirmation prompt with `y`,
where the Unicode rules of `strings.ToLower` make no difference. -/
def strings_ToLower (s : String) : String := String.mk (s.data.map Char.toLower)

/-- The local `reserved` of `validateProjectName`. -/
def validateProjectName_reserved : List String :=
  ["internal", "pkg", "cmd", "vendor", "test", "main"]

/-- The loop of `validateProjectName` over the reserved names. -/
def validateProjectName_loop (name : String) : List String → Option Error
  | [] => none
  | r :: rs =>
    if strings_ToLower name = r then some ("\x27" ++ name ++ "\x27 is a reserved name")
    else validateProjectName_loop name rs

/-- The function `validateProjectName`; `none` is Go's `nil`. -/
def validateProjectName (name : String) : Option Error :=
  if name = "" then some "project name cannot be empty"
  else if !validName_MatchString name then
    some ("project name must start with a letter and contain only letters, numbers, " ++
      "hyphens, or underscores")
  else validateProjectName_loop name validateProjectName_reserved

/-- The command line's `ProjectConfig`, the type of the package variable `config`. -/
structure ProjectConfig where
  Name : String
  ModulePath : String
  Template : String
  GitHubUser : String
  IncludeMake : Bool
  IncludeDocker : Bool
  IncludeCI : Bool
  IncludeLint : Bool
  IncludePreCommit : Bool
  IncludeTests : Bool
  InitGit : Bool
  deriving DecidableEq, Repr

/-- What `Run` of a promptui prompt returns: the text entered, the error `promptui.ErrAbort`,
or any other error. -/
inductive PromptResult where
  | entered (text : String)
  | aborted
  | failed (err : Error)
  deriving DecidableEq, Repr

/-- Everything `runNew` reads from outside: the positional arguments, the package variables
as flag parsing left them, which flags were given, what the user answers to each prompt
(by label and default text), which template the selection prompt returns, and whether
`os.Stat` reports the directory as missing. -/
structure CliEnv where
  args : List String
  config : ProjectConfig
  allDevOps : Bool
  allQuality : Bool
  noInteractive : Bool
  changed : String → Bool
  promptRun : String → String → PromptResult
  selectRun : Except Error (Fin 5)
  dirMissing : String → Bool

/-- The function `promptForInput`: the prompt's text or its error (`ErrAbort` has the empty
message). -/
def promptForInput (env : CliEnv) (label defaultVal : String) : Except Error String :=
  match env.promptRun label defaultVal with
  | PromptResult.entered text => Except.ok text
  | PromptResult.aborted => Except.error ""
  | PromptResult.failed err => Except.error err

/-- The function `promptForConfirm`: an abort counts as "no", any other error is returned,
and the answer is "yes" for `y`, `Y` and the empty text. -/
def promptForConfirm (env : CliEnv) (label : String) : Except Error Bool :=
  match env.promptRun label "" with
  | PromptResult.aborted => Except.ok false
  | PromptResult.failed err => Except.error err
  | PromptResult.entered result => Except.ok (strings_ToLower result = "y" || result = "")

/-- The names of the local `templates` of `promptForTemplate`, in order. -/
def promptForTemplate_names : Fin 5 → String
  | 0 => "basic"
  | 1 => "cli"
  | 2 => "api"
  | 3 => "grpc"
  | 4 => "library"

/-- The function `promptForTemplate`. -/
def promptForTemplate (env : CliEnv) : Except Error String :=
  match env.selectRun with
  | Except.error err => Except.error err
  | Except.ok idx => Except.ok (promptForTemplate_names idx)

/-- First part of `runNew`, get project name: the first argument, else the prompt's answer
when interactive, else an error. -/
def runNew_getName (env : CliEnv) (config : ProjectConfig) : Except Error ProjectConfig :=
  match env.args with
  | arg :: _ => Except.ok { config with Name := arg }
  | [] =>
    if !env.noInteractive then
      match promptForInput env "Project name" "myproject" with
      | Except.error err => Except.error err
      | Except.ok name => Except.ok { config with Name := name }
    else Except.error "project name is required"

/-- Second part of `runNew`: validate the project name and check that the directory does
not exist yet. -/
def runNew_checkName (env : CliEnv) (config : ProjectConfig) : Except Error ProjectConfig :=
  match validateProjectName config.Name with
  | some err => Except.error err
  | none =>
    if !env.dirMissing config.Name then
      Except.error ("directory \x27" ++ config.Name ++ "\x27 already exists")
    else Except.ok config

/-- Third part of `runNew`, get GitHub username if not provided. -/
def runNew_getGitHubUser (env : CliEnv) (config : ProjectConfig) :
    Except Error ProjectConfig :=
  if config.ModulePath = "" ∧ config.GitHubUser = "" ∧ env.noInteractive = false then
    match promptForInput env "GitHub username" "" with
    | Except.error err => Except.error err
    | Except.ok username => Except.ok { config with GitHubUser := username }
  else Except.ok config

/-- Fourth part of `runNew`, build module path. -/
def runNew_buildModulePath (config : ProjectConfig) : ProjectConfig :=
  if config.ModulePath = "" then
    if config.GitHubUser ≠ "" then
      { config with ModulePath := "github.com/" ++ config.GitHubUser ++ "/" ++ config.Name }
    else { config with ModulePath := config.Name }
  else config

/-- Fifth part of `runNew`, select template if not provided and interactive. -/
def runNew_selectTemplate (env : CliEnv) (config : ProjectConfig) :
    Except Error ProjectConfig :=
  if env.changed "template" = false ∧ env.noInteractive = false then
    match promptForTemplate env with
    | Except.error err => Except.error err
    | Except.ok template => Except.ok { config with Template := template }
  else Except.ok config

/-- Sixth part of `runNew`, apply aggregate flags. -/
def runNew_applyAggregates (env : CliEnv) (config : ProjectConfig) : ProjectConfig :=
  let config :=
    if env.allDevOps then
      { config with IncludeMake := true, IncludeDocker := true, IncludeCI := true }
    else config
  if env.allQuality then
    { config with IncludeLint := true, IncludePreCommit := true, IncludeTests := true }
  else config

/-- Seventh part of `runNew`, ask about DevOps if not specified and interactive. -/
def runNew_askDevOps (env : CliEnv) (config : ProjectConfig) : Except Error ProjectConfig :=
  if env.noInteractive = false ∧ env.allDevOps = false ∧ env.changed "makefile" = false ∧
      env.changed "docker" = false ∧ env.changed "ci" = false then
    match promptForConfirm env "Include DevOps files (Makefile, Docker, CI)?" with
    | Except.error err => Except.error err
    | Except.ok includeDevOps =>
      if includeDevOps then
        Except.ok { config with IncludeMake := true, IncludeDocker := true, IncludeCI := true }
      else Except.ok config
  else Except.ok config

/-- Eighth part of `runNew`, ask about quality tools if not specified and interactive. -/
def runNew_askQuality (env : CliEnv) (config : ProjectConfig) : Except Error ProjectConfig :=
  if env.noInteractive = false ∧ env.allQuality = false ∧ env.changed "lint" = false ∧
      env.changed "precommit" = false ∧ env.changed "tests" = false then
    match promptForConfirm env "Include code quality tools (linter, pre-commit, tests)?" with
    | Except.error err => Except.error err
    | Except.ok includeQuality =>
      if includeQuality then
        Except.ok
          { config with IncludeLint := true, IncludePreCommit := true, IncludeTests := true }
      else Except.ok config
  else Except.ok config

/-- The `generator.Config` that `runNew` builds from `config` for `generator.New`. -/
def runNew_generatorConfig (config : ProjectConfig) : Config :=
  { Name := config.Name, ModulePath := config.ModulePath, Template := config.Template,
    IncludeMakefile := config.IncludeMake, IncludeDocker := config.IncludeDocker,
    IncludeCI := config.IncludeCI, IncludeLint := config.IncludeLint,
    IncludePreCommit := config.IncludePreCommit, IncludeTests := config.IncludeTests,
    InitGit := config.InitGit }

/-- The function `runNew` up to the call of `generator.New`: the configuration handed to the
generator, or the error with which `runNew` returns before. -/
def runNew_config (env : CliEnv) : Except Error Config :=
  match runNew_getName env env.config with
  | Except.error err => Except.error err
  | Except.ok c1 =>
  match runNew_checkName env c1 with
  | Except.error err => Except.error err
  | Except.ok c2 =>
  match runNew_getGitHubUser env c2 with
  | Except.error err => Except.error err
  | Except.ok c3 =>
  match runNew_selectTemplate env (runNew_buildModulePath c3) with
  | Except.error err => Except.error err
  | Except.ok c5 =>
  match runNew_askDevOps env (runNew_applyAggregates env c5) with
  | Except.error err => Except.error err
  | Except.ok c7 =>
  match runNew_askQuality env c7 with
  | Except.error err => Except.error err
  | Except.ok c8 => Except.ok (runNew_generatorConfig c8)

/-- The function `runNew`: build the configuration, run the generator in the environment
`o`, and wrap its error. -/
def runNew (env : CliEnv) (o : Oracle) (w : World) : Result :=
  match runNew_config env with
  | Except.error err => (some err, w)
  | Except.ok g =>
    match Generate o g w with
    | (some err, w1) => (some ("failed to generate project: " ++ err), w1)
    | (none, w1) => (none, w1)

/-! ## Further observations -/

/-- The text `text` occurs in `content`. -/
def containsText (text content : String) : Prop :=
  ∃ pre post : String, content = pre ++ text ++ post

/-- The path `p` lies beneath the directory `root`: it is `root` followed by one or more
path elements, each after a separator. -/
def beneath (root p : String) : Prop :=
  ∃ es : List String, es ≠ [] ∧ (∀ e ∈ es, isElem e) ∧ p = stringsJoin (root :: es)

/-- The operation stays in the subtree of `root`: it creates `root` or a directory beneath
it, writes a file beneath it, or runs `git init` in `root`. -/
def Op.within (root : String) : Op → Prop
  | Op.osMkdirAll d => d = root ∨ beneath root d
  | Op.osWriteFile p _ => beneath root p
  | Op.gitInit d => d = root

/-- The files (path, content) written by `createMakefile` started in history `w`. -/
def createMakefileFiles (o : Oracle) (g : Config) (w : World) : List (String × String) :=
  written (newEvents w (createMakefile o g w))

/-- The files (path, content) written by `createReadme` started in history `w`. -/
def createReadmeFiles (o : Oracle) (g : Config) (w : World) : List (String × String) :=
  written (newEvents w (createReadme o g w))

/-- A `library` project named `widget`. -/
def widgetConfig : Config :=
  { Name := "widget", ModulePath := "github.com/acme/widget", Template := "library",
    IncludeMakefile := true, IncludeDocker := false, IncludeCI := false, IncludeLint := false,
    IncludePreCommit := false, IncludeTests := false, InitGit := false }

/-- A non-interactive invocation `goscaffold new demo -t api -g octocat --no-interactive`
in a directory where `demo` does not exist. -/
def demoEnv : CliEnv :=
  { args := ["demo"],
    config :=
      { Name := "", ModulePath := "", Template := "api", GitHubUser := "octocat",
        IncludeMake := false, IncludeDocker := false, IncludeCI := false, IncludeLint := false,
        IncludePreCommit := false, IncludeTests := false, InitGit := false },
    allDevOps := false, allQuality := false, noInteractive := true,
    changed := fun flag => flag = "template" || flag = "github",
    promptRun := fun _ _ => PromptResult.aborted,
    selectRun := Except.error "no terminal",
    dirMissing := fun _ => true }

/-- The ASCII letters, written out. -/
def asciiLetters : List Char := "abcdefghijklmnopqrstuvwxyzABCDEFGHIJKLMNOPQRSTUVWXYZ".data

/-- The ASCII digits, written out. -/
def asciiDigits : List Char := "0123456789".data

/-- The documented condition under which a project name is accepted: it is not empty, its
first character is an ASCII letter, every following character is an ASCII letter, a digit,
a hyphen or an underscore, and the lower-cased name is none of the six reserved names. -/
def acceptedName (name : String) : Prop :=
  name ≠ "" ∧
  (∃ c cs, name.data = c :: cs ∧ c ∈ asciiLetters ∧
    ∀ x ∈ cs, x ∈ asciiLetters ∨ x ∈ asciiDigits ∨ x = '-' ∨ x = '_') ∧
  ∀ r ∈ ["internal", "pkg", "cmd", "vendor", "test", "main"], strings_ToLower name ≠ r

/-! ## Paths of the written files, element by element -/

/-- The paths of the files a list of operations writes, in order. -/
def writtenPathsOf (ops : List Op) : List String := (ops.filterMap Op.file).map Prod.fst

/-- The path elements of the files the template step writes: one list of elements for each
`filepath.Join` call of the template builders, in order. -/
def createTemplateFiles_fileElems (g : Config) : List (List String) :=
  if g.Template = "basic" then
    [[g.Name, "main.go"]] ++ (if g.IncludeTests then [[g.Name, "main_test.go"]] else [])
  else if g.Template = "cli" then
    [[g.Name, "cmd", g.Name, "main.go"], [g.Name, "internal", "cmd", "root.go"],
     [g.Name, "internal", "cmd", "version.go"]]
  else if g.Template = "api" then
    [[g.Name, "cmd", g.Name, "main.go"], [g.Name, "internal", "router", "router.go"],
     [g.Name, "internal", "handler", "handler.go"],
     [g.Name, "internal", "middleware", "middleware.go"]] ++
    (if g.IncludeTests then [[g.Name, "internal", "handler", "handler_test.go"]] else [])
  else if g.Template = "grpc" then
    [[g.Name, "cmd", g.Name, "main.go"], [g.Name, "internal", "server", "server.go"],
     [g.Name, "proto", g.Name ++ ".proto"]]
  else if g.Template = "library" then
    [[g.Name, "pkg", g.Name, g.Name ++ ".go"], [g.Name, "examples", "basic", "main.go"]] ++
    (if g.IncludeTests then [[g.Name, "pkg", g.Name, g.Name ++ "_test.go"]] else [])
  else
    [[g.Name, "main.go"]] ++ (if g.IncludeTests then [[g.Name, "main_test.go"]] else [])

/-- The path elements of every file `Generate` writes, in order. -/
def Generate_fileElems (g : Config) : List (List String) :=
  [[g.Name, "go.mod"]] ++ createTemplateFiles_fileElems g ++ [[g.Name, ".gitignore"]] ++
  (if g.IncludeMakefile then [[g.Name, "Makefile"]] else []) ++
  (if g.IncludeDocker then [[g.Name, "Dockerfile"], [g.Name, "docker-compose.yml"]]
   else []) ++
  (if g.IncludeCI then [[g.Name, ".github", "workflows", "ci.yml"]] else []) ++
  (if g.IncludeLint then [[g.Name, ".golangci.yml"]] else []) ++
  (if g.IncludePreCommit then [[g.Name, ".pre-commit-config.yaml"]] else []) ++
  [[g.Name, "README.md"]]

/-- The configuration `g` with every optional feature and the tests switched on. -/
def allFeatures (g : Config) : Config :=
  { g with
    IncludeMakefile := true, IncludeDocker := true, IncludeCI := true, IncludeLint := true,
    IncludePreCommit := true, IncludeTests := true }

/-- The paths of the files written by `Generate` started in history `w`. -/
def GeneratePaths (o : Oracle) (g : Config) (w : World) : List String :=
  (GenerateFiles o g w).map Prod.fst

/-! ## Go identifiers -/

/-- The keywords of the Go language, which may not be used as identifiers. -/
def goKeywords : List String :=
  ["break", "default", "func", "interface", "select", "case", "defer", "go", "map", "struct",
   "chan", "else", "goto", "package", "switch", "const", "fallthrough", "if", "range", "type",
   "continue", "for", "import", "return", "var"]

/-- A valid Go package identifier in the sense of the documentation: a letter or an
underscore, followed only by letters, digits and underscores, and not a Go keyword.  Letters
are the ASCII letters here; the names `validateProjectName` accepts contain no other. -/
def isGoPackageIdentifier (name : String) : Prop :=
  (∃ c cs, name.data = c :: cs ∧ (c ∈ asciiLetters ∨ c = '_') ∧
    ∀ x ∈ cs, x ∈ asciiLetters ∨ x ∈ asciiDigits ∨ x = '_') ∧
  name ∉ goKeywords

/-- A `basic` project named `demo` that asks for a Makefile and for Docker files. -/
def basicDevOpsConfig : Config :=
  { Name := "demo", ModulePath := "github.com/u/demo", Template := "basic",
    IncludeMakefile := true, IncludeDocker := true, IncludeCI := false, IncludeLint := false,
    IncludePreCommit := false, IncludeTests := false, InitGit := false }

/-- The invocation `goscaffold new demo -t web --makefile --no-interactive`, whose template
`web` is not one of the five kinds, in a directory where `demo` does not exist. -/
def webEnv : CliEnv :=
  { args := ["demo"],
    config :=
      { Name := "", ModulePath := "", Template := "web", GitHubUser := "",
        IncludeMake := true, IncludeDocker := false, IncludeCI := false, IncludeLint := false,
        IncludePreCommit := false, IncludeTests := false, InitGit := false },
    allDevOps := false, allQuality := false, noInteractive := true,
    changed := fun flag => flag = "template" || flag = "makefile",
    promptRun := fun _ _ => PromptResult.aborted,
    selectRun := Except.error "no terminal",
    dirMissing := fun _ => true }

/-- The configuration that `runNew` hands to the generator for `webEnv`. -/
def webConfig : Config :=
  { Name := "demo", ModulePath := "demo", Template := "web",
    IncludeMakefile := true, IncludeDocker := false, IncludeCI := false, IncludeLint := false,
    IncludePreCommit := false, IncludeTests := false, InitGit := false }

/-! ## Generator functions as step lists -/

theorem andThen_none (w : World) (k : World → Result) : andThen (none, w) k = k w := rfl

theorem runSteps_nil (o : Oracle) (w : World) : runSteps o [] w = (none, w) := rfl

theorem runSteps_append (o : Oracle) (a b : List Step) (w : World) :
    runSteps o (a ++ b) w = andThen (runSteps o a w) (runSteps o b) := by
  induction a generalizing w with
  | nil => rfl
  | cons s ss ih =>
    simp only [List.cons_append, runSteps]
    cases h : o w s.op with
    | none => simpa using ih _
    | some e => rfl

theorem writeFile_eq_runSteps (o : Oracle) (path content : String) (w : World) :
    writeFile o path content w = runSteps o (fileSteps path content) w := by
  simp only [writeFile, fileSteps, fileOps, List.map, runSteps, perform, Step.plain]
  cases h1 : o w (Op.osMkdirAll (Dir path)) with
  | none =>
    simp only [andThen]
    cases h2 : o (w ++ [⟨Op.osMkdirAll (Dir path), none⟩]) (Op.osWriteFile path content) with
    | none => rfl
    | some e => rfl
  | some e => rfl

theorem runSteps_guard (o : Oracle) (b : Bool) (ops : List Op) (w : World) :
    (if b = true then runSteps o (ops.map Step.plain) w else (none, w)) =
      runSteps o ((if b = true then ops else []).map Step.plain) w := by
  cases b <;> rfl

theorem andThen_runSteps (o : Oracle) (a b : List Op) (w : World) :
    andThen (runSteps o (a.map Step.plain) w) (fun w1 => runSteps o (b.map Step.plain) w1) =
      runSteps o ((a ++ b).map Step.plain) w := by
  rw [List.map_append, runSteps_append]

theorem andThen_runSteps_done (o : Oracle) (a : List Step) (w : World) :
    andThen (runSteps o a w) (fun w1 => (none, w1)) = runSteps o a w := by
  have h := runSteps_append o a [] w
  simp only [List.append_nil] at h
  exact h.symm

theorem createBasicTemplate_eq (o : Oracle) (g : Config) (w : World) :
    createBasicTemplate o g w = runSteps o ((createBasicTemplate_ops g).map Step.plain) w := by
  simp only [createBasicTemplate, createBasicTemplate_ops, writeFile_eq_runSteps, fileSteps,
    runSteps_guard, andThen_runSteps, andThen_runSteps_done, List.append_assoc]

theorem createCLITemplate_eq (o : Oracle) (g : Config) (w : World) :
    createCLITemplate o g w = runSteps o ((createCLITemplate_ops g).map Step.plain) w := by
  simp only [createCLITemplate, createCLITemplate_ops, writeFile_eq_runSteps, fileSteps,
    runSteps_guard, andThen_runSteps, andThen_runSteps_done, List.append_assoc]

theorem createAPITemplate_eq (o : Oracle) (g : Config) (w : World) :
    createAPITemplate o g w = runSteps o ((createAPITemplate_ops g).map Step.plain) w := by
  simp only [createAPITemplate, createAPITemplate_ops, writeFile_eq_runSteps, fileSteps,
    runSteps_guard, andThen_runSteps, andThen_runSteps_done, List.append_assoc]

theorem createGRPCTemplate_eq (o : Oracle) (g : Config) (w : World) :
    createGRPCTemplate o g w = runSteps o ((createGRPCTemplate_ops g).map Step.plain) w := by
  simp only [createGRPCTemplate, createGRPCTemplate_ops, writeFile_eq_runSteps, fileSteps,
    runSteps_guard, andThen_runSteps, andThen_runSteps_done, List.append_assoc]

theorem createLibraryTemplate_eq (o : Oracle) (g : Config) (w : World) :
    createLibraryTemplate o g w =
      runSteps o ((createLibraryTemplate_ops g).map Step.plain) w := by
  simp only [createLibraryTemplate, createLibraryTemplate_ops, writeFile_eq_runSteps, fileSteps,
    runSteps_guard, andThen_runSteps, andThen_runSteps_done, List.append_assoc]

theorem createTemplateFiles_eq (o : Oracle) (g : Config) (w : World) :
    createTemplateFiles o g w = runSteps o ((createTemplateFiles_ops g).map Step.plain) w := by
  unfold createTemplateFiles createTemplateFiles_ops
  split_ifs
  · exact createBasicTemplate_eq o g w
  · exact createCLITemplate_eq o g w
  · exact createAPITemplate_eq o g w
  · exact createGRPCTemplate_eq o g w
  · exact createLibraryTemplate_eq o g w
  · exact createBasicTemplate_eq o g w

theorem createDirectories_loop_eq (o : Oracle) (dirs : List String) (w : World) :
    createDirectories_loop o dirs w = runSteps o (dirs.map Step.mkdir) w := by
  induction dirs generalizing w with
  | nil => rfl
  | cons d ds ih =>
    simp only [createDirectories_loop, perform, List.map, runSteps, Step.mkdir]
    cases h : o w (Op.osMkdirAll d) with
    | none => simpa [Step.mkdir] using ih _
    | some e => rfl

theorem Generate_eq_runSteps (o : Oracle) (g : Config) (w : World) :
    Generate o g w = runSteps o (Generate_steps g) w := by
  have hgit : ∀ w1 : World, (if g.InitGit = true then initGit o g w1 else (none, w1)) =
      runSteps o ((if g.InitGit = true then [Op.gitInit g.Name] else []).map Step.plain) w1 := by
    intro w1
    cases g.InitGit
    · rfl
    · simp only [initGit, perform, if_true, List.map, runSteps, Step.plain]
      cases h : o w1 (Op.gitInit g.Name) <;> rfl
  simp only [Generate, Generate_steps, Generate_fileOps, createDirectories, createGoMod,
    createGitignore, createMakefile, createDockerFiles, createCIWorkflow, createLintConfig,
    createPreCommitConfig, createReadme, createDirectories_loop_eq, createTemplateFiles_eq,
    writeFile_eq_runSteps, fileSteps, hgit, runSteps_guard, andThen_runSteps,
    andThen_runSteps_done, List.append_assoc]
  rw [runSteps_append]

/-! ## Paths built from path elements -/

theorem splitSep_of_not_mem (l : List Char) (h : '/' ∉ l) : splitSep l = [l] := by
  induction l with
  | nil => rfl
  | cons c cs ih =>
    have hc : c ≠ '/' := fun hc => h (by simp [hc])
    have hcs : '/' ∉ cs := fun hm => h (List.mem_cons_of_mem _ hm)
    simp [splitSep, hc, ih hcs]

theorem splitSep_append_sep (a b : List Char) (h : '/' ∉ a) :
    splitSep (a ++ '/' :: b) = a :: splitSep b := by
  induction a with
  | nil => simp [splitSep]
  | cons c cs ih =>
    have hc : c ≠ '/' := fun hc => h (by simp [hc])
    have hcs : '/' ∉ cs := fun hm => h (List.mem_cons_of_mem _ hm)
    simp [splitSep, hc, ih hcs]

theorem splitSep_joinSep (xs : List (List Char)) (hne : xs ≠ [])
    (h : ∀ x ∈ xs, '/' ∉ x) : splitSep (joinSep xs) = xs := by
  induction xs with
  | nil => exact absurd rfl hne
  | cons x rest ih =>
    cases rest with
    | nil => simpa [joinSep] using splitSep_of_not_mem x (h x (by simp))
    | cons y ys =>
      have hx : '/' ∉ x := h x (by simp)
      have hrest : ∀ z ∈ y :: ys, '/' ∉ z := fun z hz => h z (List.mem_cons_of_mem _ hz)
      simp only [joinSep]
      rw [splitSep_append_sep _ _ hx, ih (by simp) hrest]

theorem cleanElems_of_elems (rooted : Bool) (xs out : List (List Char))
    (h : ∀ x ∈ xs, isElemChars x) : cleanElems rooted xs out = out.reverse ++ xs := by
  induction xs generalizing out with
  | nil => simp [cleanElems]
  | cons x rest ih =>
    obtain ⟨h1, _, h3, h4⟩ := h x (by simp)
    have hrest : ∀ z ∈ rest, isElemChars z := fun z hz => h z (List.mem_cons_of_mem _ hz)
    simp only [cleanElems, h1, h3, h4, if_false]
    rw [ih _ hrest]
    simp

theorem joinSep_ne_nil (xs : List (List Char)) (hne : xs ≠ []) (h : ∀ x ∈ xs, x ≠ []) :
    joinSep xs ≠ [] := by
  cases xs with
  | nil => exact absurd rfl hne
  | cons x rest =>
    have hx : x ≠ [] := h x (by simp)
    cases rest with
    | nil => simpa [joinSep] using hx
    | cons y ys => simp [joinSep, hx]

theorem joinSep_head (x : List Char) (rest : List (List Char)) (hx : x ≠ []) :
    ∃ c t, c ∈ x ∧ joinSep (x :: rest) = c :: t := by
  cases x with
  | nil => exact absurd rfl hx
  | cons c cs =>
    cases rest with
    | nil => exact ⟨c, cs, by simp, rfl⟩
    | cons y ys => exact ⟨c, cs ++ '/' :: joinSep (y :: ys), by simp, by simp [joinSep]⟩

theorem cleanChars_joinSep (xs : List (List Char)) (hne : xs ≠ [])
    (h : ∀ x ∈ xs, isElemChars x) : cleanChars (joinSep xs) = joinSep xs := by
  cases xs with
  | nil => exact absurd rfl hne
  | cons x rest =>
    have hx := h x (by simp)
    obtain ⟨c, t, hc, hj⟩ := joinSep_head x rest hx.1
    have hcsep : c ≠ '/' := fun e => hx.2.1 (e ▸ hc)
    have hsplit : splitSep (joinSep (x :: rest)) = x :: rest :=
      splitSep_joinSep _ (by simp) (fun z hz => (h z hz).2.1)
    have hclean : cleanElems false (x :: rest) [] = x :: rest := by
      simpa using cleanElems_of_elems false (x :: rest) [] h
    have hmain : cleanChars (c :: t) = c :: t := by
      have hs : splitSep (c :: t) = x :: rest := hj ▸ hsplit
      simp only [cleanChars, hcsep, if_false, hs, hclean, hj]
    rw [hj]
    exact hmain

theorem Join_of_elems (es : List String) (hne : es ≠ []) (h : ∀ e ∈ es, isElem e) :
    Join es = stringsJoin es := by
  cases es with
  | nil => exact absurd rfl hne
  | cons e rest =>
    have he : e ≠ "" := by
      intro h0
      have := (h e (by simp)).1
      rw [h0] at this
      exact this rfl
    have hall : ∀ x ∈ (e :: rest).map String.data, isElemChars x := by
      intro x hx
      obtain ⟨s, hs, rfl⟩ := List.mem_map.1 hx
      exact h s hs
    simp only [Join, he, if_false, Clean, stringsJoin]
    rw [cleanChars_joinSep _ (by simp) hall]

theorem isElem_append (n s : String) (hn : isElem n) (hs : '/' ∉ s.data)
    (hlen : 2 ≤ s.data.length) : isElem (n ++ s) := by
  obtain ⟨h1, h2, _, _⟩ := hn
  have hl : 1 ≤ n.data.length := by
    cases hd : n.data with
    | nil => exact absurd hd h1
    | cons c cs => simp
  refine ⟨?_, ?_, ?_, ?_⟩
  · simp [String.data_append, h1]
  · simp [String.data_append, h2, hs]
  · intro h
    have := congrArg List.length h
    simp only [String.data_append, List.length_append, List.length_cons, List.length_nil] at this
    omega
  · intro h
    have := congrArg List.length h
    simp only [String.data_append, List.length_append, List.length_cons, List.length_nil] at this
    omega

/-! ## What a run of steps leaves behind -/

theorem runSteps_of_success (o : Oracle) (ss : List Step) (w : World)
    (h : (runSteps o ss w).1 = none) :
    (runSteps o ss w).2 = w ++ ss.map (fun s => Event.ok s.op) := by
  induction ss generalizing w with
  | nil => simp [runSteps]
  | cons s rest ih =>
    simp only [runSteps] at h ⊢
    cases ho : o w s.op with
    | none =>
      simp only [ho] at h ⊢
      rw [ih _ h]
      simp [Event.ok]
    | some e => simp [ho] at h

theorem runSteps_Oracle_ok (ss : List Step) (w : World) :
    runSteps Oracle.ok ss w = (none, w ++ ss.map (fun s => Event.ok s.op)) := by
  induction ss generalizing w with
  | nil => simp [runSteps]
  | cons s rest ih =>
    simp only [runSteps, Oracle.ok]
    rw [ih]
    simp [Event.ok]

theorem runSteps_outcome (o : Oracle) (ss : List Step) (w : World) :
    ∃ done rest : List Step, ss = done ++ rest ∧
      (((runSteps o ss w).1 = none ∧ rest = [] ∧
          (runSteps o ss w).2 = w ++ done.map (fun s => Event.ok s.op)) ∨
       (∃ s e tail, rest = s :: tail ∧
          o (w ++ done.map (fun s => Event.ok s.op)) s.op = some e ∧
          (runSteps o ss w).1 = some (s.report e) ∧
          (runSteps o ss w).2 =
            w ++ done.map (fun s => Event.ok s.op) ++ [⟨s.op, some e⟩])) := by
  induction ss generalizing w with
  | nil => exact ⟨[], [], rfl, Or.inl ⟨rfl, rfl, by simp [runSteps]⟩⟩
  | cons s rest ih =>
    cases ho : o w s.op with
    | some e =>
      refine ⟨[], s :: rest, rfl, Or.inr ⟨s, e, rest, rfl, ?_, ?_, ?_⟩⟩
      · simpa using ho
      · simp [runSteps, ho]
      · simp [runSteps, ho]
    | none =>
      obtain ⟨done, rest', hsplit, hcase⟩ := ih (w ++ [⟨s.op, none⟩])
      refine ⟨s :: done, rest', by simp [hsplit], ?_⟩
      have hrun : runSteps o (s :: rest) w = runSteps o rest (w ++ [⟨s.op, none⟩]) := by
        simp [runSteps, ho]
      rw [hrun]
      simpa [Event.ok, List.append_assoc] using hcase

theorem written_append (w v : World) : written (w ++ v) = written w ++ written v := by
  simp [written, List.filterMap_append]

theorem written_map_ok (ops : List Op) :
    written (ops.map Event.ok) = ops.filterMap Op.file := by
  induction ops with
  | nil => rfl
  | cons op rest ih =>
    have hrest : List.filterMap Event.file (List.map Event.ok rest) =
        List.filterMap Op.file rest := ih
    cases op <;> simp [written, Event.ok, Event.file, Op.file, hrest]

theorem written_failed (op : Op) (e : Error) : written [⟨op, some e⟩] = [] := by
  cases op <;> simp [written, Event.file]

theorem filterMap_file_fileOps (path content : String) :
    (fileOps path content).filterMap Op.file = [(path, content)] := by
  simp [fileOps, Op.file]

theorem Generate_ops_eq (g : Config) :
    Generate_ops g =
      (createDirectories_dirs g).map Op.osMkdirAll ++
      (Generate_fileOps g ++
       fileOps (Join [g.Name, "README.md"]) (createReadme_content g) ++
       (if g.InitGit then [Op.gitInit g.Name] else [])) := by
  simp [Generate_ops, Generate_steps, Step.mkdir, Step.plain, Function.comp_def]

theorem Generate_Oracle_ok (g : Config) (w : World) :
    Generate Oracle.ok g w = (none, w ++ (Generate_ops g).map Event.ok) := by
  rw [Generate_eq_runSteps, runSteps_Oracle_ok]
  simp [Generate_ops, Function.comp_def]

theorem Generate_of_success (o : Oracle) (g : Config) (w : World)
    (h : (Generate o g w).1 = none) :
    (Generate o g w).2 = w ++ (Generate_ops g).map Event.ok := by
  rw [Generate_eq_runSteps] at h ⊢
  rw [runSteps_of_success o _ w h]
  simp [Generate_ops, Function.comp_def]

/-! ## Joined paths of the generator, spelled out for a name that is a path element -/

theorem elems2 {a b : String} (ha : isElem a) (hb : isElem b) : ∀ e ∈ [a, b], isElem e := by
  intro e he
  simp only [List.mem_cons, List.mem_singleton, List.not_mem_nil, or_false] at he
  rcases he with rfl | rfl <;> assumption

theorem elems3 {a b c : String} (ha : isElem a) (hb : isElem b) (hc : isElem c) :
    ∀ e ∈ [a, b, c], isElem e := by
  intro e he
  simp only [List.mem_cons, List.mem_singleton, List.not_mem_nil, or_false] at he
  rcases he with rfl | rfl | rfl <;> assumption

theorem elems4 {a b c d : String} (ha : isElem a) (hb : isElem b) (hc : isElem c)
    (hd : isElem d) : ∀ e ∈ [a, b, c, d], isElem e := by
  intro e he
  simp only [List.mem_cons, List.mem_singleton, List.not_mem_nil, or_false] at he
  rcases he with rfl | rfl | rfl | rfl <;> assumption

theorem Join_main (n : String) (hn : isElem n) :
    Join [n, "main.go"] =
      n ++ "/main.go" := by
  rw [Join_of_elems _ (by simp)
    (elems2 hn (by decide))]
  apply String.ext
  simp only [stringsJoin, joinSep, List.map, String.data_append, List.append_assoc]

theorem Join_cmd_main (n : String) (hn : isElem n) :
    Join [n, "cmd", n, "main.go"] =
      n ++ "/cmd/" ++ n ++ "/main.go" := by
  rw [Join_of_elems _ (by simp)
    (elems4 hn (by decide) hn (by decide))]
  apply String.ext
  simp only [stringsJoin, joinSep, List.map, String.data_append, List.append_assoc]
  rfl

theorem Join_cmd_root (n : String) (hn : isElem n) :
    Join [n, "internal", "cmd", "root.go"] =
      n ++ "/internal/cmd/root.go" := by
  rw [Join_of_elems _ (by simp)
    (elems4 hn (by decide) (by decide) (by decide))]
  apply String.ext
  simp only [stringsJoin, joinSep, List.map, String.data_append, List.append_assoc]
  rfl

theorem Join_cmd_version (n : String) (hn : isElem n) :
    Join [n, "internal", "cmd", "version.go"] =
      n ++ "/internal/cmd/version.go" := by
  rw [Join_of_elems _ (by simp)
    (elems4 hn (by decide) (by decide) (by decide))]
  apply String.ext
  simp only [stringsJoin, joinSep, List.map, String.data_append, List.append_assoc]
  rfl

theorem Join_router_go (n : String) (hn : isElem n) :
    Join [n, "internal", "router", "router.go"] =
      n ++ "/internal/router/router.go" := by
  rw [Join_of_elems _ (by simp)
    (elems4 hn (by decide) (by decide) (by decide))]
  apply String.ext
  simp only [stringsJoin, joinSep, List.map, String.data_append, List.append_assoc]
  rfl

theorem Join_handler_go (n : String) (hn : isElem n) :
    Join [n, "internal", "handler", "handler.go"] =
      n ++ "/internal/handler/handler.go" := by
  rw [Join_of_elems _ (by simp)
    (elems4 hn (by decide) (by decide) (by decide))]
  apply String.ext
  simp only [stringsJoin, joinSep, List.map, String.data_append, List.append_assoc]
  rfl

theorem Join_middleware_go (n : String) (hn : isElem n) :
    Join [n, "internal", "middleware", "middleware.go"] =
      n ++ "/internal/middleware/middleware.go" := by
  rw [Join_of_elems _ (by simp)
    (elems4 hn (by decide) (by decide) (by decide))]
  apply String.ext
  simp only [stringsJoin, joinSep, List.map, String.data_append, List.append_assoc]
  rfl

theorem Join_server_go (n : String) (hn : isElem n) :
    Join [n, "internal", "server", "server.go"] =
      n ++ "/internal/server/server.go" := by
  rw [Join_of_elems _ (by simp)
    (elems4 hn (by decide) (by decide) (by decide))]
  apply String.ext
  simp only [stringsJoin, joinSep, List.map, String.data_append, List.append_assoc]
  rfl

theorem Join_proto_file (n : String) (hn : isElem n) :
    Join [n, "proto", n ++ ".proto"] =
      n ++ "/proto/" ++ n ++ ".proto" := by
  rw [Join_of_elems _ (by simp)
    (elems3 hn (by decide) (isElem_append _ _ hn (by decide) (by decide)))]
  apply String.ext
  simp only [stringsJoin, joinSep, List.map, String.data_append, List.append_assoc]
  rfl

theorem Join_lib_go (n : String) (hn : isElem n) :
    Join [n, "pkg", n, n ++ ".go"] =
      n ++ "/pkg/" ++ n ++ "/" ++ n ++ ".go" := by
  rw [Join_of_elems _ (by simp)
    (elems4 hn (by decide) hn (isElem_append _ _ hn (by decide) (by decide)))]
  apply String.ext
  simp only [stringsJoin, joinSep, List.map, String.data_append, List.append_assoc]
  rfl

theorem Join_example_main (n : String) (hn : isElem n) :
    Join [n, "examples", "basic", "main.go"] =
      n ++ "/examples/basic/main.go" := by
  rw [Join_of_elems _ (by simp)
    (elems4 hn (by decide) (by decide) (by decide))]
  apply String.ext
  simp only [stringsJoin, joinSep, List.map, String.data_append, List.append_assoc]
  rfl

theorem Join_dir_cmd_name (n : String) (hn : isElem n) :
    Join [n, "cmd", n] =
      n ++ "/cmd/" ++ n := by
  rw [Join_of_elems _ (by simp)
    (elems3 hn (by decide) hn)]
  apply String.ext
  simp only [stringsJoin, joinSep, List.map, String.data_append, List.append_assoc]
  rfl

theorem Join_dir_internal (n : String) (hn : isElem n) :
    Join [n, "internal"] =
      n ++ "/internal" := by
  rw [Join_of_elems _ (by simp)
    (elems2 hn (by decide))]
  apply String.ext
  simp only [stringsJoin, joinSep, List.map, String.data_append, List.append_assoc]

theorem Join_dir_handler (n : String) (hn : isElem n) :
    Join [n, "internal", "handler"] =
      n ++ "/internal/handler" := by
  rw [Join_of_elems _ (by simp)
    (elems3 hn (by decide) (by decide))]
  apply String.ext
  simp only [stringsJoin, joinSep, List.map, String.data_append, List.append_assoc]
  rfl

theorem Join_dir_middleware (n : String) (hn : isElem n) :
    Join [n, "internal", "middleware"] =
      n ++ "/internal/middleware" := by
  rw [Join_of_elems _ (by simp)
    (elems3 hn (by decide) (by decide))]
  apply String.ext
  simp only [stringsJoin, joinSep, List.map, String.data_append, List.append_assoc]
  rfl

theorem Join_dir_router (n : String) (hn : isElem n) :
    Join [n, "internal", "router"] =
      n ++ "/internal/router" := by
  rw [Join_of_elems _ (by simp)
    (elems3 hn (by decide) (by decide))]
  apply String.ext
  simp only [stringsJoin, joinSep, List.map, String.data_append, List.append_assoc]
  rfl

theorem Join_dir_pkg (n : String) (hn : isElem n) :
    Join [n, "pkg"] =
      n ++ "/pkg" := by
  rw [Join_of_elems _ (by simp)
    (elems2 hn (by decide))]
  apply String.ext
  simp only [stringsJoin, joinSep, List.map, String.data_append, List.append_assoc]

theorem Join_dir_server (n : String) (hn : isElem n) :
    Join [n, "internal", "server"] =
      n ++ "/internal/server" := by
  rw [Join_of_elems _ (by simp)
    (elems3 hn (by decide) (by decide))]
  apply String.ext
  simp only [stringsJoin, joinSep, List.map, String.data_append, List.append_assoc]
  rfl

theorem Join_dir_proto (n : String) (hn : isElem n) :
    Join [n, "proto"] =
      n ++ "/proto" := by
  rw [Join_of_elems _ (by simp)
    (elems2 hn (by decide))]
  apply String.ext
  simp only [stringsJoin, joinSep, List.map, String.data_append, List.append_assoc]

theorem Join_dir_pkg_name (n : String) (hn : isElem n) :
    Join [n, "pkg", n] =
      n ++ "/pkg/" ++ n := by
  rw [Join_of_elems _ (by simp)
    (elems3 hn (by decide) hn)]
  apply String.ext
  simp only [stringsJoin, joinSep, List.map, String.data_append, List.append_assoc]
  rfl

theorem Join_dir_examples (n : String) (hn : isElem n) :
    Join [n, "examples"] =
      n ++ "/examples" := by
  rw [Join_of_elems _ (by simp)
    (elems2 hn (by decide))]
  apply String.ext
  simp only [stringsJoin, joinSep, List.map, String.data_append, List.append_assoc]

theorem Join_dir_cmd (n : String) (hn : isElem n) :
    Join [n, "cmd"] =
      n ++ "/cmd" := by
  rw [Join_of_elems _ (by simp)
    (elems2 hn (by decide))]
  apply String.ext
  simp only [stringsJoin, joinSep, List.map, String.data_append, List.append_assoc]

theorem Join_dir_internal_cmd (n : String) (hn : isElem n) :
    Join [n, "internal", "cmd"] =
      n ++ "/internal/cmd" := by
  rw [Join_of_elems _ (by simp)
    (elems3 hn (by decide) (by decide))]
  apply String.ext
  simp only [stringsJoin, joinSep, List.map, String.data_append, List.append_assoc]
  rfl

theorem Join_dir_examples_basic (n : String) (hn : isElem n) :
    Join [n, "examples", "basic"] =
      n ++ "/examples/basic" := by
  rw [Join_of_elems _ (by simp)
    (elems3 hn (by decide) (by decide))]
  apply String.ext
  simp only [stringsJoin, joinSep, List.map, String.data_append, List.append_assoc]
  rfl

theorem Join_dir_workflows (n : String) (hn : isElem n) :
    Join [n, ".github", "workflows"] =
      n ++ "/.github/workflows" := by
  rw [Join_of_elems _ (by simp)
    (elems3 hn (by decide) (by decide))]
  apply String.ext
  simp only [stringsJoin, joinSep, List.map, String.data_append, List.append_assoc]
  rfl

/-! ## Orchestration: order of the steps and first failure -/

/-- C1: when no step of `Generate` fails, the operations it has performed are, in this order:
the creation of every planned directory, the write of `<name>/go.mod`, the template files,
`<name>/.gitignore`, then the Makefile, the Dockerfile followed by docker-compose.yml, the CI
workflow, `.golangci.yml`, `.pre-commit-config.yaml`, `README.md` and `git init`, where go.mod,
the template files, .gitignore and README.md are unconditional and each other step is present
exactly when its flag is set (each file write is preceded by the creation of its parent
directory, as `writeFile` does). -/
theorem Generate_step_order (o : Oracle) (g : Config) (w : World)
    (h : (Generate o g w).1 = none) :
    (Generate o g w).2 = w ++ List.map Event.ok
      ((createDirectories_dirs g).map Op.osMkdirAll ++
       fileOps (Join [g.Name, "go.mod"]) (createGoMod_content g.ModulePath) ++
       createTemplateFiles_ops g ++
       fileOps (Join [g.Name, ".gitignore"]) createGitignore_content ++
       (if g.IncludeMakefile then
          fileOps (Join [g.Name, "Makefile"])
            (createMakefile_content g.Name g.ModulePath (createMakefile_runTarget g))
        else []) ++
       (if g.IncludeDocker then
          fileOps (Join [g.Name, "Dockerfile"]) (createDockerFiles_dockerfile g.Name) ++
          fileOps (Join [g.Name, "docker-compose.yml"]) (createDockerFiles_compose g.Name)
        else []) ++
       (if g.IncludeCI then
          fileOps (Join [g.Name, ".github", "workflows", "ci.yml"]) createCIWorkflow_workflow
        else []) ++
       (if g.IncludeLint then
          fileOps (Join [g.Name, ".golangci.yml"]) createLintConfig_content
        else []) ++
       (if g.IncludePreCommit then
          fileOps (Join [g.Name, ".pre-commit-config.yaml"]) createPreCommitConfig_content
        else []) ++
       fileOps (Join [g.Name, "README.md"]) (createReadme_content g) ++
       (if g.InitGit then [Op.gitInit g.Name] else [])) := by
  rw [Generate_of_success o g w h, Generate_ops_eq]
  simp only [Generate_fileOps, List.append_assoc]

/-- Instance of C1: in the environment where nothing fails, `Generate` succeeds on
`demoConfig` from the empty history and performs the steps in the stated order. -/
theorem Generate_step_order_witness :
    (Generate Oracle.ok demoConfig []).1 = none ∧
    (Generate Oracle.ok demoConfig []).2 = [] ++ List.map Event.ok
      ((createDirectories_dirs demoConfig).map Op.osMkdirAll ++
       fileOps (Join [demoConfig.Name, "go.mod"])
         (createGoMod_content demoConfig.ModulePath) ++
       createTemplateFiles_ops demoConfig ++
       fileOps (Join [demoConfig.Name, ".gitignore"]) createGitignore_content ++
       (if demoConfig.IncludeMakefile then
          fileOps (Join [demoConfig.Name, "Makefile"])
            (createMakefile_content demoConfig.Name demoConfig.ModulePath
              (createMakefile_runTarget demoConfig))
        else []) ++
       (if demoConfig.IncludeDocker then
          fileOps (Join [demoConfig.Name, "Dockerfile"])
            (createDockerFiles_dockerfile demoConfig.Name) ++
          fileOps (Join [demoConfig.Name, "docker-compose.yml"])
            (createDockerFiles_compose demoConfig.Name)
        else []) ++
       (if demoConfig.IncludeCI then
          fileOps (Join [demoConfig.Name, ".github", "workflows", "ci.yml"])
            createCIWorkflow_workflow
        else []) ++
       (if demoConfig.IncludeLint then
          fileOps (Join [demoConfig.Name, ".golangci.yml"]) createLintConfig_content
        else []) ++
       (if demoConfig.IncludePreCommit then
          fileOps (Join [demoConfig.Name, ".pre-commit-config.yaml"])
            createPreCommitConfig_content
        else []) ++
       fileOps (Join [demoConfig.Name, "README.md"]) (createReadme_content demoConfig) ++
       (if demoConfig.InitGit then [Op.gitInit demoConfig.Name] else [])) :=
  ⟨by rw [Generate_Oracle_ok],
   Generate_step_order Oracle.ok demoConfig [] (by rw [Generate_Oracle_ok])⟩

/-- C2: whatever the environment does, `Generate` attempts its planned operations in order
up to the first one that fails and nothing after it: the history grows by the successful
operations `done` (a prefix of the plan) and, when an operation fails, by that single failed
attempt, after which `Generate` returns an error; every file written by `done` stays
recorded as written with its content (nothing is undone); and `Generate` returns `nil`
exactly when none of the attempted operations failed, in which case the whole plan ran. -/
theorem Generate_first_failure (o : Oracle) (g : Config) (w : World) :
    ∃ done rest : List Op, Generate_ops g = done ++ rest ∧
      written (Generate o g w).2 = written w ++ done.filterMap Op.file ∧
      ((Generate o g w).1 = none ↔
        ∀ ev ∈ (Generate o g w).2.drop w.length, ev.err = none) ∧
      (((Generate o g w).1 = none ∧ rest = [] ∧
          (Generate o g w).2 = w ++ done.map Event.ok) ∨
       (∃ op e tail, rest = op :: tail ∧
          o (w ++ done.map Event.ok) op = some e ∧
          (∃ reported, (Generate o g w).1 = some reported) ∧
          (Generate o g w).2 = w ++ done.map Event.ok ++ [⟨op, some e⟩])) := by
  obtain ⟨done, rest, hsplit, hcase⟩ := runSteps_outcome o (Generate_steps g) w
  have hmap : (done.map (fun s => Event.ok s.op)) = (done.map Step.op).map Event.ok := by
    simp [Function.comp_def]
  rw [hmap] at hcase
  refine ⟨done.map Step.op, rest.map Step.op, ?_, ?_, ?_, ?_⟩
  · simp [Generate_ops, hsplit]
  · rw [Generate_eq_runSteps]
    rcases hcase with ⟨_, _, hw⟩ | ⟨s, e, tail, _, _, _, hw⟩
    · rw [hw, written_append, written_map_ok]
    · rw [hw, written_append, written_append, written_map_ok, written_failed]
      simp
  · rw [Generate_eq_runSteps]
    rcases hcase with ⟨hr, _, hw⟩ | ⟨s, e, tail, _, _, hr, hw⟩
    · rw [hw, hr]
      simp [Event.ok]
    · rw [hw, hr]
      simp only [List.append_assoc, List.drop_left, reduceCtorEq, false_iff, not_forall]
      exact ⟨⟨s.op, some e⟩, by simp, by simp⟩
  · rw [Generate_eq_runSteps]
    rcases hcase with ⟨hr, hrest, hw⟩ | ⟨s, e, tail, hrest, ho, hr, hw⟩
    · exact Or.inl ⟨hr, by simp [hrest], hw⟩
    · exact Or.inr ⟨s.op, e, tail.map Step.op, by simp [hrest], ho, ⟨_, hr⟩, hw⟩

/-- Instance of C2: in the environment where every file write fails, `Generate` on the `cli`
project `demo` creates the planned directories and the parent of go.mod, attempts to write
go.mod, and stops there with that error; no file is recorded as written. -/
theorem Generate_first_failure_witness :
    Generate Oracle.readOnly cliConfig [] =
      (some "read-only file system",
       [Event.ok (Op.osMkdirAll "demo"), Event.ok (Op.osMkdirAll "demo/cmd/demo"),
        Event.ok (Op.osMkdirAll "demo/internal"), Event.ok (Op.osMkdirAll "demo"),
        ⟨Op.osWriteFile "demo/go.mod" (createGoMod_content "github.com/u/demo"),
          some "read-only file system"⟩]) ∧
    ∃ done rest : List Op, Generate_ops cliConfig = done ++ rest ∧
      written (Generate Oracle.readOnly cliConfig []).2 = written [] ++ done.filterMap Op.file ∧
      ((Generate Oracle.readOnly cliConfig []).1 = none ↔
        ∀ ev ∈ (Generate Oracle.readOnly cliConfig []).2.drop ([] : World).length,
          ev.err = none) ∧
      (((Generate Oracle.readOnly cliConfig []).1 = none ∧ rest = [] ∧
          (Generate Oracle.readOnly cliConfig []).2 = [] ++ done.map Event.ok) ∨
       (∃ op e tail, rest = op :: tail ∧
          Oracle.readOnly ([] ++ done.map Event.ok) op = some e ∧
          (∃ reported, (Generate Oracle.readOnly cliConfig []).1 = some reported) ∧
          (Generate Oracle.readOnly cliConfig []).2 =
            [] ++ done.map Event.ok ++ [⟨op, some e⟩])) :=
  ⟨by decide, Generate_first_failure Oracle.readOnly cliConfig []⟩

/-! ## The template step -/

theorem newEvents_runSteps_of_success (o : Oracle) (ss : List Step) (w : World)
    (h : (runSteps o ss w).1 = none) :
    newEvents w (runSteps o ss w) = (ss.map Step.op).map Event.ok := by
  unfold newEvents
  rw [runSteps_of_success o ss w h]
  simp [Function.comp_def]

theorem createTemplateFiles_Oracle_ok (g : Config) (w : World) :
    (createTemplateFiles Oracle.ok g w).1 = none := by
  rw [createTemplateFiles_eq, runSteps_Oracle_ok]

theorem templateStepFiles_of_success (o : Oracle) (g : Config) (w : World)
    (h : (createTemplateFiles o g w).1 = none) :
    templateStepFiles o g w = (createTemplateFiles_ops g).filterMap Op.file := by
  unfold templateStepFiles
  rw [createTemplateFiles_eq] at h ⊢
  rw [newEvents_runSteps_of_success o _ w h, written_map_ok]
  simp [Step.plain, Function.comp_def]

theorem templateStepPaths_of_success (o : Oracle) (g : Config) (w : World)
    (h : (createTemplateFiles o g w).1 = none) :
    templateStepPaths o g w =
      ((createTemplateFiles_ops g).filterMap Op.file).map Prod.fst := by
  have := templateStepFiles_of_success o g w h
  unfold templateStepFiles at this
  unfold templateStepPaths writtenPaths
  rw [this]

theorem GenerateFiles_of_success (o : Oracle) (g : Config) (w : World)
    (h : (Generate o g w).1 = none) :
    GenerateFiles o g w = (Generate_ops g).filterMap Op.file := by
  unfold GenerateFiles
  rw [Generate_eq_runSteps] at h ⊢
  rw [newEvents_runSteps_of_success o _ w h, written_map_ok]
  rfl

/-- C3: with `IncludeTests` false and no failing operation, the template step writes exactly
these paths, in this order: `basic` n/main.go; `cli` n/cmd/n/main.go, n/internal/cmd/root.go,
n/internal/cmd/version.go; `api` n/cmd/n/main.go, n/internal/router/router.go,
n/internal/handler/handler.go, n/internal/middleware/middleware.go; `grpc` n/cmd/n/main.go,
n/internal/server/server.go, n/proto/n.proto; `library` n/pkg/n/n.go,
n/examples/basic/main.go.  The paths are the `filepath.Join` of their elements for every
name, and for a name that is a path element they are literally the strings just listed. -/
theorem createTemplateFiles_paths (o : Oracle) (g : Config) (w : World)
    (ht : g.IncludeTests = false) (hok : (createTemplateFiles o g w).1 = none) :
    ((g.Template = "basic" → templateStepPaths o g w = [Join [g.Name, "main.go"]]) ∧
     (g.Template = "cli" → templateStepPaths o g w =
        [Join [g.Name, "cmd", g.Name, "main.go"], Join [g.Name, "internal", "cmd", "root.go"],
         Join [g.Name, "internal", "cmd", "version.go"]]) ∧
     (g.Template = "api" → templateStepPaths o g w =
        [Join [g.Name, "cmd", g.Name, "main.go"],
         Join [g.Name, "internal", "router", "router.go"],
         Join [g.Name, "internal", "handler", "handler.go"],
         Join [g.Name, "internal", "middleware", "middleware.go"]]) ∧
     (g.Template = "grpc" → templateStepPaths o g w =
        [Join [g.Name, "cmd", g.Name, "main.go"],
         Join [g.Name, "internal", "server", "server.go"],
         Join [g.Name, "proto", g.Name ++ ".proto"]]) ∧
     (g.Template = "library" → templateStepPaths o g w =
        [Join [g.Name, "pkg", g.Name, g.Name ++ ".go"],
         Join [g.Name, "examples", "basic", "main.go"]])) ∧
    (isElem g.Name →
     (g.Template = "basic" → templateStepPaths o g w = [g.Name ++ "/main.go"]) ∧
     (g.Template = "cli" → templateStepPaths o g w =
        [g.Name ++ "/cmd/" ++ g.Name ++ "/main.go", g.Name ++ "/internal/cmd/root.go",
         g.Name ++ "/internal/cmd/version.go"]) ∧
     (g.Template = "api" → templateStepPaths o g w =
        [g.Name ++ "/cmd/" ++ g.Name ++ "/main.go", g.Name ++ "/internal/router/router.go",
         g.Name ++ "/internal/handler/handler.go",
         g.Name ++ "/internal/middleware/middleware.go"]) ∧
     (g.Template = "grpc" → templateStepPaths o g w =
        [g.Name ++ "/cmd/" ++ g.Name ++ "/main.go", g.Name ++ "/internal/server/server.go",
         g.Name ++ "/proto/" ++ g.Name ++ ".proto"]) ∧
     (g.Template = "library" → templateStepPaths o g w =
        [g.Name ++ "/pkg/" ++ g.Name ++ "/" ++ g.Name ++ ".go",
         g.Name ++ "/examples/basic/main.go"])) := by
  have hp := templateStepPaths_of_success o g w hok
  have key :
      (g.Template = "basic" → templateStepPaths o g w = [Join [g.Name, "main.go"]]) ∧
      (g.Template = "cli" → templateStepPaths o g w =
        [Join [g.Name, "cmd", g.Name, "main.go"], Join [g.Name, "internal", "cmd", "root.go"],
         Join [g.Name, "internal", "cmd", "version.go"]]) ∧
      (g.Template = "api" → templateStepPaths o g w =
        [Join [g.Name, "cmd", g.Name, "main.go"],
         Join [g.Name, "internal", "router", "router.go"],
         Join [g.Name, "internal", "handler", "handler.go"],
         Join [g.Name, "internal", "middleware", "middleware.go"]]) ∧
      (g.Template = "grpc" → templateStepPaths o g w =
        [Join [g.Name, "cmd", g.Name, "main.go"],
         Join [g.Name, "internal", "server", "server.go"],
         Join [g.Name, "proto", g.Name ++ ".proto"]]) ∧
      (g.Template = "library" → templateStepPaths o g w =
        [Join [g.Name, "pkg", g.Name, g.Name ++ ".go"],
         Join [g.Name, "examples", "basic", "main.go"]]) := by
    refine ⟨?_, ?_, ?_, ?_, ?_⟩ <;> intro hT <;> rw [hp] <;>
      simp [createTemplateFiles_ops, hT, createBasicTemplate_ops, createCLITemplate_ops,
        createAPITemplate_ops, createGRPCTemplate_ops, createLibraryTemplate_ops, ht, fileOps,
        Op.file]
  refine ⟨key, fun hn => ?_⟩
  obtain ⟨k1, k2, k3, k4, k5⟩ := key
  refine ⟨?_, ?_, ?_, ?_, ?_⟩ <;> intro hT
  · rw [k1 hT, Join_main _ hn]
  · rw [k2 hT, Join_cmd_main _ hn, Join_cmd_root _ hn, Join_cmd_version _ hn]
  · rw [k3 hT, Join_cmd_main _ hn, Join_router_go _ hn, Join_handler_go _ hn,
      Join_middleware_go _ hn]
  · rw [k4 hT, Join_cmd_main _ hn, Join_server_go _ hn, Join_proto_file _ hn]
  · rw [k5 hT, Join_lib_go _ hn, Join_example_main _ hn]

/-- Instance of C3: the `cli` project `demo`, in the environment where nothing fails. -/
theorem createTemplateFiles_paths_witness :
    templateStepPaths Oracle.ok cliConfig [] =
      ["demo/cmd/demo/main.go", "demo/internal/cmd/root.go", "demo/internal/cmd/version.go"] :=
  ((createTemplateFiles_paths Oracle.ok cliConfig [] rfl
    (createTemplateFiles_Oracle_ok cliConfig [])).2 (by decide)).2.1 rfl

/-! ## The `IncludeTests` flag and the template fallback -/

theorem Generate_ops_split (g : Config) :
    ∃ pre post : List Op, ∀ b : Bool,
      Generate_ops { g with IncludeTests := b } =
        pre ++ createTemplateFiles_ops { g with IncludeTests := b } ++ post := by
  refine ⟨(createDirectories_dirs g).map Op.osMkdirAll ++
      fileOps (Join [g.Name, "go.mod"]) (createGoMod_content g.ModulePath),
    fileOps (Join [g.Name, ".gitignore"]) createGitignore_content ++
      (if g.IncludeMakefile then
        fileOps (Join [g.Name, "Makefile"])
          (createMakefile_content g.Name g.ModulePath (createMakefile_runTarget g))
       else []) ++
      (if g.IncludeDocker then
        fileOps (Join [g.Name, "Dockerfile"]) (createDockerFiles_dockerfile g.Name) ++
        fileOps (Join [g.Name, "docker-compose.yml"]) (createDockerFiles_compose g.Name)
       else []) ++
      (if g.IncludeCI then
        fileOps (Join [g.Name, ".github", "workflows", "ci.yml"]) createCIWorkflow_workflow
       else []) ++
      (if g.IncludeLint then fileOps (Join [g.Name, ".golangci.yml"]) createLintConfig_content
       else []) ++
      (if g.IncludePreCommit then
        fileOps (Join [g.Name, ".pre-commit-config.yaml"]) createPreCommitConfig_content
       else []) ++
      fileOps (Join [g.Name, "README.md"]) (createReadme_content g) ++
      (if g.InitGit then [Op.gitInit g.Name] else []), ?_⟩
  intro b
  rw [Generate_ops_eq]
  simp only [Generate_fileOps, List.append_assoc]
  rfl

theorem createTemplateFiles_ops_basic (g : Config) (h : g.Template = "basic") :
    createTemplateFiles_ops g = createBasicTemplate_ops g := by
  simp [createTemplateFiles_ops, h]

theorem createTemplateFiles_ops_cli (g : Config) (h : g.Template = "cli") :
    createTemplateFiles_ops g = createCLITemplate_ops g := by
  simp [createTemplateFiles_ops, h]

theorem createTemplateFiles_ops_api (g : Config) (h : g.Template = "api") :
    createTemplateFiles_ops g = createAPITemplate_ops g := by
  simp [createTemplateFiles_ops, h]

theorem createTemplateFiles_ops_grpc (g : Config) (h : g.Template = "grpc") :
    createTemplateFiles_ops g = createGRPCTemplate_ops g := by
  simp [createTemplateFiles_ops, h]

theorem createTemplateFiles_ops_library (g : Config) (h : g.Template = "library") :
    createTemplateFiles_ops g = createLibraryTemplate_ops g := by
  simp [createTemplateFiles_ops, h]

theorem createTemplateFiles_ops_other (g : Config)
    (h1 : g.Template ≠ "basic") (h2 : g.Template ≠ "cli") (h3 : g.Template ≠ "api")
    (h4 : g.Template ≠ "grpc") (h5 : g.Template ≠ "library") :
    createTemplateFiles_ops g = createBasicTemplate_ops g := by
  simp [createTemplateFiles_ops, h1, h2, h3, h4, h5]

theorem createBasicTemplate_ops_tests (g : Config) :
    createBasicTemplate_ops { g with IncludeTests := true } =
      createBasicTemplate_ops { g with IncludeTests := false } ++
        fileOps (Join [g.Name, "main_test.go"]) createBasicTemplate_testGo := by
  simp [createBasicTemplate_ops]

theorem createAPITemplate_ops_tests (g : Config) :
    createAPITemplate_ops { g with IncludeTests := true } =
      createAPITemplate_ops { g with IncludeTests := false } ++
        fileOps (Join [g.Name, "internal", "handler", "handler_test.go"])
          createAPITemplate_handlerTestGo := by
  simp [createAPITemplate_ops]

theorem createLibraryTemplate_ops_tests (g : Config) :
    createLibraryTemplate_ops { g with IncludeTests := true } =
      createLibraryTemplate_ops { g with IncludeTests := false } ++
        fileOps (Join [g.Name, "pkg", g.Name, g.Name ++ "_test.go"])
          (createLibraryTemplate_testGo g.Name) := by
  simp [createLibraryTemplate_ops]

theorem createTemplateFiles_ops_tests (g : Config) :
    (g.Template = "cli" ∨ g.Template = "grpc" →
      createTemplateFiles_ops { g with IncludeTests := true } =
        createTemplateFiles_ops { g with IncludeTests := false }) ∧
    (¬ (g.Template = "cli" ∨ g.Template = "grpc") →
      ∃ path content,
        createTemplateFiles_ops { g with IncludeTests := true } =
          createTemplateFiles_ops { g with IncludeTests := false } ++ fileOps path content) := by
  by_cases h1 : g.Template = "basic"
  · refine ⟨fun h => ?_,
      fun _ => ⟨Join [g.Name, "main_test.go"], createBasicTemplate_testGo, ?_⟩⟩
    · rcases h with h | h <;> rw [h1] at h <;> exact absurd h (by decide)
    · rw [createTemplateFiles_ops_basic { g with IncludeTests := true } h1,
        createTemplateFiles_ops_basic { g with IncludeTests := false } h1]
      exact createBasicTemplate_ops_tests g
  by_cases h2 : g.Template = "cli"
  · refine ⟨fun _ => ?_, fun h => absurd (Or.inl h2) h⟩
    rw [createTemplateFiles_ops_cli { g with IncludeTests := true } h2,
      createTemplateFiles_ops_cli { g with IncludeTests := false } h2]
    rfl
  by_cases h3 : g.Template = "api"
  · refine ⟨fun h => ?_,
      fun _ => ⟨Join [g.Name, "internal", "handler", "handler_test.go"],
        createAPITemplate_handlerTestGo, ?_⟩⟩
    · rcases h with h | h <;> rw [h3] at h <;> exact absurd h (by decide)
    · rw [createTemplateFiles_ops_api { g with IncludeTests := true } h3,
        createTemplateFiles_ops_api { g with IncludeTests := false } h3]
      exact createAPITemplate_ops_tests g
  by_cases h4 : g.Template = "grpc"
  · refine ⟨fun _ => ?_, fun h => absurd (Or.inr h4) h⟩
    rw [createTemplateFiles_ops_grpc { g with IncludeTests := true } h4,
      createTemplateFiles_ops_grpc { g with IncludeTests := false } h4]
    rfl
  by_cases h5 : g.Template = "library"
  · refine ⟨fun h => ?_,
      fun _ => ⟨Join [g.Name, "pkg", g.Name, g.Name ++ "_test.go"],
        createLibraryTemplate_testGo g.Name, ?_⟩⟩
    · rcases h with h | h <;> rw [h5] at h <;> exact absurd h (by decide)
    · rw [createTemplateFiles_ops_library { g with IncludeTests := true } h5,
        createTemplateFiles_ops_library { g with IncludeTests := false } h5]
      exact createLibraryTemplate_ops_tests g
  · refine ⟨fun h => ?_,
      fun _ => ⟨Join [g.Name, "main_test.go"], createBasicTemplate_testGo, ?_⟩⟩
    · rcases h with h | h
      · exact absurd h h2
      · exact absurd h h4
    · rw [createTemplateFiles_ops_other { g with IncludeTests := true } h1 h2 h3 h4 h5,
        createTemplateFiles_ops_other { g with IncludeTests := false } h1 h2 h3 h4 h5]
      exact createBasicTemplate_ops_tests g

theorem Generate_ops_tests_sublist (g : Config) :
    List.Sublist (Generate_ops { g with IncludeTests := false })
      (Generate_ops { g with IncludeTests := true }) := by
  obtain ⟨pre, post, hsplit⟩ := Generate_ops_split g
  rw [hsplit false, hsplit true]
  refine List.Sublist.append (List.Sublist.append (List.Sublist.refl _) ?_)
    (List.Sublist.refl _)
  by_cases h : g.Template = "cli" ∨ g.Template = "grpc"
  · rw [(createTemplateFiles_ops_tests g).1 h]
  · obtain ⟨path, content, he⟩ := (createTemplateFiles_ops_tests g).2 h
    rw [he]
    exact List.sublist_append_left _ _

theorem Generate_ops_tests_irrelevant (g : Config)
    (h : g.Template = "cli" ∨ g.Template = "grpc") :
    Generate_ops { g with IncludeTests := true } =
      Generate_ops { g with IncludeTests := false } := by
  obtain ⟨pre, post, hsplit⟩ := Generate_ops_split g
  rw [hsplit false, hsplit true, (createTemplateFiles_ops_tests g).1 h]

/-- The number of files `Generate` writes grows by exactly one when `IncludeTests` is
switched on, for every template string other than `cli` and `grpc`. -/
theorem IncludeTests_adds_one_file (o o1 : Oracle) (g : Config) (w w1 : World)
    (hT : ¬ (g.Template = "cli" ∨ g.Template = "grpc"))
    (h : (Generate o { g with IncludeTests := false } w).1 = none)
    (h1 : (Generate o1 { g with IncludeTests := true } w1).1 = none) :
    (GenerateFiles o1 { g with IncludeTests := true } w1).length =
      (GenerateFiles o { g with IncludeTests := false } w).length + 1 := by
  rw [GenerateFiles_of_success _ _ _ h, GenerateFiles_of_success _ _ _ h1]
  obtain ⟨pre, post, hsplit⟩ := Generate_ops_split g
  obtain ⟨path, content, he⟩ := (createTemplateFiles_ops_tests g).2 hT
  rw [hsplit false, hsplit true, he]
  simp only [List.filterMap_append, filterMap_file_fileOps, List.length_append,
    List.length_singleton]
  omega

/-- C4 (where the code departs from it): for the `cli` project `demo`, in the environment
where nothing fails, `Generate` writes exactly the same files with `IncludeTests` true as
with `IncludeTests` false, so switching the flag on adds no artifact; the same happens with
the template `grpc`. -/
theorem IncludeTests_adds_nothing_for_cli :
    (GenerateFiles Oracle.ok { cliConfig with IncludeTests := true } [] =
        GenerateFiles Oracle.ok { cliConfig with IncludeTests := false } [] ∧
     (GenerateFiles Oracle.ok { cliConfig with IncludeTests := true } []).length ≠
        (GenerateFiles Oracle.ok { cliConfig with IncludeTests := false } []).length + 1) ∧
    (GenerateFiles Oracle.ok { cliConfig with Template := "grpc", IncludeTests := true } [] =
        GenerateFiles Oracle.ok { cliConfig with Template := "grpc", IncludeTests := false } []
      ∧
     (GenerateFiles Oracle.ok
        { cliConfig with Template := "grpc", IncludeTests := true } []).length ≠
      (GenerateFiles Oracle.ok
        { cliConfig with Template := "grpc", IncludeTests := false } []).length + 1) := by
  have key : ∀ g : Config, g.Template = "cli" ∨ g.Template = "grpc" →
      GenerateFiles Oracle.ok { g with IncludeTests := true } [] =
        GenerateFiles Oracle.ok { g with IncludeTests := false } [] := by
    intro g hg
    rw [GenerateFiles_of_success _ _ _ (by rw [Generate_Oracle_ok]),
      GenerateFiles_of_success _ _ _ (by rw [Generate_Oracle_ok]),
      Generate_ops_tests_irrelevant g hg]
  have h1 := key cliConfig (Or.inl rfl)
  have h2 := key { cliConfig with Template := "grpc" } (Or.inr rfl)
  exact ⟨⟨h1, by rw [h1]; exact (Nat.succ_ne_self _).symm⟩,
    ⟨h2, by rw [h2]; exact (Nat.succ_ne_self _).symm⟩⟩

/-- C5: every file that a successful `Generate` writes with `IncludeTests` false is written,
with the same path and the same content and in the same relative order, by a successful
`Generate` of the configuration that differs only in `IncludeTests` being true. -/
theorem IncludeTests_keeps_other_files (o o1 : Oracle) (g : Config) (w w1 : World)
    (h : (Generate o { g with IncludeTests := false } w).1 = none)
    (h1 : (Generate o1 { g with IncludeTests := true } w1).1 = none) :
    List.Sublist (GenerateFiles o { g with IncludeTests := false } w)
      (GenerateFiles o1 { g with IncludeTests := true } w1) := by
  rw [GenerateFiles_of_success _ _ _ h, GenerateFiles_of_success _ _ _ h1]
  exact (Generate_ops_tests_sublist g).filterMap _

/-- Instance of C5: the configuration `demoConfig`, both runs in the environment where
nothing fails. -/
theorem IncludeTests_keeps_other_files_witness :
    List.Sublist (GenerateFiles Oracle.ok { demoConfig with IncludeTests := false } [])
      (GenerateFiles Oracle.ok { demoConfig with IncludeTests := true } []) :=
  IncludeTests_keeps_other_files Oracle.ok Oracle.ok demoConfig [] []
    (by rw [Generate_Oracle_ok]) (by rw [Generate_Oracle_ok])

/-- C6: for a template string that is none of basic, cli, api, grpc, library, the template
step behaves in every environment exactly as it does for the same configuration with
template `basic`: same operations, same paths, same contents, same result. -/
theorem createTemplateFiles_fallback (o : Oracle) (g : Config) (w : World)
    (h1 : g.Template ≠ "basic") (h2 : g.Template ≠ "cli") (h3 : g.Template ≠ "api")
    (h4 : g.Template ≠ "grpc") (h5 : g.Template ≠ "library") :
    createTemplateFiles o g w = createTemplateFiles o { g with Template := "basic" } w ∧
    templateStepFiles o g w = templateStepFiles o { g with Template := "basic" } w := by
  have h : createTemplateFiles o g w =
      createTemplateFiles o { g with Template := "basic" } w := by
    simp only [createTemplateFiles, h1, h2, h3, h4, h5, if_false, if_true]
    rfl
  exact ⟨h, by unfold templateStepFiles; rw [h]⟩

/-- Instance of C6: the template string `web` is not in the enumeration. -/
theorem createTemplateFiles_fallback_witness :
    createTemplateFiles Oracle.ok { demoConfig with Template := "web" } [] =
      createTemplateFiles Oracle.ok
        { { demoConfig with Template := "web" } with Template := "basic" } [] ∧
    templateStepFiles Oracle.ok { demoConfig with Template := "web" } [] =
      templateStepFiles Oracle.ok
        { { demoConfig with Template := "web" } with Template := "basic" } [] :=
  createTemplateFiles_fallback Oracle.ok { demoConfig with Template := "web" } []
    (by decide) (by decide) (by decide) (by decide) (by decide)

/-! ## The directory planner -/

theorem stringsJoin_inj_of_elems (xs ys : List String) (hx : xs ≠ []) (hy : ys ≠ [])
    (h1 : ∀ e ∈ xs, isElem e) (h2 : ∀ e ∈ ys, isElem e)
    (h : stringsJoin xs = stringsJoin ys) : xs = ys := by
  have hd : joinSep (xs.map String.data) = joinSep (ys.map String.data) := by
    have := congrArg String.data h
    simpa [stringsJoin] using this
  have hsx : splitSep (joinSep (xs.map String.data)) = xs.map String.data :=
    splitSep_joinSep _ (by simpa using hx) (by
      intro x hxm
      obtain ⟨s, hs, rfl⟩ := List.mem_map.1 hxm
      exact (h1 s hs).2.1)
  have hsy : splitSep (joinSep (ys.map String.data)) = ys.map String.data :=
    splitSep_joinSep _ (by simpa using hy) (by
      intro x hxm
      obtain ⟨s, hs, rfl⟩ := List.mem_map.1 hxm
      exact (h2 s hs).2.1)
  have hmap : xs.map String.data = ys.map String.data := by
    rw [← hsx, ← hsy, hd]
  have hinj : Function.Injective String.data := fun a b hab => String.ext hab
  exact List.map_injective_iff.2 hinj hmap

theorem Join_eq_iff_of_elems (xs ys : List String) (hx : xs ≠ []) (hy : ys ≠ [])
    (h1 : ∀ e ∈ xs, isElem e) (h2 : ∀ e ∈ ys, isElem e) :
    Join xs = Join ys ↔ xs = ys := by
  constructor
  · intro h
    rw [Join_of_elems xs hx h1, Join_of_elems ys hy h2] at h
    exact stringsJoin_inj_of_elems xs ys hx hy h1 h2 h
  · intro h
    rw [h]

theorem Join_singleton_Join (es : List String) (hne : es ≠ []) (h : ∀ e ∈ es, isElem e) :
    Join [Join es] = Join es := by
  rw [Join_of_elems es hne h]
  have hdata : (stringsJoin es).data ≠ [] := by
    simp only [stringsJoin]
    refine joinSep_ne_nil _ (by simpa using hne) ?_
    intro x hxm
    obtain ⟨s, hs, rfl⟩ := List.mem_map.1 hxm
    exact (h s hs).1
  have hne2 : stringsJoin es ≠ "" := by
    intro h0
    rw [h0] at hdata
    exact hdata rfl
  have hall : ∀ x ∈ es.map String.data, isElemChars x := by
    intro x hxm
    obtain ⟨s, hs, rfl⟩ := List.mem_map.1 hxm
    exact h s hs
  simp only [Join, hne2, if_false, Clean]
  have hjoin : (stringsJoin [stringsJoin es]).data = joinSep (es.map String.data) := by
    simp [stringsJoin, joinSep]
  rw [hjoin, cleanChars_joinSep _ (by simpa using hne) hall]
  rfl

theorem Join_singleton_elem (n : String) (hn : isElem n) : Join [n] = n := by
  rw [Join_of_elems [n] (by simp) (by simpa using hn)]
  apply String.ext
  simp [stringsJoin, joinSep]

theorem createDirectories_templateDirs_eq_map (g : Config) :
    createDirectories_templateDirs g = (createDirectories_templateElems g).map Join := by
  unfold createDirectories_templateDirs createDirectories_templateElems
  split_ifs <;> rfl

theorem createDirectories_dirs_eq (g : Config) :
    createDirectories_dirs g = [g.Name] ++ createDirectories_templateDirs g ++
      (if g.IncludeCI then [Join [g.Name, ".github", "workflows"]] else []) := by
  unfold createDirectories_dirs
  cases g.IncludeCI <;> simp

theorem createDirectories_dirs_eq_map (g : Config) (hn : isElem g.Name) :
    createDirectories_dirs g = (createDirectories_elems g).map Join := by
  rw [createDirectories_dirs_eq, createDirectories_templateDirs_eq_map]
  unfold createDirectories_elems
  cases g.IncludeCI <;> simp [Join_singleton_elem _ hn]

theorem createDirectories_elems_wf (g : Config) (hn : isElem g.Name) :
    ∀ es ∈ createDirectories_elems g, es ≠ [] ∧ ∀ e ∈ es, isElem e := by
  have hcmd : isElem "cmd" := by decide
  have hint : isElem "internal" := by decide
  have hhan : isElem "handler" := by decide
  have hmid : isElem "middleware" := by decide
  have hrou : isElem "router" := by decide
  have hpkg : isElem "pkg" := by decide
  have hser : isElem "server" := by decide
  have hpro : isElem "proto" := by decide
  have hexa : isElem "examples" := by decide
  have hgit : isElem ".github" := by decide
  have hwor : isElem "workflows" := by decide
  unfold createDirectories_elems createDirectories_templateElems
  split_ifs <;>
    simp [hn, hcmd, hint, hhan, hmid, hrou, hpkg, hser, hpro, hexa, hgit, hwor]

theorem createDirectories_elems_nodup (g : Config) : (createDirectories_elems g).Nodup := by
  unfold createDirectories_elems createDirectories_templateElems
  split_ifs <;> simp

theorem createDirectories_Oracle_ok (g : Config) (w : World) :
    (createDirectories Oracle.ok g w).1 = none := by
  unfold createDirectories
  rw [createDirectories_loop_eq, runSteps_Oracle_ok]

/-- C7: the directories the planner adds for the template, between the root and the optional
CI entry, are: none for `basic`; n/cmd/n, n/internal for `cli`; n/cmd/n, n/internal/handler,
n/internal/middleware, n/internal/router, n/pkg for `api`; n/cmd/n, n/internal/server, n/proto,
n/pkg for `grpc`; n/pkg/n, n/examples for `library`; and n/cmd, n/internal, n/pkg for every
other template string, for which `createDirectories` succeeds as well when no `MkdirAll`
fails.  The entries are the `filepath.Join` of their elements for every name, and for a name
that is a path element they are literally the strings just listed. -/
theorem createDirectories_templateDirs_spec (g : Config) (w : World) :
    createDirectories_dirs g = [g.Name] ++ createDirectories_templateDirs g ++
      (if g.IncludeCI then [Join [g.Name, ".github", "workflows"]] else []) ∧
    (createDirectories Oracle.ok g w).1 = none ∧
    ((g.Template = "basic" → createDirectories_templateDirs g = []) ∧
     (g.Template = "cli" → createDirectories_templateDirs g =
        [Join [g.Name, "cmd", g.Name], Join [g.Name, "internal"]]) ∧
     (g.Template = "api" → createDirectories_templateDirs g =
        [Join [g.Name, "cmd", g.Name], Join [g.Name, "internal", "handler"],
         Join [g.Name, "internal", "middleware"], Join [g.Name, "internal", "router"],
         Join [g.Name, "pkg"]]) ∧
     (g.Template = "grpc" → createDirectories_templateDirs g =
        [Join [g.Name, "cmd", g.Name], Join [g.Name, "internal", "server"],
         Join [g.Name, "proto"], Join [g.Name, "pkg"]]) ∧
     (g.Template = "library" → createDirectories_templateDirs g =
        [Join [g.Name, "pkg", g.Name], Join [g.Name, "examples"]]) ∧
     (g.Template ≠ "basic" → g.Template ≠ "cli" → g.Template ≠ "api" →
      g.Template ≠ "grpc" → g.Template ≠ "library" → createDirectories_templateDirs g =
        [Join [g.Name, "cmd"], Join [g.Name, "internal"], Join [g.Name, "pkg"]])) ∧
    (isElem g.Name →
     (g.Template = "cli" → createDirectories_templateDirs g =
        [g.Name ++ "/cmd/" ++ g.Name, g.Name ++ "/internal"]) ∧
     (g.Template = "api" → createDirectories_templateDirs g =
        [g.Name ++ "/cmd/" ++ g.Name, g.Name ++ "/internal/handler",
         g.Name ++ "/internal/middleware", g.Name ++ "/internal/router", g.Name ++ "/pkg"]) ∧
     (g.Template = "grpc" → createDirectories_templateDirs g =
        [g.Name ++ "/cmd/" ++ g.Name, g.Name ++ "/internal/server", g.Name ++ "/proto",
         g.Name ++ "/pkg"]) ∧
     (g.Template = "library" → createDirectories_templateDirs g =
        [g.Name ++ "/pkg/" ++ g.Name, g.Name ++ "/examples"]) ∧
     (g.Template ≠ "basic" → g.Template ≠ "cli" → g.Template ≠ "api" →
      g.Template ≠ "grpc" → g.Template ≠ "library" → createDirectories_templateDirs g =
        [g.Name ++ "/cmd", g.Name ++ "/internal", g.Name ++ "/pkg"])) := by
  have key :
      (g.Template = "basic" → createDirectories_templateDirs g = []) ∧
      (g.Template = "cli" → createDirectories_templateDirs g =
        [Join [g.Name, "cmd", g.Name], Join [g.Name, "internal"]]) ∧
      (g.Template = "api" → createDirectories_templateDirs g =
        [Join [g.Name, "cmd", g.Name], Join [g.Name, "internal", "handler"],
         Join [g.Name, "internal", "middleware"], Join [g.Name, "internal", "router"],
         Join [g.Name, "pkg"]]) ∧
      (g.Template = "grpc" → createDirectories_templateDirs g =
        [Join [g.Name, "cmd", g.Name], Join [g.Name, "internal", "server"],
         Join [g.Name, "proto"], Join [g.Name, "pkg"]]) ∧
      (g.Template = "library" → createDirectories_templateDirs g =
        [Join [g.Name, "pkg", g.Name], Join [g.Name, "examples"]]) ∧
      (g.Template ≠ "basic" → g.Template ≠ "cli" → g.Template ≠ "api" →
       g.Template ≠ "grpc" → g.Template ≠ "library" → createDirectories_templateDirs g =
        [Join [g.Name, "cmd"], Join [g.Name, "internal"], Join [g.Name, "pkg"]]) := by
    refine ⟨?_, ?_, ?_, ?_, ?_, ?_⟩
    · intro hT
      simp [createDirectories_templateDirs, hT]
    · intro hT
      simp [createDirectories_templateDirs, hT]
    · intro hT
      simp [createDirectories_templateDirs, hT]
    · intro hT
      simp [createDirectories_templateDirs, hT]
    · intro hT
      simp [createDirectories_templateDirs, hT]
    · intro h1 h2 h3 h4 h5
      simp [createDirectories_templateDirs, h1, h2, h3, h4, h5]
  refine ⟨createDirectories_dirs_eq g, createDirectories_Oracle_ok g w, key, fun hn => ?_⟩
  obtain ⟨_, k2, k3, k4, k5, k6⟩ := key
  refine ⟨?_, ?_, ?_, ?_, ?_⟩
  · intro hT
    rw [k2 hT, Join_dir_cmd_name _ hn, Join_dir_internal _ hn]
  · intro hT
    rw [k3 hT, Join_dir_cmd_name _ hn, Join_dir_handler _ hn, Join_dir_middleware _ hn,
      Join_dir_router _ hn, Join_dir_pkg _ hn]
  · intro hT
    rw [k4 hT, Join_dir_cmd_name _ hn, Join_dir_server _ hn, Join_dir_proto _ hn,
      Join_dir_pkg _ hn]
  · intro hT
    rw [k5 hT, Join_dir_pkg_name _ hn, Join_dir_examples _ hn]
  · intro h1 h2 h3 h4 h5
    rw [k6 h1 h2 h3 h4 h5, Join_dir_cmd _ hn, Join_dir_internal _ hn, Join_dir_pkg _ hn]

/-- Instance of C7: the template directories of the `cli` project `demo`. -/
theorem createDirectories_templateDirs_spec_witness :
    createDirectories_templateDirs cliConfig = ["demo/cmd/demo", "demo/internal"] :=
  ((createDirectories_templateDirs_spec cliConfig []).2.2.2 (by decide)).1 rfl

/-- C8: the planned directory list starts with the project root, and the list planned with
`IncludeCI` true is the list planned with `IncludeCI` false followed by the single entry
`<name>/.github/workflows` (the `filepath.Join` of these elements; literally that string
when the name is a path element). -/
theorem createDirectories_dirs_root_and_ci (g : Config) :
    (createDirectories_dirs g).head? = some g.Name ∧
    createDirectories_dirs { g with IncludeCI := true } =
      createDirectories_dirs { g with IncludeCI := false } ++
        [Join [g.Name, ".github", "workflows"]] ∧
    (isElem g.Name → createDirectories_dirs { g with IncludeCI := true } =
      createDirectories_dirs { g with IncludeCI := false } ++
        [g.Name ++ "/.github/workflows"]) := by
  have h2 : createDirectories_dirs { g with IncludeCI := true } =
      createDirectories_dirs { g with IncludeCI := false } ++
        [Join [g.Name, ".github", "workflows"]] := by
    simp [createDirectories_dirs]
    rfl
  refine ⟨?_, h2, fun hn => ?_⟩
  · rw [createDirectories_dirs_eq]
    rfl
  · rw [h2, Join_dir_workflows _ hn]

/-- Instance of C8: the workflow directory of the project `demo`. -/
theorem createDirectories_dirs_root_and_ci_witness :
    createDirectories_dirs { demoConfig with IncludeCI := true } =
      createDirectories_dirs { demoConfig with IncludeCI := false } ++
        ["demo/.github/workflows"] :=
  (createDirectories_dirs_root_and_ci demoConfig).2.2 (by decide)

/-- C9 as stated fails: for the project name `..` and the template `library` the planned
list is `..`, `..`, `../examples`, so it has a duplicate, before and after normalising every
entry with `filepath.Join`. -/
theorem createDirectories_dirs_duplicate :
    createDirectories_dirs dotdotConfig = ["..", "..", "../examples"] ∧
    ¬ (normalisedDirs dotdotConfig).Nodup := by
  decide

theorem normalisedDirs_of_elem (g : Config) (hn : isElem g.Name) :
    normalisedDirs g = createDirectories_dirs g := by
  have hwf := createDirectories_elems_wf g hn
  unfold normalisedDirs
  rw [createDirectories_dirs_eq_map g hn, List.map_map]
  refine List.map_congr_left ?_
  intro es hes
  exact Join_singleton_Join es (hwf es hes).1 (hwf es hes).2

theorem createDirectories_dirs_nodup_of_elem (g : Config) (hn : isElem g.Name) :
    (createDirectories_dirs g).Nodup := by
  have hwf := createDirectories_elems_wf g hn
  rw [createDirectories_dirs_eq_map g hn]
  refine List.Nodup.map_on ?_ (createDirectories_elems_nodup g)
  intro xs hxs ys hys h
  exact (Join_eq_iff_of_elems xs ys (hwf xs hxs).1 (hwf ys hys).1 (hwf xs hxs).2
    (hwf ys hys).2).1 h

/-- C9, amended: when the project name is a path element (not empty, no separator, neither
`.` nor `..`), the directory list planned by `createDirectories` has no duplicate entries,
for every template string and either value of `IncludeCI`; normalising the entries with
`filepath.Join` leaves the list unchanged. -/
theorem createDirectories_dirs_nodup (g : Config) (hn : isElem g.Name) :
    normalisedDirs g = createDirectories_dirs g ∧ (normalisedDirs g).Nodup := by
  refine ⟨normalisedDirs_of_elem g hn, ?_⟩
  rw [normalisedDirs_of_elem g hn]
  exact createDirectories_dirs_nodup_of_elem g hn

/-- Instance of C9, amended: the project `demo`. -/
theorem createDirectories_dirs_nodup_witness :
    normalisedDirs demoConfig = createDirectories_dirs demoConfig ∧
      (normalisedDirs demoConfig).Nodup :=
  createDirectories_dirs_nodup demoConfig (by decide)

/-- C10 as stated fails: for the project `demo` the templates `cli` and `api` both plan the
directory `demo/cmd/demo`, so their template directory sets are not disjoint; and for the
project name `..` even `library` and `cli` meet, both planning the directory `..`. -/
theorem createDirectories_templateDirs_overlap :
    ("demo/cmd/demo" ∈ templateDirsOf cliConfig "cli" ∧
     "demo/cmd/demo" ∈ templateDirsOf cliConfig "api" ∧
     ¬ List.Disjoint (templateDirsOf cliConfig "cli") (templateDirsOf cliConfig "api")) ∧
    (".." ∈ templateDirsOf dotdotConfig "library" ∧
     ".." ∈ templateDirsOf dotdotConfig "cli" ∧
     ¬ List.Disjoint (templateDirsOf dotdotConfig "library")
        (templateDirsOf dotdotConfig "cli")) := by
  have h1 : "demo/cmd/demo" ∈ templateDirsOf cliConfig "cli" := by decide
  have h2 : "demo/cmd/demo" ∈ templateDirsOf cliConfig "api" := by decide
  have h3 : ".." ∈ templateDirsOf dotdotConfig "library" := by decide
  have h4 : ".." ∈ templateDirsOf dotdotConfig "cli" := by decide
  exact ⟨⟨h1, h2, fun h => h h1 h2⟩, ⟨h3, h4, fun h => h h3 h4⟩⟩

/-- C10, amended: when the project name is a path element, the template directory sets of
`basic` (empty) and `library` are disjoint from those of every other kind, whereas `cli`,
`api` and `grpc` overlap: `cli` shares exactly n/cmd/n with `api` and with `grpc`, and `api`
and `grpc` share exactly n/cmd/n and n/pkg. -/
theorem createDirectories_templateDirs_shared (g : Config) (hn : isElem g.Name) :
    templateDirsOf g "basic" = [] ∧
    List.Disjoint (templateDirsOf g "library") (templateDirsOf g "cli") ∧
    List.Disjoint (templateDirsOf g "library") (templateDirsOf g "api") ∧
    List.Disjoint (templateDirsOf g "library") (templateDirsOf g "grpc") ∧
    (∀ d, d ∈ templateDirsOf g "cli" ∧ d ∈ templateDirsOf g "api" ↔
      d = g.Name ++ "/cmd/" ++ g.Name) ∧
    (∀ d, d ∈ templateDirsOf g "cli" ∧ d ∈ templateDirsOf g "grpc" ↔
      d = g.Name ++ "/cmd/" ++ g.Name) ∧
    (∀ d, d ∈ templateDirsOf g "api" ∧ d ∈ templateDirsOf g "grpc" ↔
      d = g.Name ++ "/cmd/" ++ g.Name ∨ d = g.Name ++ "/pkg") := by
  have hcmd : isElem "cmd" := by decide
  have hint : isElem "internal" := by decide
  have hhan : isElem "handler" := by decide
  have hmid : isElem "middleware" := by decide
  have hrou : isElem "router" := by decide
  have hpkg : isElem "pkg" := by decide
  have hser : isElem "server" := by decide
  have hpro : isElem "proto" := by decide
  have hexa : isElem "examples" := by decide
  have hbasic : templateDirsOf g "basic" = [] := by
    simp [templateDirsOf, createDirectories_templateDirs]
  have hcli : templateDirsOf g "cli" =
      [Join [g.Name, "cmd", g.Name], Join [g.Name, "internal"]] := by
    simp [templateDirsOf, createDirectories_templateDirs]
  have hapi : templateDirsOf g "api" =
      [Join [g.Name, "cmd", g.Name], Join [g.Name, "internal", "handler"],
       Join [g.Name, "internal", "middleware"], Join [g.Name, "internal", "router"],
       Join [g.Name, "pkg"]] := by
    simp [templateDirsOf, createDirectories_templateDirs]
  have hgrpc : templateDirsOf g "grpc" =
      [Join [g.Name, "cmd", g.Name], Join [g.Name, "internal", "server"],
       Join [g.Name, "proto"], Join [g.Name, "pkg"]] := by
    simp [templateDirsOf, createDirectories_templateDirs]
  have hlib : templateDirsOf g "library" =
      [Join [g.Name, "pkg", g.Name], Join [g.Name, "examples"]] := by
    simp [templateDirsOf, createDirectories_templateDirs]
  rw [hbasic, hcli, hapi, hgrpc, hlib, ← Join_dir_cmd_name _ hn, ← Join_dir_pkg _ hn]
  refine ⟨rfl, ?_, ?_, ?_, ?_, ?_, ?_⟩
  · simp [List.Disjoint, Join_eq_iff_of_elems, hn, hcmd, hint, hpkg, hexa]
  · simp [List.Disjoint, Join_eq_iff_of_elems, hn, hcmd, hint, hpkg, hexa, hhan, hmid, hrou]
  · simp [List.Disjoint, Join_eq_iff_of_elems, hn, hcmd, hint, hpkg, hexa, hser, hpro]
  · intro d
    constructor
    · rintro ⟨h1, h2⟩
      simp only [List.mem_cons, List.mem_singleton, List.not_mem_nil, or_false] at h1 h2
      rcases h1 with rfl | rfl
      · rfl
      · simp [Join_eq_iff_of_elems, hn, hcmd, hint, hpkg, hhan, hmid, hrou] at h2
    · rintro rfl
      simp
  · intro d
    constructor
    · rintro ⟨h1, h2⟩
      simp only [List.mem_cons, List.mem_singleton, List.not_mem_nil, or_false] at h1 h2
      rcases h1 with rfl | rfl
      · rfl
      · simp [Join_eq_iff_of_elems, hn, hcmd, hint, hpkg, hser, hpro] at h2
    · rintro rfl
      simp
  · intro d
    constructor
    · rintro ⟨h1, h2⟩
      simp only [List.mem_cons, List.mem_singleton, List.not_mem_nil, or_false] at h1 h2
      rcases h1 with rfl | rfl | rfl | rfl | rfl
      · exact Or.inl rfl
      · simp [Join_eq_iff_of_elems, hn, hcmd, hint, hpkg, hser, hpro, hhan] at h2
      · simp [Join_eq_iff_of_elems, hn, hcmd, hint, hpkg, hser, hpro, hmid] at h2
      · simp [Join_eq_iff_of_elems, hn, hcmd, hint, hpkg, hser, hpro, hrou] at h2
      · exact Or.inr rfl
    · rintro (rfl | rfl) <;> simp

/-- Instance of C10, amended: for the project `demo`, `basic` plans no template directory
and `demo/pkg` is planned by both `api` and `grpc`. -/
theorem createDirectories_templateDirs_shared_witness :
    templateDirsOf demoConfig "basic" = [] ∧
    ("demo/pkg" ∈ templateDirsOf demoConfig "api" ∧
      "demo/pkg" ∈ templateDirsOf demoConfig "grpc" ↔
      "demo/pkg" = "demo/cmd/demo" ∨ "demo/pkg" = "demo/pkg") :=
  ⟨(createDirectories_templateDirs_shared demoConfig (by decide)).1,
   (createDirectories_templateDirs_shared demoConfig (by decide)).2.2.2.2.2.2 "demo/pkg"⟩

/-! ## Valid project names -/

theorem validName_of_validateProjectName (n : String) (h : validateProjectName n = none) :
    validName_MatchString n = true := by
  unfold validateProjectName at h
  split_ifs at h with h1 h2
  simpa using h2

theorem validName_chars (n : String) (h : validName_MatchString n = true) :
    ∃ c cs, n.data = c :: cs ∧ isAsciiLetter c = true ∧
      ∀ x ∈ cs, isNameChar x = true := by
  unfold validName_MatchString at h
  cases hd : n.data with
  | nil => simp [hd] at h
  | cons c cs =>
    simp only [hd, Bool.and_eq_true, List.all_eq_true] at h
    exact ⟨c, cs, rfl, h.1, h.2⟩

theorem isNameChar_of_isAsciiLetter (c : Char) (h : isAsciiLetter c = true) :
    isNameChar c = true := by
  simp [isNameChar, h]

theorem isElem_of_validName (n : String) (h : validName_MatchString n = true) : isElem n := by
  obtain ⟨c, cs, hd, hc, hcs⟩ := validName_chars n h
  have hslash : isNameChar '/' = false := by decide
  have hdot : isAsciiLetter '.' = false := by decide
  refine ⟨?_, ?_, ?_, ?_⟩
  · simp [hd]
  · rw [hd]
    intro hm
    rcases List.mem_cons.1 hm with h1 | h1
    · rw [← h1] at hc
      have := isNameChar_of_isAsciiLetter _ hc
      rw [hslash] at this
      exact Bool.noConfusion this
    · have := hcs _ h1
      rw [hslash] at this
      exact Bool.noConfusion this
  · rw [hd]
    intro he
    have hc1 : c = '.' := (List.cons.inj he).1
    rw [hc1, hdot] at hc
    exact Bool.noConfusion hc
  · rw [hd]
    intro he
    have hc1 : c = '.' := (List.cons.inj he).1
    rw [hc1, hdot] at hc
    exact Bool.noConfusion hc

theorem isElem_of_validateProjectName (n : String) (h : validateProjectName n = none) :
    isElem n :=
  isElem_of_validName n (validName_of_validateProjectName n h)

theorem nameChars_of_validateProjectName (n : String) (h : validateProjectName n = none) :
    ∀ c ∈ n.data, isNameChar c = true := by
  obtain ⟨c, cs, hd, hc, hcs⟩ := validName_chars n (validName_of_validateProjectName n h)
  intro x hx
  rw [hd] at hx
  rcases List.mem_cons.1 hx with h1 | h1
  · rw [h1]
    exact isNameChar_of_isAsciiLetter _ hc
  · exact hcs x h1

/-! ## Contents of the generated files -/

theorem createBasicTemplate_mainGo_greeting (n : String) :
    containsText ("fmt.Println(\"Hello from " ++ n ++ "!\")") (createBasicTemplate_mainGo n) := by
  refine ⟨"package main\n\nimport \"fmt\"\n\nfunc main() \x7b\n\t", "\n\x7d\n", ?_⟩
  apply String.ext
  simp only [createBasicTemplate_mainGo, String.data_append, List.append_assoc]
  rfl

theorem createLibraryTemplate_libGo_greeting (n : String) :
    containsText
      ("func Example() string \x7b\n\treturn \"Hello from " ++ n ++ " library!\"\n\x7d")
      (createLibraryTemplate_libGo n) := by
  refine ⟨"// Package " ++ n ++ " provides functionality for...\npackage " ++ n ++
    "\n\n// Version is the current version of the library\nconst Version = \"0.1.0\"\n\n" ++
    "// Example is an example function\n", "\n", ?_⟩
  apply String.ext
  simp only [createLibraryTemplate_libGo, String.data_append, List.append_assoc]
  rfl

theorem mem_templateStepFiles_basic (o : Oracle) (g : Config) (w : World)
    (hok : (createTemplateFiles o g w).1 = none) (hT : g.Template = "basic") :
    (Join [g.Name, "main.go"], createBasicTemplate_mainGo g.Name) ∈
      templateStepFiles o g w := by
  rw [templateStepFiles_of_success o g w hok, createTemplateFiles_ops_basic g hT]
  simp [createBasicTemplate_ops, fileOps, Op.file]

theorem mem_templateStepFiles_library (o : Oracle) (g : Config) (w : World)
    (hok : (createTemplateFiles o g w).1 = none) (hT : g.Template = "library") :
    (Join [g.Name, "pkg", g.Name, g.Name ++ ".go"], createLibraryTemplate_libGo g.Name) ∈
      templateStepFiles o g w := by
  rw [templateStepFiles_of_success o g w hok, createTemplateFiles_ops_library g hT]
  simp [createLibraryTemplate_ops, fileOps, Op.file]

/-- C11: when the template step succeeds, the file `<n>/main.go` of the `basic` template has
a content that contains the statement printing `Hello from n!`, and the package file
`<n>/pkg/<n>/<n>.go` of the `library` template has a content that contains the function
`Example` whose body returns the literal `Hello from n library!`; for a name accepted by
`validateProjectName` the name consists of letters, digits, `_` and `-` only, so the quoted
texts are Go string literals without escapes. -/
theorem greeting_texts (o : Oracle) (g : Config) (w : World)
    (hok : (createTemplateFiles o g w).1 = none) :
    (g.Template = "basic" →
      (Join [g.Name, "main.go"], createBasicTemplate_mainGo g.Name) ∈
        templateStepFiles o g w ∧
      containsText ("fmt.Println(\"Hello from " ++ g.Name ++ "!\")")
        (createBasicTemplate_mainGo g.Name)) ∧
    (g.Template = "library" →
      (Join [g.Name, "pkg", g.Name, g.Name ++ ".go"], createLibraryTemplate_libGo g.Name) ∈
        templateStepFiles o g w ∧
      containsText
        ("func Example() string \x7b\n\treturn \"Hello from " ++ g.Name ++ " library!\"\n\x7d")
        (createLibraryTemplate_libGo g.Name)) ∧
    (validateProjectName g.Name = none → ∀ c ∈ g.Name.data, isNameChar c = true) :=
  ⟨fun hT => ⟨mem_templateStepFiles_basic o g w hok hT,
      createBasicTemplate_mainGo_greeting g.Name⟩,
   fun hT => ⟨mem_templateStepFiles_library o g w hok hT,
      createLibraryTemplate_libGo_greeting g.Name⟩,
   nameChars_of_validateProjectName g.Name⟩

/-- Instance of C11: the project `widget` with module path `github.com/acme/widget`. -/
theorem greeting_texts_witness :
    (("widget/main.go", createBasicTemplate_mainGo "widget") ∈
        templateStepFiles Oracle.ok { widgetConfig with Template := "basic" } [] ∧
      containsText "fmt.Println(\"Hello from widget!\")"
        (createBasicTemplate_mainGo "widget")) ∧
    (("widget/pkg/widget/widget.go", createLibraryTemplate_libGo "widget") ∈
        templateStepFiles Oracle.ok widgetConfig [] ∧
      containsText
        "func Example() string \x7b\n\treturn \"Hello from widget library!\"\n\x7d"
        (createLibraryTemplate_libGo "widget")) :=
  ⟨(greeting_texts Oracle.ok { widgetConfig with Template := "basic" } []
      (createTemplateFiles_Oracle_ok _ [])).1 rfl,
   (greeting_texts Oracle.ok widgetConfig [] (createTemplateFiles_Oracle_ok _ [])).2.1 rfl⟩

theorem newEvents_writeFile_of_success (o : Oracle) (path content : String) (w : World)
    (h : (writeFile o path content w).1 = none) :
    written (newEvents w (writeFile o path content w)) = [(path, content)] := by
  rw [writeFile_eq_runSteps] at h ⊢
  rw [newEvents_runSteps_of_success o _ w h, written_map_ok]
  simp [fileSteps, fileOps, Step.plain, Op.file]

set_option maxRecDepth 20000 in
theorem createMakefile_content_split :
    ∃ head tail : String → String → String, ∀ name modulePath recipe : String,
      createMakefile_content name modulePath recipe =
        head name modulePath ++ "run:\n\t" ++ recipe ++ "\n" ++ tail name modulePath := by
  refine ⟨fun name modulePath =>
      "# Project variables\nBINARY_NAME=" ++ name ++ "\nPKG=" ++ modulePath ++
      "\n\n# Go commands\nGOCMD=go\nGOBUILD=$(GOCMD) build\nGOTEST=$(GOCMD) test\n" ++
      "GOGET=$(GOCMD) get\nGOMOD=$(GOCMD) mod\nGOLINT=golangci-lint\n\n# Build flags\n" ++
      "LDFLAGS=-ldflags \"-s -w\"\n\n.PHONY: all build clean test lint run tidy help\n\n" ++
      "all: lint test build\n\n## build: Build the binary\nbuild:\n" ++
      "\t$(GOBUILD) $(LDFLAGS) -o bin/$(BINARY_NAME) ./cmd/$(BINARY_NAME)\n\n" ++
      "## clean: Clean build artifacts\nclean:\n\trm -rf bin/\n\trm -f coverage.out\n\n" ++
      "## test: Run tests\ntest:\n\t$(GOTEST) -v -race -coverprofile=coverage.out ./...\n\n" ++
      "## lint: Run linter\nlint:\n\t$(GOLINT) run ./...\n\n## run: Run the application\n",
    fun _ _ =>
      "\n## tidy: Tidy dependencies\ntidy:\n\t$(GOMOD) tidy\n\n## help: Show this help\n" ++
      "help:\n\t@echo \"Available targets:\"\n" ++
      "\t@sed -n \x27s/^##//p\x27 $(MAKEFILE_LIST) | column -t -s \x27:\x27 | " ++
      "sed -e \x27s/^/ /\x27\n", ?_⟩
  intro name modulePath recipe
  apply String.ext
  simp only [createMakefile_content, String.data_append, List.append_assoc]
  rfl

/-- C12: the Makefile that `createMakefile` writes to `<name>/Makefile` consists of a part
that depends only on the project name and the module path, the rule `run:` whose recipe is
the chosen run target, and a second part that depends only on name and module path; the
recipe is `go run .` for the template `basic`, `go run ./examples/basic` for `library` and
`go run ./cmd/<name>` for every other template string. -/
theorem createMakefile_run_recipe (o : Oracle) (g : Config) (w : World)
    (hok : (createMakefile o g w).1 = none) :
    createMakefileFiles o g w =
      [(Join [g.Name, "Makefile"],
        createMakefile_content g.Name g.ModulePath (createMakefile_runTarget g))] ∧
    (g.Template = "basic" → createMakefile_runTarget g = "go run .") ∧
    (g.Template = "library" → createMakefile_runTarget g = "go run ./examples/basic") ∧
    (g.Template ≠ "basic" → g.Template ≠ "library" →
      createMakefile_runTarget g = "go run ./cmd/" ++ g.Name) ∧
    (∃ head tail : String → String → String, ∀ name modulePath recipe : String,
      createMakefile_content name modulePath recipe =
        head name modulePath ++ "run:\n\t" ++ recipe ++ "\n" ++ tail name modulePath) := by
  refine ⟨newEvents_writeFile_of_success o _ _ w hok, ?_, ?_, ?_,
    createMakefile_content_split⟩
  · intro hT
    simp [createMakefile_runTarget, hT]
  · intro hT
    simp [createMakefile_runTarget, hT]
  · intro h1 h2
    simp [createMakefile_runTarget, h1, h2]

/-- Instance of C12: the `library` project `widget`, which asks for a Makefile. -/
theorem createMakefile_run_recipe_witness :
    createMakefileFiles Oracle.ok widgetConfig [] =
      [("widget/Makefile",
        createMakefile_content "widget" "github.com/acme/widget" "go run ./examples/basic")] :=
  (createMakefile_run_recipe Oracle.ok widgetConfig [] (by
    unfold createMakefile
    rw [writeFile_eq_runSteps, runSteps_Oracle_ok])).1

/-! ## The README -/

theorem string_append_left_cancel (a b c : String) (h : a ++ b = a ++ c) : b = c := by
  have := congrArg String.data h
  simp only [String.data_append, List.append_cancel_left_eq] at this
  exact String.ext this

theorem createReadme_usage_forms (name modulePath : String) :
    createReadme_usageDefault = "```" ++ ("bash\ngo run ." ++ "\n```") ∧
    createReadme_usageCLI name = "```" ++ ("bash\ngo run ." ++ ("/cmd/" ++ name ++ "\n```")) ∧
    createReadme_usageAPI name = "```" ++ ("bash\ngo run ." ++ ("/cmd/" ++ name ++
      "\n# Server starts on :8080\ncurl http://localhost:8080/health\n```")) ∧
    createReadme_usageGRPC name = "```" ++ ("bash\ngo run ." ++ ("/cmd/" ++ name ++
      "\n# Server starts on :50051\n```")) ∧
    createReadme_usageLibrary name modulePath = "```" ++ ("go\nimport \"" ++ modulePath ++
      "/pkg/" ++ name ++ "\"\n\nfunc main() \x7b\n    result := " ++ name ++
      ".Example()\n\x7d\n```") := by
  refine ⟨rfl, ?_, ?_, ?_, ?_⟩ <;>
  · apply String.ext
    simp only [createReadme_usageCLI, createReadme_usageAPI, createReadme_usageGRPC,
      createReadme_usageLibrary, String.data_append, List.append_assoc]
    rfl

theorem createReadme_usage_ne (name modulePath : String) :
    createReadme_usageDefault ≠ createReadme_usageCLI name ∧
    createReadme_usageDefault ≠ createReadme_usageAPI name ∧
    createReadme_usageDefault ≠ createReadme_usageGRPC name ∧
    createReadme_usageDefault ≠ createReadme_usageLibrary name modulePath ∧
    createReadme_usageCLI name ≠ createReadme_usageAPI name ∧
    createReadme_usageCLI name ≠ createReadme_usageGRPC name ∧
    createReadme_usageCLI name ≠ createReadme_usageLibrary name modulePath ∧
    createReadme_usageAPI name ≠ createReadme_usageGRPC name ∧
    createReadme_usageAPI name ≠ createReadme_usageLibrary name modulePath ∧
    createReadme_usageGRPC name ≠ createReadme_usageLibrary name modulePath := by
  obtain ⟨f1, f2, f3, f4, f5⟩ := createReadme_usage_forms name modulePath
  have slash : ∀ t : String, "\n```" ≠ "/cmd/" ++ name ++ t := by
    intro t h
    have := congrArg String.data h
    simp only [String.data_append, List.append_assoc] at this
    exact absurd (List.cons.inj this).1 (by decide)
  have lib : ∀ t u : String, "bash\ngo run ." ++ t ≠ "go\nimport \"" ++ u := by
    intro t u h
    have := congrArg String.data h
    simp only [String.data_append] at this
    exact absurd (List.cons.inj this).1 (by decide)
  have tail : ∀ a b : String, a ≠ b → "/cmd/" ++ name ++ a ≠ "/cmd/" ++ name ++ b := by
    intro a b hab h
    rw [String.append_assoc, String.append_assoc] at h
    exact hab (string_append_left_cancel _ _ _ (string_append_left_cancel _ _ _ h))
  rw [f1, f2, f3, f4, f5]
  refine ⟨?_, ?_, ?_, ?_, ?_, ?_, ?_, ?_, ?_, ?_⟩
  · intro h
    exact slash _ (string_append_left_cancel _ _ _ (string_append_left_cancel _ _ _ h))
  · intro h
    exact slash _ (string_append_left_cancel _ _ _ (string_append_left_cancel _ _ _ h))
  · intro h
    exact slash _ (string_append_left_cancel _ _ _ (string_append_left_cancel _ _ _ h))
  · intro h
    have h1 := string_append_left_cancel _ _ _ h
    simp only [String.append_assoc] at h1
    exact lib _ _ h1
  · intro h
    exact tail _ _ (by decide)
      (string_append_left_cancel _ _ _ (string_append_left_cancel _ _ _ h))
  · intro h
    exact tail _ _ (by decide)
      (string_append_left_cancel _ _ _ (string_append_left_cancel _ _ _ h))
  · intro h
    have h1 := string_append_left_cancel _ _ _ h
    simp only [String.append_assoc] at h1
    exact lib _ _ h1
  · intro h
    exact tail _ _ (by decide)
      (string_append_left_cancel _ _ _ (string_append_left_cancel _ _ _ h))
  · intro h
    have h1 := string_append_left_cancel _ _ _ h
    simp only [String.append_assoc] at h1
    exact lib _ _ h1
  · intro h
    have h1 := string_append_left_cancel _ _ _ h
    simp only [String.append_assoc] at h1
    exact lib _ _ h1

/-- C13: for every project name and module path, the usage example blocks that `createReadme`
chooses for the five template kinds basic, cli, api, grpc and library are pairwise distinct
strings, and so are the five descriptions. -/
theorem createReadme_usage_distinct (g : Config) :
    (["basic", "cli", "api", "grpc", "library"].map
      fun k => createReadme_usage { g with Template := k }).Nodup ∧
    (["basic", "cli", "api", "grpc", "library"].map
      fun k => createReadme_description { g with Template := k }).Nodup := by
  obtain ⟨h1, h2, h3, h4, h5, h6, h7, h8, h9, h10⟩ :=
    createReadme_usage_ne g.Name g.ModulePath
  constructor
  · simp [createReadme_usage, h1, h2, h3, h4, h5, h6, h7, h8, h9, h10]
  · simp [createReadme_description]

theorem createReadme_content_eq (g : Config) :
    createReadme_content g =
      createReadme_head g.Name g.ModulePath (createReadme_description g)
          (createReadme_usage g) ++
        (if g.IncludeMakefile then createReadme_commands else "") ++
        createReadme_license := by
  unfold createReadme_content
  cases g.IncludeMakefile <;> simp

set_option maxRecDepth 20000 in
theorem createReadme_blocks :
    (∃ rest, createReadme_commands = "\n### Available Commands\n" ++ rest) ∧
    createReadme_license = "\n## License\n\nMIT License\n" :=
  ⟨⟨"\n```bash\nmake help    # Show available commands\n" ++
      "make build   # Build the binary\nmake test    # Run tests\n" ++
      "make lint    # Run linter\nmake run     # Run the application\n```\n", by decide⟩,
    by decide⟩

/-- C14: the README content with `IncludeMakefile` true is the README content with
`IncludeMakefile` false with the fixed block headed `### Available Commands` inserted right
before the closing block headed `## License`; the content written to `<name>/README.md` is
a function of name, module path, template and `IncludeMakefile` alone, so no other flag
changes it. -/
theorem createReadme_commands_block (o : Oracle) (g g1 : Config) (w : World) :
    ((createReadme o g w).1 = none →
      createReadmeFiles o g w = [(Join [g.Name, "README.md"], createReadme_content g)]) ∧
    createReadme_content { g with IncludeMakefile := false } =
      createReadme_head g.Name g.ModulePath (createReadme_description g)
        (createReadme_usage g) ++ createReadme_license ∧
    createReadme_content { g with IncludeMakefile := true } =
      createReadme_head g.Name g.ModulePath (createReadme_description g)
        (createReadme_usage g) ++ createReadme_commands ++ createReadme_license ∧
    (∃ rest, createReadme_commands = "\n### Available Commands\n" ++ rest) ∧
    createReadme_license = "\n## License\n\nMIT License\n" ∧
    (g1.Name = g.Name → g1.ModulePath = g.ModulePath → g1.Template = g.Template →
      g1.IncludeMakefile = g.IncludeMakefile →
      createReadme_content g1 = createReadme_content g) := by
  refine ⟨fun hok => newEvents_writeFile_of_success o _ _ w hok, ?_, ?_, ?_, ?_, ?_⟩
  · rw [createReadme_content_eq]
    simp [createReadme_description, createReadme_usage]
  · rw [createReadme_content_eq]
    simp [createReadme_description, createReadme_usage]
  · exact createReadme_blocks.1
  · exact createReadme_blocks.2
  · intro h1 h2 h3 h4
    rw [createReadme_content_eq, createReadme_content_eq]
    simp only [createReadme_description, createReadme_usage, h1, h2, h3, h4]

/-- Instance of C14: two configurations of the project `demo` that differ in every flag
except `IncludeMakefile` have the same README content. -/
theorem createReadme_commands_block_witness :
    createReadme_content
        { demoConfig with
          IncludeDocker := false, IncludeCI := false, IncludeLint := false,
          IncludePreCommit := false, IncludeTests := false, InitGit := false } =
      createReadme_content demoConfig :=
  (createReadme_commands_block Oracle.ok demoConfig
    { demoConfig with
      IncludeDocker := false, IncludeCI := false, IncludeLint := false,
      IncludePreCommit := false, IncludeTests := false, InitGit := false }
    []).2.2.2.2.2 rfl rfl rfl rfl

/-! ## Independence of the template step from the feature flags -/

/-- C15: two configurations that agree on name, module path, template and `IncludeTests`
give the same template step in every environment: the same operations with the same
results, hence the same files with the same contents, whatever the other flags are. -/
theorem createTemplateFiles_flags_irrelevant (o : Oracle) (g g1 : Config) (w : World)
    (h1 : g1.Name = g.Name) (h2 : g1.ModulePath = g.ModulePath)
    (h3 : g1.Template = g.Template) (h4 : g1.IncludeTests = g.IncludeTests) :
    createTemplateFiles o g1 w = createTemplateFiles o g w ∧
    templateStepFiles o g1 w = templateStepFiles o g w := by
  have h : createTemplateFiles o g1 w = createTemplateFiles o g w := by
    simp only [createTemplateFiles, createBasicTemplate, createCLITemplate, createAPITemplate,
      createGRPCTemplate, createLibraryTemplate, h1, h2, h3, h4]
  exact ⟨h, by unfold templateStepFiles; rw [h]⟩

/-- Instance of C15: the project `demo` with all optional features and with none. -/
theorem createTemplateFiles_flags_irrelevant_witness :
    createTemplateFiles Oracle.ok
        { demoConfig with
          IncludeMakefile := false, IncludeDocker := false, IncludeCI := false,
          IncludeLint := false, IncludePreCommit := false, InitGit := false } [] =
      createTemplateFiles Oracle.ok demoConfig [] ∧
    templateStepFiles Oracle.ok
        { demoConfig with
          IncludeMakefile := false, IncludeDocker := false, IncludeCI := false,
          IncludeLint := false, IncludePreCommit := false, InitGit := false } [] =
      templateStepFiles Oracle.ok demoConfig [] :=
  createTemplateFiles_flags_irrelevant Oracle.ok demoConfig
    { demoConfig with
      IncludeMakefile := false, IncludeDocker := false, IncludeCI := false,
      IncludeLint := false, IncludePreCommit := false, InitGit := false }
    [] rfl rfl rfl rfl

/-! ## Parent directories -/

theorem splitSep_ne_nil (l : List Char) : splitSep l ≠ [] := by
  cases l with
  | nil => simp [splitSep]
  | cons c cs =>
    by_cases hc : c = '/'
    · simp [splitSep, hc]
    · simp only [splitSep, hc, if_false]
      cases splitSep cs <;> simp

theorem splitSep_cons_of_ne (c : Char) (cs : List Char) (hc : c ≠ '/') :
    ∃ e es, splitSep cs = e :: es ∧ splitSep (c :: cs) = (c :: e) :: es := by
  cases hs : splitSep cs with
  | nil => exact absurd hs (splitSep_ne_nil cs)
  | cons e es => exact ⟨e, es, rfl, by simp [splitSep, hc, hs]⟩

theorem splitSep_append (a b : List Char) :
    splitSep (a ++ '/' :: b) = splitSep a ++ splitSep b := by
  induction a with
  | nil => simp [splitSep]
  | cons c cs ih =>
    rw [List.cons_append]
    by_cases hc : c = '/'
    · simp [splitSep, hc, ih]
    · obtain ⟨e, es, hs, hcs⟩ := splitSep_cons_of_ne c cs hc
      obtain ⟨e1, es1, hs1, hcs1⟩ := splitSep_cons_of_ne c (cs ++ '/' :: b) hc
      rw [hcs1, hcs]
      rw [ih, hs] at hs1
      simp only [List.cons_append, List.cons.injEq] at hs1
      rw [← hs1.1, ← hs1.2]
      rfl

theorem cleanElems_append_of_elems (rooted : Bool) (xs ys out : List (List Char))
    (h : ∀ x ∈ xs, isElemChars x) :
    cleanElems rooted (xs ++ ys) out = cleanElems rooted ys (xs.reverse ++ out) := by
  induction xs generalizing out with
  | nil => simp
  | cons x rest ih =>
    obtain ⟨h1, _, h3, h4⟩ := h x (by simp)
    have hrest : ∀ z ∈ rest, isElemChars z := fun z hz => h z (List.mem_cons_of_mem _ hz)
    rw [List.cons_append]
    have hstep : cleanElems rooted (x :: (rest ++ ys)) out =
        cleanElems rooted (rest ++ ys) (x :: out) := by
      simp only [cleanElems, h1, h3, h4, if_false]
    rw [hstep, ih _ hrest]
    simp

theorem joinSep_cons_cons (y z : List Char) (zs : List (List Char)) :
    joinSep (y :: z :: zs) = y ++ '/' :: joinSep (z :: zs) := rfl

theorem joinSep_append_singleton (xs : List (List Char)) (x : List Char) (hne : xs ≠ []) :
    joinSep (xs ++ [x]) = joinSep xs ++ '/' :: x := by
  induction xs with
  | nil => exact absurd rfl hne
  | cons y rest ih =>
    cases rest with
    | nil => rfl
    | cons z zs =>
      have := ih (by simp)
      rw [List.cons_append, List.cons_append, joinSep_cons_cons, joinSep_cons_cons,
        ← List.cons_append, this]
      simp

theorem dirPrefix_cons_of_mem (c : Char) (cs : List Char) (h : '/' ∈ cs) :
    dirPrefix (c :: cs) = c :: dirPrefix cs := by
  simp [dirPrefix, h]

theorem dirPrefix_append (a x : List Char) (hx : '/' ∉ x) :
    dirPrefix (a ++ '/' :: x) = a ++ ['/'] := by
  induction a with
  | nil => simp [dirPrefix, hx]
  | cons c cs ih =>
    rw [List.cons_append, dirPrefix_cons_of_mem _ _ (by simp), ih]
    rfl

theorem cleanChars_joinSep_slash (xs : List (List Char)) (hne : xs ≠ [])
    (h : ∀ x ∈ xs, isElemChars x) : cleanChars (joinSep xs ++ ['/']) = joinSep xs := by
  cases xs with
  | nil => exact absurd rfl hne
  | cons x rest =>
    have hx := h x (by simp)
    obtain ⟨c, t, hc, hj⟩ := joinSep_head x rest hx.1
    have hcsep : c ≠ '/' := fun e => hx.2.1 (e ▸ hc)
    have hsplit : splitSep (joinSep (x :: rest) ++ ['/']) = (x :: rest) ++ [[]] := by
      rw [splitSep_append, splitSep_joinSep _ (by simp) (fun z hz => (h z hz).2.1)]
      rfl
    have hclean : cleanElems false ((x :: rest) ++ [[]]) [] = x :: rest := by
      rw [cleanElems_append_of_elems false _ _ _ h]
      simp [cleanElems]
    have hnil : joinSep (x :: rest) ≠ [] := by
      rw [hj]
      simp
    have hmain : cleanChars ((c :: t) ++ ['/']) = c :: t := by
      have hs : splitSep ((c :: t) ++ ['/']) = (x :: rest) ++ [[]] := hj ▸ hsplit
      have hcons : (c :: t) ++ ['/'] = c :: (t ++ ['/']) := rfl
      have hs1 : splitSep (c :: (t ++ ['/'])) = (x :: rest) ++ [[]] := hcons ▸ hs
      simp only [hcons, cleanChars, hcsep, if_false, hs1, hclean, hj]
    rw [hj]
    exact hmain

theorem stringsJoin_singleton (n : String) : stringsJoin [n] = n := by
  apply String.ext
  simp [stringsJoin, joinSep]

theorem Dir_stringsJoin (es : List String) (e : String) (hne : es ≠ [])
    (hes : ∀ x ∈ es, isElem x) (he : '/' ∉ e.data) :
    Dir (stringsJoin (es ++ [e])) = stringsJoin es := by
  have hall : ∀ x ∈ es.map String.data, isElemChars x := by
    intro x hx
    obtain ⟨s, hs, rfl⟩ := List.mem_map.1 hx
    exact hes s hs
  have hne1 : es.map String.data ≠ [] := by simpa using hne
  unfold Dir Clean
  apply String.ext
  simp only [stringsJoin, List.map_append, List.map]
  rw [joinSep_append_singleton _ _ hne1, dirPrefix_append _ _ he,
    cleanChars_joinSep_slash _ hne1 hall]

/-! ## Staying inside the project directory -/

theorem beneath_Join (n : String) (es : List String) (hn : isElem n) (hne : es ≠ [])
    (hes : ∀ e ∈ es, isElem e) : beneath n (Join (n :: es)) := by
  refine ⟨es, hne, hes, ?_⟩
  refine Join_of_elems _ (by simp) ?_
  intro e he
  rcases List.mem_cons.1 he with h | h
  · rw [h]
    exact hn
  · exact hes e h

theorem Dir_Join (n : String) (init : List String) (last : String) (hn : isElem n)
    (hinit : ∀ e ∈ init, isElem e) (hlast : isElem last) :
    Dir (Join (n :: (init ++ [last]))) = Join (n :: init) := by
  have hall : ∀ e ∈ n :: init, isElem e := by
    intro e he
    rcases List.mem_cons.1 he with h | h
    · rw [h]
      exact hn
    · exact hinit e h
  have hall2 : ∀ e ∈ n :: (init ++ [last]), isElem e := by
    intro e he
    rcases List.mem_cons.1 he with h | h
    · rw [h]
      exact hn
    · rcases List.mem_append.1 h with h1 | h1
      · exact hinit e h1
      · rw [List.mem_singleton.1 h1]
        exact hlast
  rw [Join_of_elems _ (by simp) hall2, Join_of_elems _ (by simp) hall]
  have : n :: (init ++ [last]) = (n :: init) ++ [last] := rfl
  rw [this]
  exact Dir_stringsJoin _ _ (by simp) hall hlast.2.1

theorem within_fileOps (n : String) (init : List String) (last content : String)
    (hn : isElem n) (hinit : ∀ e ∈ init, isElem e) (hlast : isElem last) :
    ∀ op ∈ fileOps (Join (n :: (init ++ [last]))) content, Op.within n op := by
  have hes : ∀ e ∈ init ++ [last], isElem e := by
    intro e he
    rcases List.mem_append.1 he with h1 | h1
    · exact hinit e h1
    · rw [List.mem_singleton.1 h1]
      exact hlast
  intro op hop
  simp only [fileOps, List.mem_cons, List.mem_singleton, List.not_mem_nil, or_false] at hop
  rcases hop with rfl | rfl
  · simp only [Op.within]
    rw [Dir_Join n init last hn hinit hlast]
    cases init with
    | nil =>
      left
      rw [Join_of_elems [n] (by simp) (by simpa using hn)]
      exact stringsJoin_singleton n
    | cons e rest =>
      right
      exact beneath_Join n (e :: rest) hn (by simp) hinit
  · simp only [Op.within]
    exact beneath_Join n (init ++ [last]) hn (by simp) hes

theorem forall_mem_append_of {α : Type} {P : α → Prop} {a b : List α}
    (ha : ∀ x ∈ a, P x) (hb : ∀ x ∈ b, P x) : ∀ x ∈ a ++ b, P x := by
  intro x hx
  rcases List.mem_append.1 hx with h | h
  · exact ha x h
  · exact hb x h

theorem forall_mem_guard_of {α : Type} {P : α → Prop} (c : Bool) {a : List α}
    (ha : ∀ x ∈ a, P x) : ∀ x ∈ (if c = true then a else []), P x := by
  cases c
  · intro x hx
    exact absurd hx (by simp)
  · simpa using ha

theorem within_file1 (n last content : String) (hn : isElem n) (hlast : isElem last) :
    ∀ op ∈ fileOps (Join [n, last]) content, Op.within n op :=
  within_fileOps n [] last content hn (by simp) hlast

theorem within_file2 (n a last content : String) (hn : isElem n) (ha : isElem a)
    (hlast : isElem last) : ∀ op ∈ fileOps (Join [n, a, last]) content, Op.within n op :=
  within_fileOps n [a] last content hn (by simpa using ha) hlast

theorem within_file3 (n a b last content : String) (hn : isElem n) (ha : isElem a)
    (hb : isElem b) (hlast : isElem last) :
    ∀ op ∈ fileOps (Join [n, a, b, last]) content, Op.within n op :=
  within_fileOps n [a, b] last content hn (by simp [ha, hb]) hlast

theorem within_createTemplateFiles_ops (g : Config) (hn : isElem g.Name) :
    ∀ op ∈ createTemplateFiles_ops g, Op.within g.Name op := by
  have hbasic : ∀ op ∈ createBasicTemplate_ops g, Op.within g.Name op :=
    forall_mem_append_of (within_file1 _ _ _ hn (by decide))
      (forall_mem_guard_of _ (within_file1 _ _ _ hn (by decide)))
  have hcli : ∀ op ∈ createCLITemplate_ops g, Op.within g.Name op :=
    forall_mem_append_of
      (forall_mem_append_of (within_file3 _ _ _ _ _ hn (by decide) hn (by decide))
        (within_file3 _ _ _ _ _ hn (by decide) (by decide) (by decide)))
      (within_file3 _ _ _ _ _ hn (by decide) (by decide) (by decide))
  have hapi : ∀ op ∈ createAPITemplate_ops g, Op.within g.Name op :=
    forall_mem_append_of
      (forall_mem_append_of
        (forall_mem_append_of
          (forall_mem_append_of (within_file3 _ _ _ _ _ hn (by decide) hn (by decide))
            (within_file3 _ _ _ _ _ hn (by decide) (by decide) (by decide)))
          (within_file3 _ _ _ _ _ hn (by decide) (by decide) (by decide)))
        (within_file3 _ _ _ _ _ hn (by decide) (by decide) (by decide)))
      (forall_mem_guard_of _ (within_file3 _ _ _ _ _ hn (by decide) (by decide) (by decide)))
  have hgrpc : ∀ op ∈ createGRPCTemplate_ops g, Op.within g.Name op :=
    forall_mem_append_of
      (forall_mem_append_of (within_file3 _ _ _ _ _ hn (by decide) hn (by decide))
        (within_file3 _ _ _ _ _ hn (by decide) (by decide) (by decide)))
      (within_file2 _ _ _ _ hn (by decide) (isElem_append _ _ hn (by decide) (by decide)))
  have hlib : ∀ op ∈ createLibraryTemplate_ops g, Op.within g.Name op :=
    forall_mem_append_of
      (forall_mem_append_of
        (within_file3 _ _ _ _ _ hn (by decide) hn
          (isElem_append _ _ hn (by decide) (by decide)))
        (within_file3 _ _ _ _ _ hn (by decide) (by decide) (by decide)))
      (forall_mem_guard_of _
        (within_file3 _ _ _ _ _ hn (by decide) hn
          (isElem_append _ _ hn (by decide) (by decide))))
  unfold createTemplateFiles_ops
  split_ifs
  · exact hbasic
  · exact hcli
  · exact hapi
  · exact hgrpc
  · exact hlib
  · exact hbasic

theorem within_Generate_fileOps (g : Config) (hn : isElem g.Name) :
    ∀ op ∈ Generate_fileOps g, Op.within g.Name op := by
  unfold Generate_fileOps
  refine forall_mem_append_of (forall_mem_append_of (forall_mem_append_of
    (forall_mem_append_of (forall_mem_append_of (forall_mem_append_of
    (forall_mem_append_of ?_ ?_) ?_) ?_) ?_) ?_) ?_) ?_
  · exact within_file1 _ _ _ hn (by decide)
  · exact within_createTemplateFiles_ops g hn
  · exact within_file1 _ _ _ hn (by decide)
  · exact forall_mem_guard_of _ (within_file1 _ _ _ hn (by decide))
  · exact forall_mem_guard_of _
      (forall_mem_append_of (within_file1 _ _ _ hn (by decide))
        (within_file1 _ _ _ hn (by decide)))
  · exact forall_mem_guard_of _ (within_file3 _ _ _ _ _ hn (by decide) (by decide) (by decide))
  · exact forall_mem_guard_of _ (within_file1 _ _ _ hn (by decide))
  · exact forall_mem_guard_of _ (within_file1 _ _ _ hn (by decide))

theorem createDirectories_elems_shape (g : Config) (hn : isElem g.Name) :
    ∀ es ∈ createDirectories_elems g,
      ∃ rest, es = g.Name :: rest ∧ ∀ e ∈ rest, isElem e := by
  have hcmd : isElem "cmd" := by decide
  have hint : isElem "internal" := by decide
  have hhan : isElem "handler" := by decide
  have hmid : isElem "middleware" := by decide
  have hrou : isElem "router" := by decide
  have hpkg : isElem "pkg" := by decide
  have hser : isElem "server" := by decide
  have hpro : isElem "proto" := by decide
  have hexa : isElem "examples" := by decide
  have hgit : isElem ".github" := by decide
  have hwor : isElem "workflows" := by decide
  unfold createDirectories_elems createDirectories_templateElems
  split_ifs <;>
    simp [hn, hcmd, hint, hhan, hmid, hrou, hpkg, hser, hpro, hexa, hgit, hwor]

theorem within_createDirectories_dirs (g : Config) (hn : isElem g.Name) :
    ∀ d ∈ createDirectories_dirs g, d = g.Name ∨ beneath g.Name d := by
  rw [createDirectories_dirs_eq_map g hn]
  intro d hd
  obtain ⟨es, hes, rfl⟩ := List.mem_map.1 hd
  obtain ⟨rest, rfl, hrest⟩ := createDirectories_elems_shape g hn es hes
  cases rest with
  | nil => exact Or.inl (Join_singleton_elem _ hn)
  | cons e tl => exact Or.inr (beneath_Join _ _ hn (by simp) hrest)

theorem within_Generate_ops (g : Config) (hn : isElem g.Name) :
    ∀ op ∈ Generate_ops g, Op.within g.Name op := by
  rw [Generate_ops_eq]
  refine forall_mem_append_of ?_ (forall_mem_append_of (forall_mem_append_of
    (within_Generate_fileOps g hn) (within_file1 _ _ _ hn (by decide))) ?_)
  · intro op hop
    obtain ⟨d, hd, rfl⟩ := List.mem_map.1 hop
    exact within_createDirectories_dirs g hn d hd
  · cases g.InitGit <;> simp [Op.within]

theorem newEvents_runSteps_mem (o : Oracle) (ss : List Step) (w : World) :
    ∀ ev ∈ newEvents w (runSteps o ss w), ev.op ∈ ss.map Step.op := by
  obtain ⟨done, rest, hsplit, hcase⟩ := runSteps_outcome o ss w
  intro ev hev
  unfold newEvents at hev
  rcases hcase with ⟨_, _, hw⟩ | ⟨s, e, tail, hrest, _, _, hw⟩
  · rw [hw, List.drop_left] at hev
    obtain ⟨s, hs, rfl⟩ := List.mem_map.1 hev
    rw [hsplit]
    simp only [Event.ok, List.map_append, List.mem_append, List.mem_map]
    exact Or.inl ⟨s, hs, rfl⟩
  · rw [hw, List.append_assoc, List.drop_left] at hev
    rw [hsplit, hrest]
    rcases List.mem_append.1 hev with h | h
    · obtain ⟨s1, hs1, rfl⟩ := List.mem_map.1 h
      simp only [Event.ok, List.map_append, List.mem_append, List.mem_map]
      exact Or.inl ⟨s1, hs1, rfl⟩
    · rw [List.mem_singleton.1 h]
      simp

/-- C16: for a project name accepted by `validateProjectName`, every operation `Generate`
plans, and so every operation it attempts in any environment, stays in the subtree of the
project directory: each `MkdirAll` is for `<name>` itself or for a directory beneath it, each
file written has a path beneath `<name>` (the name followed by one or more genuine path
elements, as joined and cleaned by `filepath.Join`), and `git init` runs in `<name>`. -/
theorem Generate_within_root (o : Oracle) (g : Config) (w : World)
    (hv : validateProjectName g.Name = none) :
    (∀ op ∈ Generate_ops g, Op.within g.Name op) ∧
    (∀ ev ∈ newEvents w (Generate o g w), Op.within g.Name ev.op) := by
  have hn := isElem_of_validateProjectName g.Name hv
  refine ⟨within_Generate_ops g hn, ?_⟩
  intro ev hev
  rw [Generate_eq_runSteps] at hev
  exact within_Generate_ops g hn ev.op (newEvents_runSteps_mem o _ w ev hev)

/-- Instance of C16: the project `demo`; the planned directory `demo/internal/handler` is
an operation of `Generate` and lies beneath `demo`. -/
theorem Generate_within_root_witness :
    Op.osMkdirAll "demo/internal/handler" ∈ Generate_ops demoConfig ∧
    Op.within "demo" (Op.osMkdirAll "demo/internal/handler") :=
  ⟨by decide, (Generate_within_root Oracle.ok demoConfig [] (by decide)).1 _ (by decide)⟩

/-! ## Validation of the project name -/

theorem mem_asciiLetters_iff (c : Char) : isAsciiLetter c = true ↔ c ∈ asciiLetters := by
  constructor
  · intro h
    have hc : Char.ofNat c.toNat = c := Char.ofNat_toNat c
    simp only [isAsciiLetter, Bool.or_eq_true, Bool.and_eq_true, decide_eq_true_eq] at h
    rw [← hc]
    generalize c.toNat = k at h
    rcases h with ⟨h1, h2⟩ | ⟨h1, h2⟩ <;> interval_cases k <;> decide
  · intro h
    have hall : ∀ x ∈ asciiLetters, isAsciiLetter x = true := by decide
    exact hall c h

theorem mem_asciiDigits_iff (c : Char) :
    (decide (48 ≤ c.toNat) && decide (c.toNat ≤ 57)) = true ↔ c ∈ asciiDigits := by
  constructor
  · intro h
    have hc : Char.ofNat c.toNat = c := Char.ofNat_toNat c
    simp only [Bool.and_eq_true, decide_eq_true_eq] at h
    rw [← hc]
    generalize c.toNat = k at h
    obtain ⟨h1, h2⟩ := h
    interval_cases k <;> decide
  · intro h
    have hall : ∀ x ∈ asciiDigits,
        (decide (48 ≤ x.toNat) && decide (x.toNat ≤ 57)) = true := by decide
    exact hall c h

theorem isNameChar_iff (c : Char) :
    isNameChar c = true ↔ c ∈ asciiLetters ∨ c ∈ asciiDigits ∨ c = '-' ∨ c = '_' := by
  unfold isNameChar
  simp only [Bool.or_eq_true, mem_asciiLetters_iff, mem_asciiDigits_iff, decide_eq_true_eq]
  tauto

theorem validateProjectName_loop_eq_none (name : String) (rs : List String) :
    validateProjectName_loop name rs = none ↔ ∀ r ∈ rs, strings_ToLower name ≠ r := by
  induction rs with
  | nil => simp [validateProjectName_loop]
  | cons r rest ih =>
    by_cases h : strings_ToLower name = r
    · simp [validateProjectName_loop, h]
    · simp [validateProjectName_loop, h, ih]

theorem validName_MatchString_iff (name : String) :
    validName_MatchString name = true ↔
      ∃ c cs, name.data = c :: cs ∧ c ∈ asciiLetters ∧
        ∀ x ∈ cs, x ∈ asciiLetters ∨ x ∈ asciiDigits ∨ x = '-' ∨ x = '_' := by
  constructor
  · intro h
    obtain ⟨c, cs, hd, hc, hcs⟩ := validName_chars name h
    exact ⟨c, cs, hd, (mem_asciiLetters_iff c).1 hc,
      fun x hx => (isNameChar_iff x).1 (hcs x hx)⟩
  · rintro ⟨c, cs, hd, hc, hcs⟩
    unfold validName_MatchString
    rw [hd]
    simp only [Bool.and_eq_true, List.all_eq_true]
    exact ⟨(mem_asciiLetters_iff c).2 hc, fun x hx => (isNameChar_iff x).2 (hcs x hx)⟩

/-- C17: `validateProjectName` returns `nil` exactly for the names that are not empty, start
with an ASCII letter, continue with ASCII letters, digits, hyphens and underscores only, and
whose lower-cased form is none of internal, pkg, cmd, vendor, test, main; every other name
gets an error, and the reserved names are rejected whatever their case, as `Internal` and
`MAIN` show. -/
theorem validateProjectName_accepts_iff (name : String) :
    (validateProjectName name = none ↔ acceptedName name) ∧
    (validateProjectName name ≠ none ↔ ¬ acceptedName name) ∧
    validateProjectName "Internal" = some "\x27Internal\x27 is a reserved name" ∧
    validateProjectName "MAIN" = some "\x27MAIN\x27 is a reserved name" := by
  have key : validateProjectName name = none ↔ acceptedName name := by
    unfold acceptedName
    by_cases h0 : name = ""
    · simp [validateProjectName, h0]
    · by_cases h1 : validName_MatchString name = true
      · have hv : validateProjectName name =
            validateProjectName_loop name validateProjectName_reserved := by
          simp [validateProjectName, h0, h1]
        rw [hv, validateProjectName_loop_eq_none]
        constructor
        · intro h
          exact ⟨h0, (validName_MatchString_iff name).1 h1, h⟩
        · intro h
          exact h.2.2
      · have hv : validateProjectName name ≠ none := by
          simp [validateProjectName, h0, h1]
        constructor
        · intro h
          exact absurd h hv
        · intro h
          exact absurd ((validName_MatchString_iff name).2 h.2.1) h1
  exact ⟨key, not_congr key, by decide, by decide⟩

/-- Instance of C17: `my-app_2` is accepted, and satisfies the documented condition. -/
theorem validateProjectName_accepts_iff_witness :
    validateProjectName "my-app_2" = none ∧ acceptedName "my-app_2" :=
  ⟨by decide, (validateProjectName_accepts_iff "my-app_2").1.1 (by decide)⟩

/-! ## Planned directories and the parents of the template's files -/

theorem Dir_Join1 (n last : String) (hn : isElem n) (hlast : isElem last) :
    Dir (Join [n, last]) = n := by
  rw [show [n, last] = n :: ([] ++ [last]) from rfl, Dir_Join n [] last hn (by simp) hlast]
  exact Join_singleton_elem n hn

theorem Dir_Join3 (n a b last : String) (hn : isElem n) (ha : isElem a) (hb : isElem b)
    (hlast : isElem last) : Dir (Join [n, a, b, last]) = Join [n, a, b] := by
  rw [show [n, a, b, last] = n :: ([a, b] ++ [last]) from rfl,
    Dir_Join n [a, b] last hn (by simp [ha, hb]) hlast]

theorem Dir_Join2 (n a last : String) (hn : isElem n) (ha : isElem a)
    (hlast : isElem last) : Dir (Join [n, a, last]) = Join [n, a] := by
  rw [show [n, a, last] = n :: ([a] ++ [last]) from rfl,
    Dir_Join n [a] last hn (by simpa using ha) hlast]

theorem fileShaped_append (a b : List Op)
    (ha : a = (a.filterMap Op.file).flatMap fun f => fileOps f.1 f.2)
    (hb : b = (b.filterMap Op.file).flatMap fun f => fileOps f.1 f.2) :
    a ++ b = ((a ++ b).filterMap Op.file).flatMap fun f => fileOps f.1 f.2 := by
  rw [List.filterMap_append, List.flatMap_append, ← ha, ← hb]

theorem fileShaped_fileOps (path content : String) :
    fileOps path content =
      ((fileOps path content).filterMap Op.file).flatMap fun f => fileOps f.1 f.2 := by
  simp [fileOps, Op.file, List.flatMap]

theorem fileShaped_guard (c : Bool) (a : List Op)
    (ha : a = (a.filterMap Op.file).flatMap fun f => fileOps f.1 f.2) :
    (if c = true then a else []) =
      ((if c = true then a else []).filterMap Op.file).flatMap fun f => fileOps f.1 f.2 := by
  cases c
  · simp
  · simpa using ha

theorem fileShaped_createTemplateFiles_ops (g : Config) :
    createTemplateFiles_ops g =
      ((createTemplateFiles_ops g).filterMap Op.file).flatMap fun f => fileOps f.1 f.2 := by
  have hbasic := fileShaped_append _ _ (fileShaped_fileOps (Join [g.Name, "main.go"])
      (createBasicTemplate_mainGo g.Name))
    (fileShaped_guard g.IncludeTests _
      (fileShaped_fileOps (Join [g.Name, "main_test.go"]) createBasicTemplate_testGo))
  have hcli := fileShaped_append _ _
    (fileShaped_append _ _
      (fileShaped_fileOps (Join [g.Name, "cmd", g.Name, "main.go"])
        (createCLITemplate_mainGo g.ModulePath))
      (fileShaped_fileOps (Join [g.Name, "internal", "cmd", "root.go"])
        (createCLITemplate_rootCmd g.Name)))
    (fileShaped_fileOps (Join [g.Name, "internal", "cmd", "version.go"])
      createCLITemplate_versionCmd)
  have hapi := fileShaped_append _ _
    (fileShaped_append _ _
      (fileShaped_append _ _
        (fileShaped_append _ _
          (fileShaped_fileOps (Join [g.Name, "cmd", g.Name, "main.go"])
            (createAPITemplate_mainGo g.ModulePath))
          (fileShaped_fileOps (Join [g.Name, "internal", "router", "router.go"])
            (createAPITemplate_routerGo g.ModulePath)))
        (fileShaped_fileOps (Join [g.Name, "internal", "handler", "handler.go"])
          createAPITemplate_handlerGo))
      (fileShaped_fileOps (Join [g.Name, "internal", "middleware", "middleware.go"])
        createAPITemplate_middlewareGo))
    (fileShaped_guard g.IncludeTests _
      (fileShaped_fileOps (Join [g.Name, "internal", "handler", "handler_test.go"])
        createAPITemplate_handlerTestGo))
  have hgrpc := fileShaped_append _ _
    (fileShaped_append _ _
      (fileShaped_fileOps (Join [g.Name, "cmd", g.Name, "main.go"])
        (createGRPCTemplate_mainGo g.ModulePath))
      (fileShaped_fileOps (Join [g.Name, "internal", "server", "server.go"])
        createGRPCTemplate_serverGo))
    (fileShaped_fileOps (Join [g.Name, "proto", g.Name ++ ".proto"])
      (createGRPCTemplate_protoFile g.Name g.ModulePath))
  have hlib := fileShaped_append _ _
    (fileShaped_append _ _
      (fileShaped_fileOps (Join [g.Name, "pkg", g.Name, g.Name ++ ".go"])
        (createLibraryTemplate_libGo g.Name))
      (fileShaped_fileOps (Join [g.Name, "examples", "basic", "main.go"])
        (createLibraryTemplate_exampleGo g.Name g.ModulePath)))
    (fileShaped_guard g.IncludeTests _
      (fileShaped_fileOps (Join [g.Name, "pkg", g.Name, g.Name ++ "_test.go"])
        (createLibraryTemplate_testGo g.Name)))
  unfold createTemplateFiles_ops
  split_ifs
  · exact hbasic
  · exact hcli
  · exact hapi
  · exact hgrpc
  · exact hlib
  · exact hbasic

theorem templateStep_writes_after_mkdir (o : Oracle) (g : Config) (w : World)
    (hok : (createTemplateFiles o g w).1 = none) :
    (newEvents w (createTemplateFiles o g w)).map Event.op =
      (templateStepFiles o g w).flatMap fun f => fileOps f.1 f.2 := by
  rw [templateStepFiles_of_success o g w hok, ← fileShaped_createTemplateFiles_ops]
  rw [createTemplateFiles_eq] at hok ⊢
  rw [newEvents_runSteps_of_success o _ w hok]
  simp [Event.ok, Step.plain, Function.comp_def]

theorem mem_paths_basic (g : Config) (p : String)
    (h : p ∈ ((createBasicTemplate_ops g).filterMap Op.file).map Prod.fst) :
    p = Join [g.Name, "main.go"] ∨ p = Join [g.Name, "main_test.go"] := by
  unfold createBasicTemplate_ops at h
  cases ht : g.IncludeTests <;>
    simp [ht, List.filterMap_append, filterMap_file_fileOps] at h <;> tauto

theorem mem_paths_cli (g : Config) (p : String)
    (h : p ∈ ((createCLITemplate_ops g).filterMap Op.file).map Prod.fst) :
    p = Join [g.Name, "cmd", g.Name, "main.go"] ∨
    p = Join [g.Name, "internal", "cmd", "root.go"] ∨
    p = Join [g.Name, "internal", "cmd", "version.go"] := by
  unfold createCLITemplate_ops at h
  simpa [List.filterMap_append, filterMap_file_fileOps] using h

theorem mem_paths_api (g : Config) (p : String)
    (h : p ∈ ((createAPITemplate_ops g).filterMap Op.file).map Prod.fst) :
    p = Join [g.Name, "cmd", g.Name, "main.go"] ∨
    p = Join [g.Name, "internal", "router", "router.go"] ∨
    p = Join [g.Name, "internal", "handler", "handler.go"] ∨
    p = Join [g.Name, "internal", "middleware", "middleware.go"] ∨
    p = Join [g.Name, "internal", "handler", "handler_test.go"] := by
  unfold createAPITemplate_ops at h
  cases ht : g.IncludeTests <;>
    simp [ht, List.filterMap_append, filterMap_file_fileOps] at h <;> tauto

theorem mem_paths_grpc (g : Config) (p : String)
    (h : p ∈ ((createGRPCTemplate_ops g).filterMap Op.file).map Prod.fst) :
    p = Join [g.Name, "cmd", g.Name, "main.go"] ∨
    p = Join [g.Name, "internal", "server", "server.go"] ∨
    p = Join [g.Name, "proto", g.Name ++ ".proto"] := by
  unfold createGRPCTemplate_ops at h
  simpa [List.filterMap_append, filterMap_file_fileOps] using h

theorem mem_paths_library (g : Config) (p : String)
    (h : p ∈ ((createLibraryTemplate_ops g).filterMap Op.file).map Prod.fst) :
    p = Join [g.Name, "pkg", g.Name, g.Name ++ ".go"] ∨
    p = Join [g.Name, "examples", "basic", "main.go"] ∨
    p = Join [g.Name, "pkg", g.Name, g.Name ++ "_test.go"] := by
  unfold createLibraryTemplate_ops at h
  cases ht : g.IncludeTests <;>
    simp [ht, List.filterMap_append, filterMap_file_fileOps] at h <;> tauto

theorem mem_dirs_root (g : Config) : g.Name ∈ createDirectories_dirs g := by
  rw [createDirectories_dirs_eq]
  simp

theorem mem_dirs_of_templateDirs (g : Config) (d : String)
    (h : d ∈ createDirectories_templateDirs g) : d ∈ createDirectories_dirs g := by
  rw [createDirectories_dirs_eq]
  simp [h]

/-- C18 as stated fails: the `cli` template writes `demo/internal/cmd/root.go`, whose parent
directory `demo/internal/cmd` is not among the directories `createDirectories` plans for
`cli` (it plans `demo`, `demo/cmd/demo` and `demo/internal`). -/
theorem template_parent_not_planned :
    "demo/internal/cmd/root.go" ∈ templateStepPaths Oracle.ok cliConfig [] ∧
    Dir "demo/internal/cmd/root.go" = "demo/internal/cmd" ∧
    createDirectories_dirs cliConfig = ["demo", "demo/cmd/demo", "demo/internal"] ∧
    "demo/internal/cmd" ∉ createDirectories_dirs cliConfig := by
  refine ⟨?_, by decide, by decide, by decide⟩
  rw [templateStepPaths_of_success Oracle.ok cliConfig []
    (createTemplateFiles_Oracle_ok cliConfig []),
    createTemplateFiles_ops_cli cliConfig rfl]
  simp only [createCLITemplate_ops, List.filterMap_append, filterMap_file_fileOps,
    List.map_append, List.map, List.mem_append, List.mem_singleton]
  decide

/-- C18, amended: for a project name accepted by `validateProjectName` and a successful
template step, the parent directory of every file the step writes is created before the
file is written: for `basic`, `api` and `grpc` it is one of the directories planned by
`createDirectories`; for `cli` and `library` it is planned or it is `<name>/internal/cmd`
respectively `<name>/examples/basic`, a child of the planned `<name>/internal` respectively
`<name>/examples`; and for every kind the step's operations are, file by file, the
`MkdirAll` of the parent directory that `writeFile` performs followed by the write. -/
theorem template_parents_created (o : Oracle) (g : Config) (w : World)
    (hv : validateProjectName g.Name = none)
    (hok : (createTemplateFiles o g w).1 = none) :
    (g.Template = "basic" ∨ g.Template = "api" ∨ g.Template = "grpc" →
      ∀ p ∈ templateStepPaths o g w, Dir p ∈ createDirectories_dirs g) ∧
    (g.Template = "cli" → ∀ p ∈ templateStepPaths o g w,
      Dir p ∈ createDirectories_dirs g ∨
      (Dir p = g.Name ++ "/internal/cmd" ∧
        g.Name ++ "/internal" ∈ createDirectories_dirs g)) ∧
    (g.Template = "library" → ∀ p ∈ templateStepPaths o g w,
      Dir p ∈ createDirectories_dirs g ∨
      (Dir p = g.Name ++ "/examples/basic" ∧
        g.Name ++ "/examples" ∈ createDirectories_dirs g)) ∧
    (newEvents w (createTemplateFiles o g w)).map Event.op =
      (templateStepFiles o g w).flatMap fun f => fileOps f.1 f.2 := by
  have hn := isElem_of_validateProjectName g.Name hv
  have hp := templateStepPaths_of_success o g w hok
  have hdot : ∀ s : String, '/' ∉ s.data → 2 ≤ s.data.length → isElem (g.Name ++ s) :=
    fun s h1 h2 => isElem_append _ _ hn h1 h2
  refine ⟨?_, ?_, ?_, templateStep_writes_after_mkdir o g w hok⟩
  · rintro (hT | hT | hT) p hpm
    · rw [hp, createTemplateFiles_ops_basic g hT] at hpm
      rcases mem_paths_basic g p hpm with rfl | rfl
      · rw [Dir_Join1 _ _ hn (by decide)]
        exact mem_dirs_root g
      · rw [Dir_Join1 _ _ hn (by decide)]
        exact mem_dirs_root g
    · rw [hp, createTemplateFiles_ops_api g hT] at hpm
      refine mem_dirs_of_templateDirs g _ ?_
      rcases mem_paths_api g p hpm with rfl | rfl | rfl | rfl | rfl
      · rw [Dir_Join3 _ _ _ _ hn (by decide) hn (by decide)]
        simp [createDirectories_templateDirs, hT]
      · rw [Dir_Join3 _ _ _ _ hn (by decide) (by decide) (by decide)]
        simp [createDirectories_templateDirs, hT]
      · rw [Dir_Join3 _ _ _ _ hn (by decide) (by decide) (by decide)]
        simp [createDirectories_templateDirs, hT]
      · rw [Dir_Join3 _ _ _ _ hn (by decide) (by decide) (by decide)]
        simp [createDirectories_templateDirs, hT]
      · rw [Dir_Join3 _ _ _ _ hn (by decide) (by decide) (by decide)]
        simp [createDirectories_templateDirs, hT]
    · rw [hp, createTemplateFiles_ops_grpc g hT] at hpm
      refine mem_dirs_of_templateDirs g _ ?_
      rcases mem_paths_grpc g p hpm with rfl | rfl | rfl
      · rw [Dir_Join3 _ _ _ _ hn (by decide) hn (by decide)]
        simp [createDirectories_templateDirs, hT]
      · rw [Dir_Join3 _ _ _ _ hn (by decide) (by decide) (by decide)]
        simp [createDirectories_templateDirs, hT]
      · rw [Dir_Join2 _ _ _ hn (by decide) (hdot _ (by decide) (by decide))]
        simp [createDirectories_templateDirs, hT]
  · intro hT p hpm
    rw [hp, createTemplateFiles_ops_cli g hT] at hpm
    have hint : g.Name ++ "/internal" ∈ createDirectories_dirs g := by
      refine mem_dirs_of_templateDirs g _ ?_
      rw [← Join_dir_internal _ hn]
      simp [createDirectories_templateDirs, hT]
    rcases mem_paths_cli g p hpm with rfl | rfl | rfl
    · left
      refine mem_dirs_of_templateDirs g _ ?_
      rw [Dir_Join3 _ _ _ _ hn (by decide) hn (by decide)]
      simp [createDirectories_templateDirs, hT]
    · right
      rw [Dir_Join3 _ _ _ _ hn (by decide) (by decide) (by decide), Join_dir_internal_cmd _ hn]
      exact ⟨rfl, hint⟩
    · right
      rw [Dir_Join3 _ _ _ _ hn (by decide) (by decide) (by decide), Join_dir_internal_cmd _ hn]
      exact ⟨rfl, hint⟩
  · intro hT p hpm
    rw [hp, createTemplateFiles_ops_library g hT] at hpm
    have hex : g.Name ++ "/examples" ∈ createDirectories_dirs g := by
      refine mem_dirs_of_templateDirs g _ ?_
      rw [← Join_dir_examples _ hn]
      simp [createDirectories_templateDirs, hT]
    rcases mem_paths_library g p hpm with rfl | rfl | rfl
    · left
      refine mem_dirs_of_templateDirs g _ ?_
      rw [Dir_Join3 _ _ _ _ hn (by decide) hn (hdot _ (by decide) (by decide))]
      simp [createDirectories_templateDirs, hT]
    · right
      rw [Dir_Join3 _ _ _ _ hn (by decide) (by decide) (by decide),
        Join_dir_examples_basic _ hn]
      exact ⟨rfl, hex⟩
    · left
      refine mem_dirs_of_templateDirs g _ ?_
      rw [Dir_Join3 _ _ _ _ hn (by decide) hn (hdot _ (by decide) (by decide))]
      simp [createDirectories_templateDirs, hT]

/-- Instance of C18, amended: the `cli` project `demo`; the parent of
`demo/internal/cmd/version.go` is the child `demo/internal/cmd` of the planned
`demo/internal`. -/
theorem template_parents_created_witness :
    Dir "demo/internal/cmd/version.go" ∈ createDirectories_dirs cliConfig ∨
      (Dir "demo/internal/cmd/version.go" = "demo/internal/cmd" ∧
        "demo/internal" ∈ createDirectories_dirs cliConfig) :=
  (template_parents_created Oracle.ok cliConfig [] (by decide)
    (createTemplateFiles_Oracle_ok cliConfig [])).2.1 rfl "demo/internal/cmd/version.go" (by
      rw [templateStepPaths_of_success Oracle.ok cliConfig []
        (createTemplateFiles_Oracle_ok cliConfig []),
        createTemplateFiles_ops_cli cliConfig rfl]
      simp only [createCLITemplate_ops, List.filterMap_append, filterMap_file_fileOps,
        List.map_append, List.map, List.mem_append, List.mem_singleton]
      decide)

/-! ## The module path chosen by `runNew` -/

theorem runNew_getName_arg (env : CliEnv) (c : ProjectConfig) (n : String)
    (rest : List String) (hargs : env.args = n :: rest) :
    runNew_getName env c = Except.ok { c with Name := n } := by
  simp [runNew_getName, hargs]

theorem runNew_checkName_ok (env : CliEnv) (c c1 : ProjectConfig)
    (h : runNew_checkName env c = Except.ok c1) : c1 = c := by
  unfold runNew_checkName at h
  split at h
  · exact Except.noConfusion h
  · split_ifs at h
    exact (Except.ok.inj h).symm

theorem runNew_selectTemplate_ok (env : CliEnv) (c c1 : ProjectConfig)
    (h : runNew_selectTemplate env c = Except.ok c1) :
    c1.Name = c.Name ∧ c1.ModulePath = c.ModulePath := by
  unfold runNew_selectTemplate at h
  split_ifs at h
  · split at h
    · exact Except.noConfusion h
    · rw [← Except.ok.inj h]
      exact ⟨rfl, rfl⟩
  · rw [← Except.ok.inj h]
    exact ⟨rfl, rfl⟩

theorem runNew_applyAggregates_keeps (env : CliEnv) (c : ProjectConfig) :
    (runNew_applyAggregates env c).Name = c.Name ∧
    (runNew_applyAggregates env c).ModulePath = c.ModulePath := by
  unfold runNew_applyAggregates
  cases env.allDevOps <;> cases env.allQuality <;> exact ⟨rfl, rfl⟩

theorem runNew_askDevOps_ok (env : CliEnv) (c c1 : ProjectConfig)
    (h : runNew_askDevOps env c = Except.ok c1) :
    c1.Name = c.Name ∧ c1.ModulePath = c.ModulePath := by
  unfold runNew_askDevOps at h
  split_ifs at h
  · split at h
    · exact Except.noConfusion h
    · split_ifs at h <;>
      · rw [← Except.ok.inj h]
        exact ⟨rfl, rfl⟩
  · rw [← Except.ok.inj h]
    exact ⟨rfl, rfl⟩

theorem runNew_askQuality_ok (env : CliEnv) (c c1 : ProjectConfig)
    (h : runNew_askQuality env c = Except.ok c1) :
    c1.Name = c.Name ∧ c1.ModulePath = c.ModulePath := by
  unfold runNew_askQuality at h
  split_ifs at h
  · split at h
    · exact Except.noConfusion h
    · split_ifs at h <;>
      · rw [← Except.ok.inj h]
        exact ⟨rfl, rfl⟩
  · rw [← Except.ok.inj h]
    exact ⟨rfl, rfl⟩

theorem runNew_config_ok (env : CliEnv) (n : String) (rest : List String) (cfg : Config)
    (hargs : env.args = n :: rest) (h : runNew_config env = Except.ok cfg) :
    ∃ c3, runNew_getGitHubUser env { env.config with Name := n } = Except.ok c3 ∧
      cfg.Name = (runNew_buildModulePath c3).Name ∧
      cfg.ModulePath = (runNew_buildModulePath c3).ModulePath := by
  unfold runNew_config at h
  rw [runNew_getName_arg env env.config n rest hargs] at h
  simp only at h
  split at h
  · exact Except.noConfusion h
  · rename_i c2 hc2
    have e2 := runNew_checkName_ok env _ _ hc2
    subst e2
    split at h
    · exact Except.noConfusion h
    · rename_i c3 hc3
      refine ⟨c3, hc3, ?_⟩
      split at h
      · exact Except.noConfusion h
      · rename_i c5 hc5
        split at h
        · exact Except.noConfusion h
        · rename_i c7 hc7
          split at h
          · exact Except.noConfusion h
          · rename_i c8 hc8
            have k5 := runNew_selectTemplate_ok env _ _ hc5
            have k6 := runNew_applyAggregates_keeps env c5
            have k7 := runNew_askDevOps_ok env _ _ hc7
            have k8 := runNew_askQuality_ok env _ _ hc8
            rw [← Except.ok.inj h]
            simp only [runNew_generatorConfig]
            exact ⟨by rw [k8.1, k7.1, k6.1, k5.1], by rw [k8.2, k7.2, k6.2, k5.2]⟩

/-- C19: when `runNew` is given the project name `n` as argument and reaches the generator,
the configuration it hands over has name `n` and this module path: the value of the
`--module` flag when that is not empty, whatever the GitHub username; otherwise
`github.com/<user>/<n>` when the GitHub username `<user>` (the `--github` flag, or when that
is empty and the run is interactive the answer to the prompt) is not empty; otherwise `n`. -/
theorem runNew_modulePath (env : CliEnv) (n : String) (rest : List String) (cfg : Config)
    (hargs : env.args = n :: rest) (h : runNew_config env = Except.ok cfg) :
    cfg.Name = n ∧
    (env.config.ModulePath ≠ "" → cfg.ModulePath = env.config.ModulePath) ∧
    (env.config.ModulePath = "" → env.config.GitHubUser ≠ "" →
      cfg.ModulePath = "github.com/" ++ env.config.GitHubUser ++ "/" ++ n) ∧
    (env.config.ModulePath = "" → env.config.GitHubUser = "" → env.noInteractive = true →
      cfg.ModulePath = n) ∧
    (env.config.ModulePath = "" → env.config.GitHubUser = "" → env.noInteractive = false →
      ∃ user, env.promptRun "GitHub username" "" = PromptResult.entered user ∧
        cfg.ModulePath = if user ≠ "" then "github.com/" ++ user ++ "/" ++ n else n) := by
  obtain ⟨c3, hc3, hname, hmod⟩ := runNew_config_ok env n rest cfg hargs h
  unfold runNew_getGitHubUser at hc3
  simp only at hc3
  refine ⟨?_, ?_, ?_, ?_, ?_⟩
  · split_ifs at hc3 with hcond
    · split at hc3
      · exact Except.noConfusion hc3
      · rw [hname, ← Except.ok.inj hc3]
        simp only [runNew_buildModulePath, hcond.1, hcond.2.1]
        split_ifs <;> rfl
    · rw [hname, ← Except.ok.inj hc3]
      simp only [runNew_buildModulePath]
      split_ifs <;> rfl
  · intro hm
    rw [if_neg (fun hc => hm hc.1)] at hc3
    rw [hmod, ← Except.ok.inj hc3]
    simp [runNew_buildModulePath, hm]
  · intro hm hu
    rw [if_neg (fun hc => hu hc.2.1)] at hc3
    rw [hmod, ← Except.ok.inj hc3]
    simp [runNew_buildModulePath, hm, hu]
  · intro hm hu hni
    rw [if_neg (fun hc => by rw [hni] at hc; exact Bool.noConfusion hc.2.2)] at hc3
    rw [hmod, ← Except.ok.inj hc3]
    simp [runNew_buildModulePath, hm, hu]
  · intro hm hu hni
    rw [if_pos ⟨hm, hu, hni⟩] at hc3
    unfold promptForInput at hc3
    cases hp : env.promptRun "GitHub username" "" with
    | entered user =>
      rw [hp] at hc3
      refine ⟨user, rfl, ?_⟩
      rw [hmod, ← Except.ok.inj hc3]
      simp only [runNew_buildModulePath, hm]
      by_cases hu1 : user = ""
      · simp [hu1]
      · simp [hu1]
    | aborted =>
      rw [hp] at hc3
      exact Except.noConfusion hc3
    | failed err =>
      rw [hp] at hc3
      exact Except.noConfusion hc3

/-- Instance of C19: `goscaffold new demo -t api -g octocat --no-interactive` hands the
module path `github.com/octocat/demo` to the generator. -/
theorem runNew_modulePath_witness :
    runNew_config demoEnv = Except.ok
      { Name := "demo", ModulePath := "github.com/octocat/demo", Template := "api",
        IncludeMakefile := false, IncludeDocker := false, IncludeCI := false,
        IncludeLint := false, IncludePreCommit := false, IncludeTests := false,
        InitGit := false } ∧
    "github.com/octocat/demo" = "github.com/" ++ "octocat" ++ "/" ++ "demo" :=
  ⟨rfl, (runNew_modulePath demoEnv "demo" [] _ rfl rfl).2.2.1 rfl (by decide)⟩

/-! ## No duplicate directories for valid names -/

/-- C20: for every project name accepted by `validateProjectName`, every template string
and either value of `IncludeCI`, the directory list planned by `createDirectories` has no
duplicate entries. -/
theorem createDirectories_dirs_nodup_of_valid (g : Config)
    (hv : validateProjectName g.Name = none) : (createDirectories_dirs g).Nodup :=
  createDirectories_dirs_nodup_of_elem g (isElem_of_validateProjectName g.Name hv)

/-- Instance of C20: the project `demo` with the unknown template `web` and CI. -/
theorem createDirectories_dirs_nodup_of_valid_witness :
    (createDirectories_dirs { demoConfig with Template := "web" }).Nodup :=
  createDirectories_dirs_nodup_of_valid { demoConfig with Template := "web" } (by decide)


/-! ## Distinct paths of the written files -/

theorem writtenPathsOf_append (a b : List Op) :
    writtenPathsOf (a ++ b) = writtenPathsOf a ++ writtenPathsOf b := by
  simp [writtenPathsOf, List.filterMap_append]

theorem writtenPathsOf_fileOps (path content : String) :
    writtenPathsOf (fileOps path content) = [path] := by
  simp [writtenPathsOf, filterMap_file_fileOps]

theorem writtenPathsOf_ite (b : Bool) (a : List Op) :
    writtenPathsOf (if b = true then a else []) =
      if b = true then writtenPathsOf a else [] := by
  cases b <;> simp [writtenPathsOf]

theorem writtenPathsOf_mkdirs (ds : List String) :
    writtenPathsOf (ds.map Op.osMkdirAll) = [] := by
  induction ds with
  | nil => rfl
  | cons d ds ih =>
    simp only [writtenPathsOf, List.map_cons, List.filterMap_cons, Op.file] at ih ⊢
    exact ih

theorem writtenPathsOf_gitInit (b : Bool) (n : String) :
    writtenPathsOf (if b = true then [Op.gitInit n] else []) = [] := by
  cases b <;> simp [writtenPathsOf, Op.file]

theorem writtenPathsOf_createTemplateFiles_ops (g : Config) :
    writtenPathsOf (createTemplateFiles_ops g) = (createTemplateFiles_fileElems g).map Join := by
  unfold createTemplateFiles_ops createTemplateFiles_fileElems
  split_ifs <;>
    simp [createBasicTemplate_ops, createCLITemplate_ops, createAPITemplate_ops,
      createGRPCTemplate_ops, createLibraryTemplate_ops, writtenPathsOf_append,
      writtenPathsOf_fileOps, writtenPathsOf_ite, *]

theorem writtenPathsOf_Generate_ops (g : Config) :
    writtenPathsOf (Generate_ops g) = (Generate_fileElems g).map Join := by
  rw [Generate_ops_eq]
  simp only [Generate_fileOps, Generate_fileElems, writtenPathsOf_append, writtenPathsOf_fileOps,
    writtenPathsOf_ite, writtenPathsOf_mkdirs, writtenPathsOf_gitInit,
    writtenPathsOf_createTemplateFiles_ops, List.map_append, List.nil_append, List.append_nil]
  cases g.IncludeMakefile <;> cases g.IncludeDocker <;> cases g.IncludeCI <;>
    cases g.IncludeLint <;> cases g.IncludePreCommit <;> simp [writtenPathsOf, Op.file]

theorem GeneratePaths_of_success (o : Oracle) (g : Config) (w : World)
    (h : (Generate o g w).1 = none) :
    GeneratePaths o g w = (Generate_fileElems g).map Join := by
  unfold GeneratePaths
  rw [GenerateFiles_of_success o g w h]
  exact writtenPathsOf_Generate_ops g

theorem ite_sublist {α : Type} (b : Bool) (xs : List α) :
    List.Sublist (if b = true then xs else []) xs := by
  cases b
  · exact List.nil_sublist xs
  · exact List.Sublist.refl xs

theorem createTemplateFiles_fileElems_sublist (g : Config) :
    List.Sublist (createTemplateFiles_fileElems g)
      (createTemplateFiles_fileElems (allFeatures g)) := by
  unfold createTemplateFiles_fileElems allFeatures
  cases g.IncludeTests <;> split_ifs <;> simp_all

theorem Generate_fileElems_sublist (g : Config) :
    List.Sublist (Generate_fileElems g) (Generate_fileElems (allFeatures g)) := by
  unfold Generate_fileElems
  have ht := createTemplateFiles_fileElems_sublist g
  refine List.Sublist.append (List.Sublist.append (List.Sublist.append (List.Sublist.append
    (List.Sublist.append (List.Sublist.append (List.Sublist.append (List.Sublist.append
      (List.Sublist.refl _) ht) (List.Sublist.refl _)) ?_) ?_) ?_) ?_) ?_)
    (List.Sublist.refl _)
  · exact ite_sublist _ _
  · exact ite_sublist _ _
  · exact ite_sublist _ _
  · exact ite_sublist _ _
  · exact ite_sublist _ _

theorem Generate_fileElems_allFeatures_nodup (g : Config) :
    (Generate_fileElems (allFeatures g)).Nodup := by
  have hne : g.Name ++ ".go" ≠ g.Name ++ "_test.go" := by
    intro h
    have := string_append_left_cancel _ _ _ h
    exact absurd this (by decide)
  unfold Generate_fileElems createTemplateFiles_fileElems allFeatures
  split_ifs <;> simp [hne]

theorem Generate_fileElems_allFeatures_wf (g : Config) (hn : isElem g.Name) :
    ∀ es ∈ Generate_fileElems (allFeatures g), es ≠ [] ∧ ∀ e ∈ es, isElem e := by
  have h1 : isElem (g.Name ++ ".go") := isElem_append _ _ hn (by decide) (by decide)
  have h2 : isElem (g.Name ++ "_test.go") := isElem_append _ _ hn (by decide) (by decide)
  have h3 : isElem (g.Name ++ ".proto") := isElem_append _ _ hn (by decide) (by decide)
  have l01 : isElem "main.go" := by decide
  have l02 : isElem "main_test.go" := by decide
  have l03 : isElem "cmd" := by decide
  have l04 : isElem "internal" := by decide
  have l05 : isElem "root.go" := by decide
  have l06 : isElem "version.go" := by decide
  have l07 : isElem "router" := by decide
  have l08 : isElem "router.go" := by decide
  have l09 : isElem "handler" := by decide
  have l10 : isElem "handler.go" := by decide
  have l11 : isElem "middleware" := by decide
  have l12 : isElem "middleware.go" := by decide
  have l13 : isElem "handler_test.go" := by decide
  have l14 : isElem "server" := by decide
  have l15 : isElem "server.go" := by decide
  have l16 : isElem "proto" := by decide
  have l17 : isElem "pkg" := by decide
  have l18 : isElem "examples" := by decide
  have l19 : isElem "basic" := by decide
  have l20 : isElem "go.mod" := by decide
  have l21 : isElem ".gitignore" := by decide
  have l22 : isElem "Makefile" := by decide
  have l23 : isElem "Dockerfile" := by decide
  have l24 : isElem "docker-compose.yml" := by decide
  have l25 : isElem ".github" := by decide
  have l26 : isElem "workflows" := by decide
  have l27 : isElem "ci.yml" := by decide
  have l28 : isElem ".golangci.yml" := by decide
  have l29 : isElem ".pre-commit-config.yaml" := by decide
  have l30 : isElem "README.md" := by decide
  unfold Generate_fileElems createTemplateFiles_fileElems allFeatures
  split_ifs <;> simp [*]

theorem Generate_fileElems_wf (g : Config) (hn : isElem g.Name) :
    ∀ es ∈ Generate_fileElems g, es ≠ [] ∧ ∀ e ∈ es, isElem e := fun es hes =>
  Generate_fileElems_allFeatures_wf g hn es ((Generate_fileElems_sublist g).subset hes)

theorem Generate_fileElems_nodup (g : Config) :
    (Generate_fileElems g).Nodup :=
  (Generate_fileElems_allFeatures_nodup g).sublist (Generate_fileElems_sublist g)

theorem Generate_fileElems_map_Join_nodup (g : Config) (hn : isElem g.Name) :
    ((Generate_fileElems g).map Join).Nodup := by
  refine List.Nodup.map_on ?_ (Generate_fileElems_nodup g)
  intro xs hxs ys hys h
  obtain ⟨hx, hx2⟩ := Generate_fileElems_wf g hn xs hxs
  obtain ⟨hy, hy2⟩ := Generate_fileElems_wf g hn ys hys
  exact (Join_eq_iff_of_elems xs ys hx hy hx2 hy2).mp h

theorem demoConfig_Generate_ok : (Generate Oracle.ok demoConfig []).1 = none := by
  rw [Generate_Oracle_ok]

/-- C21: for every configuration whose project name `validateProjectName` accepts (any
template string, any flag combination), the paths of the files written by one successful
`Generate` call are pairwise distinct: no path occurs twice in the list of written files, so
no artefact overwrites another artefact of the same run. -/
theorem Generate_paths_distinct (o : Oracle) (g : Config) (w : World)
    (hv : validateProjectName g.Name = none) (hok : (Generate o g w).1 = none) :
    (GeneratePaths o g w).Nodup := by
  rw [GeneratePaths_of_success o g w hok]
  exact Generate_fileElems_map_Join_nodup g (isElem_of_validateProjectName g.Name hv)

theorem Generate_paths_distinct_witness :
    validateProjectName demoConfig.Name = none ∧
    (Generate Oracle.ok demoConfig []).1 = none ∧
    (GeneratePaths Oracle.ok demoConfig []).Nodup :=
  ⟨by decide, demoConfig_Generate_ok,
   Generate_paths_distinct Oracle.ok demoConfig [] (by decide) demoConfig_Generate_ok⟩

/-! ## The package that the build rules compile -/

set_option maxRecDepth 20000 in
theorem createMakefile_content_build (name modulePath recipe : String) :
    (∃ post : String, createMakefile_content name modulePath recipe =
      "# Project variables\nBINARY_NAME=" ++ name ++ "\n" ++ post) ∧
    containsText "build:\n\t$(GOBUILD) $(LDFLAGS) -o bin/$(BINARY_NAME) ./cmd/$(BINARY_NAME)\n"
      (createMakefile_content name modulePath recipe) := by
  constructor
  · refine ⟨"PKG=" ++ modulePath ++
      "\n\n# Go commands\nGOCMD=go\nGOBUILD=$(GOCMD) build\nGOTEST=$(GOCMD) test\n" ++
      "GOGET=$(GOCMD) get\nGOMOD=$(GOCMD) mod\nGOLINT=golangci-lint\n\n# Build flags\n" ++
      "LDFLAGS=-ldflags \"-s -w\"\n\n.PHONY: all build clean test lint run tidy help\n\n" ++
      "all: lint test build\n\n## build: Build the binary\nbuild:\n" ++
      "\t$(GOBUILD) $(LDFLAGS) -o bin/$(BINARY_NAME) ./cmd/$(BINARY_NAME)\n\n" ++
      "## clean: Clean build artifacts\nclean:\n\trm -rf bin/\n\trm -f coverage.out\n\n" ++
      "## test: Run tests\ntest:\n\t$(GOTEST) -v -race -coverprofile=coverage.out ./...\n\n" ++
      "## lint: Run linter\nlint:\n\t$(GOLINT) run ./...\n\n" ++
      "## run: Run the application\nrun:\n\t" ++ recipe ++
      "\n\n## tidy: Tidy dependencies\ntidy:\n\t$(GOMOD) tidy\n\n## help: Show this help\n" ++
      "help:\n\t@echo \"Available targets:\"\n" ++
      "\t@sed -n \x27s/^##//p\x27 $(MAKEFILE_LIST) | column -t -s \x27:\x27 | " ++
      "sed -e \x27s/^/ /\x27\n", ?_⟩
    apply String.ext
    simp only [createMakefile_content, String.data_append, List.append_assoc]
    rfl
  · refine ⟨"# Project variables\nBINARY_NAME=" ++ name ++ "\nPKG=" ++ modulePath ++
      "\n\n# Go commands\nGOCMD=go\nGOBUILD=$(GOCMD) build\nGOTEST=$(GOCMD) test\n" ++
      "GOGET=$(GOCMD) get\nGOMOD=$(GOCMD) mod\nGOLINT=golangci-lint\n\n# Build flags\n" ++
      "LDFLAGS=-ldflags \"-s -w\"\n\n.PHONY: all build clean test lint run tidy help\n\n" ++
      "all: lint test build\n\n## build: Build the binary\n",
      "\n## clean: Clean build artifacts\nclean:\n\trm -rf bin/\n\trm -f coverage.out\n\n" ++
      "## test: Run tests\ntest:\n\t$(GOTEST) -v -race -coverprofile=coverage.out ./...\n\n" ++
      "## lint: Run linter\nlint:\n\t$(GOLINT) run ./...\n\n" ++
      "## run: Run the application\nrun:\n\t" ++ recipe ++
      "\n\n## tidy: Tidy dependencies\ntidy:\n\t$(GOMOD) tidy\n\n## help: Show this help\n" ++
      "help:\n\t@echo \"Available targets:\"\n" ++
      "\t@sed -n \x27s/^##//p\x27 $(MAKEFILE_LIST) | column -t -s \x27:\x27 | " ++
      "sed -e \x27s/^/ /\x27\n", ?_⟩
    apply String.ext
    simp only [createMakefile_content, String.data_append, List.append_assoc]
    rfl

set_option maxRecDepth 20000 in
theorem createDockerFiles_dockerfile_build (name : String) :
    containsText
      ("RUN CGO_ENABLED=0 GOOS=linux go build -ldflags=\"-s -w\" -o /" ++ name ++
        " ./cmd/" ++ name ++ "\n")
      (createDockerFiles_dockerfile name) := by
  refine ⟨"# Build stage\nFROM golang:1.21-alpine AS builder\n\nWORKDIR /app\n\n" ++
      "# Copy go mod files\nCOPY go.mod go.sum* ./\nRUN go mod download\n\n" ++
      "# Copy source\nCOPY . .\n\n# Build\n",
    "\n# Final stage\nFROM alpine:latest\n\nRUN apk --no-cache add ca-certificates\n\n" ++
      "WORKDIR /root/\n\nCOPY --from=builder /" ++ name ++ " .\n\nEXPOSE 8080\n\nCMD [\"./" ++
      name ++ "\"]\n", ?_⟩
  apply String.ext
  simp only [createDockerFiles_dockerfile, String.data_append, List.append_assoc]
  rfl

theorem GeneratePaths_Oracle_ok (g : Config) :
    GeneratePaths Oracle.ok g [] = (Generate_fileElems g).map Join :=
  GeneratePaths_of_success Oracle.ok g [] (by rw [Generate_Oracle_ok])

theorem mem_createTemplateFiles_fileElems_cmd (g : Config)
    (h : g.Template = "cli" ∨ g.Template = "api" ∨ g.Template = "grpc") :
    [g.Name, "cmd", g.Name, "main.go"] ∈ createTemplateFiles_fileElems g := by
  unfold createTemplateFiles_fileElems
  rcases h with h | h | h <;> simp [h]

theorem mem_Generate_fileElems_of_template (g : Config) (es : List String)
    (h : es ∈ createTemplateFiles_fileElems g) : es ∈ Generate_fileElems g := by
  unfold Generate_fileElems
  simp only [List.mem_append]
  exact Or.inl (Or.inl (Or.inl (Or.inl (Or.inl (Or.inl (Or.inl (Or.inr h)))))))

theorem cmd_main_written (o : Oracle) (g : Config) (w : World)
    (h : g.Template = "cli" ∨ g.Template = "api" ∨ g.Template = "grpc")
    (hok : (Generate o g w).1 = none) :
    Join [g.Name, "cmd", g.Name, "main.go"] ∈ GeneratePaths o g w := by
  rw [GeneratePaths_of_success o g w hok]
  exact List.mem_map_of_mem Join
    (mem_Generate_fileElems_of_template g _ (mem_createTemplateFiles_fileElems_cmd g h))

/-- C22: the code at the failing inputs.  For the `basic` project `demo` with a Makefile and
Docker files, `Generate` succeeds and writes `demo/Makefile` and `demo/Dockerfile`; the build
rule of every generated Makefile compiles `./cmd/$(BINARY_NAME)`, where `BINARY_NAME` is the
project name, and the build step of every generated Dockerfile compiles `./cmd/<name>`; yet
the files written are exactly the seven listed, and `demo/cmd/demo/main.go` is not one of
them.  The `library` project `widget` with a Makefile likewise gets no
`widget/cmd/widget/main.go`. -/
theorem build_package_not_written :
    validateProjectName basicDevOpsConfig.Name = none ∧
    (Generate Oracle.ok basicDevOpsConfig []).1 = none ∧
    GeneratePaths Oracle.ok basicDevOpsConfig [] =
      ["demo/go.mod", "demo/main.go", "demo/.gitignore", "demo/Makefile", "demo/Dockerfile",
       "demo/docker-compose.yml", "demo/README.md"] ∧
    "demo/cmd/demo/main.go" ∉ GeneratePaths Oracle.ok basicDevOpsConfig [] ∧
    (∀ name modulePath recipe : String,
      (∃ post : String, createMakefile_content name modulePath recipe =
        "# Project variables\nBINARY_NAME=" ++ name ++ "\n" ++ post) ∧
      containsText
        "build:\n\t$(GOBUILD) $(LDFLAGS) -o bin/$(BINARY_NAME) ./cmd/$(BINARY_NAME)\n"
        (createMakefile_content name modulePath recipe)) ∧
    (∀ name : String,
      containsText
        ("RUN CGO_ENABLED=0 GOOS=linux go build -ldflags=\"-s -w\" -o /" ++ name ++
          " ./cmd/" ++ name ++ "\n")
        (createDockerFiles_dockerfile name)) ∧
    validateProjectName widgetConfig.Name = none ∧
    (Generate Oracle.ok widgetConfig []).1 = none ∧
    GeneratePaths Oracle.ok widgetConfig [] =
      ["widget/go.mod", "widget/pkg/widget/widget.go", "widget/examples/basic/main.go",
       "widget/.gitignore", "widget/Makefile", "widget/README.md"] ∧
    "widget/cmd/widget/main.go" ∉ GeneratePaths Oracle.ok widgetConfig [] := by
  refine ⟨by decide, by rw [Generate_Oracle_ok], ?_, ?_, createMakefile_content_build,
    createDockerFiles_dockerfile_build, by decide, by rw [Generate_Oracle_ok], ?_, ?_⟩
  · rw [GeneratePaths_Oracle_ok]; decide
  · rw [GeneratePaths_Oracle_ok]; decide
  · rw [GeneratePaths_Oracle_ok]; decide
  · rw [GeneratePaths_Oracle_ok]; decide

/-! ## The package that the run rule names -/

theorem templateStepPaths_Oracle_ok (g : Config) :
    templateStepPaths Oracle.ok g [] = (createTemplateFiles_fileElems g).map Join := by
  rw [templateStepPaths_of_success Oracle.ok g [] (createTemplateFiles_Oracle_ok g [])]
  exact writtenPathsOf_createTemplateFiles_ops g

theorem mem_GenerateFiles_Makefile (o : Oracle) (g : Config) (w : World)
    (hm : g.IncludeMakefile = true) (hok : (Generate o g w).1 = none) :
    (Join [g.Name, "Makefile"],
      createMakefile_content g.Name g.ModulePath (createMakefile_runTarget g)) ∈
      GenerateFiles o g w := by
  rw [GenerateFiles_of_success o g w hok, Generate_ops_eq]
  simp only [Generate_fileOps, hm, if_true, List.filterMap_append, filterMap_file_fileOps,
    List.mem_append, List.mem_singleton]
  exact Or.inr (Or.inl (Or.inl (Or.inl (Or.inl (Or.inl (Or.inl (Or.inr trivial)))))))

theorem run_package_written (o : Oracle) (g : Config) (w : World)
    (hok : (Generate o g w).1 = none) :
    (g.Template = "basic" →
      createMakefile_runTarget g = "go run ." ∧
      Join [g.Name, "main.go"] ∈ GeneratePaths o g w) ∧
    (g.Template = "library" →
      createMakefile_runTarget g = "go run ./examples/basic" ∧
      Join [g.Name, "examples", "basic", "main.go"] ∈ GeneratePaths o g w) ∧
    (g.Template = "cli" ∨ g.Template = "api" ∨ g.Template = "grpc" →
      createMakefile_runTarget g = "go run ./cmd/" ++ g.Name ∧
      Join [g.Name, "cmd", g.Name, "main.go"] ∈ GeneratePaths o g w) := by
  rw [GeneratePaths_of_success o g w hok]
  refine ⟨fun h => ⟨by simp [createMakefile_runTarget, h], ?_⟩,
    fun h => ⟨by simp [createMakefile_runTarget, h], ?_⟩, fun h => ⟨?_, ?_⟩⟩
  · refine List.mem_map_of_mem Join (mem_Generate_fileElems_of_template g _ ?_)
    simp [createTemplateFiles_fileElems, h]
  · refine List.mem_map_of_mem Join (mem_Generate_fileElems_of_template g _ ?_)
    simp [createTemplateFiles_fileElems, h]
  · rcases h with h | h | h <;> simp [createMakefile_runTarget, h]
  · exact List.mem_map_of_mem Join
      (mem_Generate_fileElems_of_template g _ (mem_createTemplateFiles_fileElems_cmd g h))

/-- C23: the code at the failing input.  The invocation
`goscaffold new demo -t web --makefile --no-interactive` passes the template string `web` to
the generator unchanged; `Generate` succeeds; the run rule of the Makefile it writes is
`go run ./cmd/demo`; the template step falls back to the `basic` builder and writes only
`demo/main.go`; the files of the whole call are the five listed, and `demo/cmd/demo/main.go`,
the entry point of the package the run rule names, is not one of them. -/
theorem run_package_not_written :
    runNew_config webEnv = Except.ok webConfig ∧
    validateProjectName webConfig.Name = none ∧
    (Generate Oracle.ok webConfig []).1 = none ∧
    createMakefile_runTarget webConfig = "go run ./cmd/demo" ∧
    ("demo/Makefile", createMakefile_content "demo" "demo" "go run ./cmd/demo") ∈
      GenerateFiles Oracle.ok webConfig [] ∧
    templateStepPaths Oracle.ok webConfig [] = ["demo/main.go"] ∧
    GeneratePaths Oracle.ok webConfig [] =
      ["demo/go.mod", "demo/main.go", "demo/.gitignore", "demo/Makefile",
       "demo/README.md"] ∧
    "demo/cmd/demo/main.go" ∉ GeneratePaths Oracle.ok webConfig [] := by
  refine ⟨rfl, by decide, by rw [Generate_Oracle_ok], by decide, ?_, ?_, ?_, ?_⟩
  · have h := mem_GenerateFiles_Makefile Oracle.ok webConfig [] rfl (by rw [Generate_Oracle_ok])
    have hp : Join [webConfig.Name, "Makefile"] = "demo/Makefile" := by decide
    have hr : createMakefile_runTarget webConfig = "go run ./cmd/demo" := by decide
    rw [hp, hr] at h
    exact h
  · rw [templateStepPaths_Oracle_ok]; decide
  · rw [GeneratePaths_Oracle_ok]; decide
  · rw [GeneratePaths_Oracle_ok]; decide

/-! ## Accepted names and Go identifiers -/

theorem createLibraryTemplate_libGo_package (name : String) :
    containsText ("\npackage " ++ name ++ "\n") (createLibraryTemplate_libGo name) := by
  refine ⟨"// Package " ++ name ++ " provides functionality for...",
    "\n// Version is the current version of the library\nconst Version = \"0.1.0\"\n\n" ++
      "// Example is an example function\nfunc Example() string \x7b\n" ++
      "\treturn \"Hello from " ++ name ++ " library!\"\n\x7d\n", ?_⟩
  apply String.ext
  simp only [createLibraryTemplate_libGo, String.data_append, List.append_assoc]
  rfl

theorem createGRPCTemplate_protoFile_package (name modulePath : String) :
    containsText ("\npackage " ++ name ++ ";\n")
      (createGRPCTemplate_protoFile name modulePath) := by
  refine ⟨"syntax = \"proto3\";\n",
    "\noption go_package = \"" ++ modulePath ++ "/pkg/pb\";\n\nservice Greeter \x7b\n" ++
      "  rpc SayHello (HelloRequest) returns (HelloReply) \x7b\x7d\n\x7d\n\n" ++
      "message HelloRequest \x7b\n  string name = 1;\n\x7d\n\n" ++
      "message HelloReply \x7b\n  string message = 1;\n\x7d\n", ?_⟩
  apply String.ext
  simp only [createGRPCTemplate_protoFile, String.data_append, List.append_assoc]
  rfl

theorem hyphen_not_identifier_char :
    ¬ ('-' ∈ asciiLetters ∨ '-' ∈ asciiDigits ∨ '-' = '_') := by decide

theorem isGoPackageIdentifier_no_hyphen (name : String) (h : isGoPackageIdentifier name) :
    '-' ∉ name.data := by
  obtain ⟨⟨c, cs, hd, hc, hcs⟩, _⟩ := h
  rw [hd]
  intro hm
  rcases List.mem_cons.1 hm with h1 | h1
  · rw [← h1] at hc
    exact hyphen_not_identifier_char (hc.elim Or.inl (fun h2 => Or.inr (Or.inr h2)))
  · exact hyphen_not_identifier_char (hcs _ h1)

theorem isGoPackageIdentifier_of_valid (n : String) (hv : validateProjectName n = none)
    (hdash : '-' ∉ n.data) (hk : n ∉ goKeywords) : isGoPackageIdentifier n := by
  obtain ⟨c, cs, hd, hc, hcs⟩ :=
    (validName_MatchString_iff n).1 (validName_of_validateProjectName n hv)
  refine ⟨⟨c, cs, hd, Or.inl hc, fun x hx => ?_⟩, hk⟩
  rcases hcs x hx with h | h | h | h
  · exact Or.inl h
  · exact Or.inr (Or.inl h)
  · exact absurd (by rw [hd, ← h]; exact List.mem_cons_of_mem _ hx) hdash
  · exact Or.inr (Or.inr h)

theorem createLibraryTemplate_exampleGo_call (name modulePath : String) :
    containsText ("\tfmt.Println(" ++ name ++ ".Example())\n")
      (createLibraryTemplate_exampleGo name modulePath) := by
  refine ⟨"//go:build ignore\n\npackage main\n\nimport (\n\t\"fmt\"\n\n\t\"" ++ modulePath ++
      "/pkg/" ++ name ++ "\"\n)\n\nfunc main() \x7b\n", "\x7d\n", ?_⟩
  apply String.ext
  simp only [createLibraryTemplate_exampleGo, String.data_append, List.append_assoc]
  rfl

/-- C24: the code at the failing inputs.  `validateProjectName` accepts `my-app`, which
contains a hyphen, and `func`, which is a Go keyword; neither is a valid Go package
identifier.  The library template nevertheless puts the name unchanged into the clause
`package my-app` of the package source and into the call `my-app.Example()` of the example,
and the grpc template into the line `package my-app;` of the proto file. -/
theorem validateProjectName_accepts_non_identifier :
    validateProjectName "my-app" = none ∧ ¬ isGoPackageIdentifier "my-app" ∧
    validateProjectName "func" = none ∧ ¬ isGoPackageIdentifier "func" ∧
    containsText "\npackage my-app\n" (createLibraryTemplate_libGo "my-app") ∧
    containsText "\npackage my-app;\n"
      (createGRPCTemplate_protoFile "my-app" "github.com/u/my-app") ∧
    containsText "\tfmt.Println(my-app.Example())\n"
      (createLibraryTemplate_exampleGo "my-app" "github.com/u/my-app") := by
  refine ⟨by decide, fun h => isGoPackageIdentifier_no_hyphen _ h (by decide), by decide,
    fun h => h.2 (by decide), createLibraryTemplate_libGo_package "my-app",
    createGRPCTemplate_protoFile_package "my-app" "github.com/u/my-app",
    createLibraryTemplate_exampleGo_call "my-app" "github.com/u/my-app"⟩

end GoScaffold
